import Mathlib

/-!
# Primitive assembly and draw batching of the Vulkan GS handler

A shallow embedding of `CGSH_Vulkan` (register writes, vertex kicks, triangle
emission), of `CDraw` (state setters, vertex batching, flushing, descriptor
sets, the generated fragment program) and of `CClutLoad` (pipeline lookup,
the generated palette-load program), followed by the properties proved about
them.

Conventions of the embedding:

* machine integers are natural numbers; where the source truncates
  (`uint8`, `uint32`) the truncation is written out as a remainder;
* an `assert` does not stop the program: execution goes on as in a build
  without assertion checks, and a failed assertion is remembered in the
  history field `failedAsserts`; for the shader generators the flag
  `unsupported` remembers a reached `assert(false)`, and `delivered` gives
  the outcome with assertion checks active, where the program stops there;
* screen coordinates are kept in units of 1/16 pixel (the source divides the
  16-bit fixed-point fields by 16 and subtracts the offset, which is exact on
  these operands);
* fields without an `m_` prefix are history variables: they record what the
  code has done (draws recorded, vertices appended) and are never read by it.
-/

namespace GSH_Vulkan

/-! ## Draw batcher (`GSH_VulkanDraw.cpp`) -/

/-- Capacity of the shared vertex buffer, `MAX_VERTEX_COUNT`. -/
def MAX_VERTEX_COUNT : Nat := 1024

/-- Vertex as stored in the vertex buffer, `CDraw::PRIM_VERTEX`: position in
sixteenths of a pixel, depth, packed colour and texture coordinates. -/
structure PRIM_VERTEX where
  x : Int
  y : Int
  z : Nat
  color : Nat
  s : Int
  t : Int
  q : Int
deriving DecidableEq

/-- Byte size of a `PRIM_VERTEX`, as the vertex attribute formats of
`CreateDrawPipeline` give it: two floats, a 32-bit depth, a packed colour and
three floats. -/
def SIZEOF_PRIM_VERTEX : Nat := 28

/-- Push constants of the draw pipeline (the projection matrix is set once in
the constructor and left out). -/
structure DRAW_PIPELINE_PUSHCONSTANTS where
  fbBufAddr : Nat
  fbBufWidth : Nat
  depthBufAddr : Nat
  depthBufWidth : Nat
  texBufAddr : Nat
  texBufWidth : Nat
  texWidth : Nat
  texHeight : Nat
deriving DecidableEq

/-- Resource-relevant subset of the pipeline capabilities,
`DESCRIPTORSET_CAPS`. -/
structure DESCRIPTORSET_CAPS where
  hasTexture : Nat
  framebufferFormat : Nat
  depthbufferFormat : Nat
  textureFormat : Nat
deriving DecidableEq

/-- Assertions of the batcher that can fail at run time. -/
inductive Assertion where
  | fitsInBuffer
  | multipleOfThree
  | swizzleTableFormat
deriving DecidableEq

/-- Modelled from the spec: pixel storage format `CGSHandler::PSMCT32` (declared in
`GSHandler.h`, outside the sources at hand), in the GS register encoding. -/
def PSMCT32 : Nat := 0x00

/-- Modelled from the spec: pixel storage format `CGSHandler::PSMCT24` (declared in
`GSHandler.h`, outside the sources at hand), in the GS register encoding. -/
def PSMCT24 : Nat := 0x01

/-- Modelled from the spec: pixel storage format `CGSHandler::PSMCT16` (declared in
`GSHandler.h`, outside the sources at hand), in the GS register encoding. -/
def PSMCT16 : Nat := 0x02

/-- Modelled from the spec: pixel storage format `CGSHandler::PSMCT16S` (declared in
`GSHandler.h`, outside the sources at hand), in the GS register encoding. -/
def PSMCT16S : Nat := 0x0A

/-- Modelled from the spec: pixel storage format `CGSHandler::PSMT8` (declared in
`GSHandler.h`, outside the sources at hand), in the GS register encoding. -/
def PSMT8 : Nat := 0x13

/-- Modelled from the spec: pixel storage format `CGSHandler::PSMT4` (declared in
`GSHandler.h`, outside the sources at hand), in the GS register encoding. -/
def PSMT4 : Nat := 0x14

/-- Modelled from the spec: pixel storage format `CGSHandler::PSMT8H` (declared in
`GSHandler.h`, outside the sources at hand), in the GS register encoding. -/
def PSMT8H : Nat := 0x1B

/-- Modelled from the spec: pixel storage format `CGSHandler::PSMT4HL` (declared in
`GSHandler.h`, outside the sources at hand), in the GS register encoding. -/
def PSMT4HL : Nat := 0x24

/-- Modelled from the spec: pixel storage format `CGSHandler::PSMT4HH` (declared in
`GSHandler.h`, outside the sources at hand), in the GS register encoding. -/
def PSMT4HH : Nat := 0x2C

/-- Modelled from the spec: `CGsPixelFormats::IsPsmIDTEX` (declared outside
the sources at hand), true exactly for the indexed (palette) texture
formats. -/
def IsPsmIDTEX (psm : Nat) : Bool :=
  psm == PSMT8 || psm == PSMT4 || psm == PSMT8H || psm == PSMT4HL || psm == PSMT4HH

/-- Modelled from the spec: field `hasTexture` of the 64-bit `PIPELINE_CAPS` bitfield
(bit 0). The declaration is outside the sources at hand; the fields are laid
out in the order of the capability key of the data model. -/
def PIPELINE_CAPS_hasTexture (caps : Nat) : Nat := caps % 2

/-- Modelled from the spec: field `textureFormat` of the 64-bit `PIPELINE_CAPS` bitfield
(bits 1..6). The declaration is outside the sources at hand; the fields are laid
out in the order of the capability key of the data model. -/
def PIPELINE_CAPS_textureFormat (caps : Nat) : Nat := (caps >>> 1) % 64

/-- Modelled from the spec: field `clutFormat` of the 64-bit `PIPELINE_CAPS` bitfield
(bits 7..12). The declaration is outside the sources at hand; the fields are laid
out in the order of the capability key of the data model. -/
def PIPELINE_CAPS_clutFormat (caps : Nat) : Nat := (caps >>> 7) % 64

/-- Modelled from the spec: field `framebufferFormat` of the 64-bit `PIPELINE_CAPS` bitfield
(bits 13..18). The declaration is outside the sources at hand; the fields are laid
out in the order of the capability key of the data model. -/
def PIPELINE_CAPS_framebufferFormat (caps : Nat) : Nat := (caps >>> 13) % 64

/-- Modelled from the spec: field `depthbufferFormat` of the 64-bit `PIPELINE_CAPS` bitfield
(bits 19..24). The declaration is outside the sources at hand; the fields are laid
out in the order of the capability key of the data model. -/
def PIPELINE_CAPS_depthbufferFormat (caps : Nat) : Nat := (caps >>> 19) % 64

/-- Modelled from the spec: field `hasAlphaBlending` of the 64-bit `PIPELINE_CAPS` bitfield
(bit 25). The declaration is outside the sources at hand; the fields are laid
out in the order of the capability key of the data model. -/
def PIPELINE_CAPS_hasAlphaBlending (caps : Nat) : Nat := (caps >>> 25) % 2

/-- Modelled from the spec: field `alphaA` of the 64-bit `PIPELINE_CAPS` bitfield
(bits 26..27). The declaration is outside the sources at hand; the fields are laid
out in the order of the capability key of the data model. -/
def PIPELINE_CAPS_alphaA (caps : Nat) : Nat := (caps >>> 26) % 4

/-- Modelled from the spec: field `alphaB` of the 64-bit `PIPELINE_CAPS` bitfield
(bits 28..29). The declaration is outside the sources at hand; the fields are laid
out in the order of the capability key of the data model. -/
def PIPELINE_CAPS_alphaB (caps : Nat) : Nat := (caps >>> 28) % 4

/-- Modelled from the spec: field `alphaC` of the 64-bit `PIPELINE_CAPS` bitfield
(bits 30..31). The declaration is outside the sources at hand; the fields are laid
out in the order of the capability key of the data model. -/
def PIPELINE_CAPS_alphaC (caps : Nat) : Nat := (caps >>> 30) % 4

/-- Modelled from the spec: field `alphaD` of the 64-bit `PIPELINE_CAPS` bitfield
(bits 32..33). The declaration is outside the sources at hand; the fields are laid
out in the order of the capability key of the data model. -/
def PIPELINE_CAPS_alphaD (caps : Nat) : Nat := (caps >>> 32) % 4

/-- Descriptor binding slot `DESCRIPTOR_LOCATION_BUFFER_MEMORY` of the draw pipeline. -/
def DESCRIPTOR_LOCATION_BUFFER_MEMORY : Nat := 0

/-- Descriptor binding slot `DESCRIPTOR_LOCATION_IMAGE_CLUT` of the draw pipeline. -/
def DESCRIPTOR_LOCATION_IMAGE_CLUT : Nat := 1

/-- Descriptor binding slot `DESCRIPTOR_LOCATION_IMAGE_SWIZZLETABLE_TEX` of the draw pipeline. -/
def DESCRIPTOR_LOCATION_IMAGE_SWIZZLETABLE_TEX : Nat := 2

/-- Descriptor binding slot `DESCRIPTOR_LOCATION_IMAGE_SWIZZLETABLE_FB` of the draw pipeline. -/
def DESCRIPTOR_LOCATION_IMAGE_SWIZZLETABLE_FB : Nat := 3

/-- Pipeline object as far as the batcher is concerned: the capabilities it
was built for and the binding slots declared in its descriptor-set layout. -/
structure PIPELINE where
  caps : Nat
  setLayoutBindings : List Nat
deriving DecidableEq

/-- Descriptor-set layout part of `CDraw::CreateDrawPipeline` (the shader
modules are generated by `CreateVertexShader` and `CreateFragmentShader`). -/
def CreateDrawPipeline (caps : Nat) : PIPELINE :=
  let b0 := [DESCRIPTOR_LOCATION_BUFFER_MEMORY, DESCRIPTOR_LOCATION_IMAGE_SWIZZLETABLE_FB]
  let b1 :=
    if PIPELINE_CAPS_hasTexture caps ≠ 0 then
      let b := b0 ++ [DESCRIPTOR_LOCATION_IMAGE_SWIZZLETABLE_TEX]
      if IsPsmIDTEX (PIPELINE_CAPS_textureFormat caps) then
        b ++ [DESCRIPTOR_LOCATION_IMAGE_CLUT]
      else b
    else b0
  { caps := caps, setLayoutBindings := b1 }

/-- Modelled from the spec: `CPipelineCache::TryGetPipeline` (the class is
declared outside the sources at hand): the existing entry for the key, or
none. -/
def TryGetPipeline (cache : List (Nat × PIPELINE)) (key : Nat) : Option PIPELINE :=
  (cache.find? (fun e => e.1 == key)).map (fun e => e.2)

/-- Modelled from the spec: `CPipelineCache::RegisterPipeline`: stores a new
entry for the key and hands back the entry now cached for it. An entry
already present for the key is kept. -/
def RegisterPipeline (cache : List (Nat × PIPELINE)) (key : Nat) (p : PIPELINE) :
    List (Nat × PIPELINE) × PIPELINE :=
  let cache1 := cache ++ [(key, p)]
  (cache1, (TryGetPipeline cache1 key).getD p)

/-- Shared backend context, `CContext`, as far as the batcher uses it: the
number of descriptor sets allocated from the descriptor pool. -/
structure CContext where
  descriptorPoolAllocated : Nat
deriving DecidableEq

/-- Assertion of `CContext::GetSwizzleTable`: the format has a swizzle
table (any other format trips the assertion in the default case). -/
def GetSwizzleTable_supported (psm : Nat) : Bool :=
  psm == PSMCT32 || psm == PSMCT24 || psm == PSMCT16 || psm == PSMCT16S ||
    psm == PSMT8 || psm == PSMT4

/-- One recorded draw: what `FlushVertices` writes into the command buffer
for the pending window. -/
structure DrawCall where
  pipeline : PIPELINE
  descriptorSet : Nat
  scissorX : Nat
  scissorY : Nat
  scissorWidth : Nat
  scissorHeight : Nat
  vertexBufferOffset : Nat
  pushConstants : DRAW_PIPELINE_PUSHCONSTANTS
  vertexCount : Nat
  pipelineCaps : Nat
deriving DecidableEq

/-- State of `CDraw`. The last five fields are history variables. -/
structure CDraw where
  m_context : CContext
  m_pipelineCache : List (Nat × PIPELINE)
  m_descriptorSetCache : List (DESCRIPTORSET_CAPS × Nat)
  m_vertexBuffer : Nat → PRIM_VERTEX
  m_passVertexStart : Nat
  m_passVertexEnd : Nat
  m_pipelineCaps : Nat
  m_pushConstants : DRAW_PIPELINE_PUSHCONSTANTS
  m_scissorX : Nat
  m_scissorY : Nat
  m_scissorWidth : Nat
  m_scissorHeight : Nat
  draws : List DrawCall
  descriptorWrites : List (Nat × List Nat)
  frameFlushCount : Nat
  addLog : List (List PRIM_VERTEX)
  failedAsserts : List Assertion

namespace CDraw

/-- State after the constructor: empty window, zero capabilities, empty
caches. -/
def init : CDraw :=
  { m_context := { descriptorPoolAllocated := 0 }
    m_pipelineCache := []
    m_descriptorSetCache := []
    m_vertexBuffer := fun _ => ⟨0, 0, 0, 0, 0, 0, 0⟩
    m_passVertexStart := 0
    m_passVertexEnd := 0
    m_pipelineCaps := 0
    m_pushConstants := ⟨0, 0, 0, 0, 0, 0, 0, 0⟩
    m_scissorX := 0
    m_scissorY := 0
    m_scissorWidth := 0
    m_scissorHeight := 0
    draws := []
    descriptorWrites := []
    frameFlushCount := 0
    addLog := []
    failedAsserts := [] }

/-- Records a failed assertion when the condition is false. -/
def check (d : CDraw) (a : Assertion) (cond : Bool) : CDraw :=
  if cond then d else { d with failedAsserts := d.failedAsserts ++ [a] }

/-- Binding slots written by `PrepareDescriptorSet` for given caps. -/
def descriptorWriteBindings (caps : DESCRIPTORSET_CAPS) : List Nat :=
  let w0 := [DESCRIPTOR_LOCATION_BUFFER_MEMORY, DESCRIPTOR_LOCATION_IMAGE_SWIZZLETABLE_FB]
  if caps.hasTexture ≠ 0 then
    let w := w0 ++ [DESCRIPTOR_LOCATION_IMAGE_SWIZZLETABLE_TEX]
    if IsPsmIDTEX caps.textureFormat then w ++ [DESCRIPTOR_LOCATION_IMAGE_CLUT] else w
  else w0

/-- Embedding of `CDraw::PrepareDescriptorSet`: the cached set for the caps,
or a newly allocated, written and cached one. -/
def PrepareDescriptorSet (d : CDraw) (caps : DESCRIPTORSET_CAPS) : CDraw × Nat :=
  match d.m_descriptorSetCache.find? (fun e => e.1 == caps) with
  | some e => (d, e.2)
  | none =>
    let descriptorSet := d.m_context.descriptorPoolAllocated + 1
    let d1 := { d with m_context := { descriptorPoolAllocated := descriptorSet } }
    let d2 := d1.check Assertion.swizzleTableFormat (GetSwizzleTable_supported caps.textureFormat)
    let d3 := d2.check Assertion.swizzleTableFormat (GetSwizzleTable_supported caps.framebufferFormat)
    let d4 := { d3 with
      descriptorWrites := d3.descriptorWrites ++ [(descriptorSet, descriptorWriteBindings caps)] }
    ({ d4 with m_descriptorSetCache := d4.m_descriptorSetCache ++ [(caps, descriptorSet)] },
      descriptorSet)

/-- Number of vertices in the pending window, `m_passVertexEnd -
m_passVertexStart` in 32-bit unsigned arithmetic. -/
def vertexCount (d : CDraw) : Nat :=
  (d.m_passVertexEnd + 2 ^ 32 - d.m_passVertexStart) % 2 ^ 32

/-- Embedding of `CDraw::FlushVertices`. -/
def FlushVertices (d : CDraw) : CDraw :=
  if d.vertexCount = 0 then d else
  let found := TryGetPipeline d.m_pipelineCache d.m_pipelineCaps
  let reg := RegisterPipeline d.m_pipelineCache d.m_pipelineCaps (CreateDrawPipeline d.m_pipelineCaps)
  let cache1 := match found with
    | some _ => d.m_pipelineCache
    | none => reg.1
  let drawPipeline := match found with
    | some p => p
    | none => reg.2
  let d1 := { d with m_pipelineCache := cache1 }
  let descriptorSetCaps : DESCRIPTORSET_CAPS :=
    { hasTexture := PIPELINE_CAPS_hasTexture d1.m_pipelineCaps
      framebufferFormat := PIPELINE_CAPS_framebufferFormat d1.m_pipelineCaps
      depthbufferFormat := PIPELINE_CAPS_depthbufferFormat d1.m_pipelineCaps
      textureFormat := PIPELINE_CAPS_textureFormat d1.m_pipelineCaps }
  let r := d1.PrepareDescriptorSet descriptorSetCaps
  let d2 := r.1
  let d3 := d2.check Assertion.multipleOfThree (d.vertexCount % 3 == 0)
  let call : DrawCall :=
    { pipeline := drawPipeline
      descriptorSet := r.2
      scissorX := d3.m_scissorX
      scissorY := d3.m_scissorY
      scissorWidth := d3.m_scissorWidth
      scissorHeight := d3.m_scissorHeight
      vertexBufferOffset := d3.m_passVertexStart * SIZEOF_PRIM_VERTEX
      pushConstants := d3.m_pushConstants
      vertexCount := d.vertexCount
      pipelineCaps := d3.m_pipelineCaps }
  { d3 with draws := d3.draws ++ [call], m_passVertexStart := d3.m_passVertexEnd }

/-- Embedding of `CDraw::SetPipelineCaps`. -/
def SetPipelineCaps (d : CDraw) (caps : Nat) : CDraw :=
  let changed : Bool := caps != d.m_pipelineCaps
  if !changed then d else
  let d1 := d.FlushVertices
  { d1 with m_pipelineCaps := caps }

/-- Embedding of `CDraw::SetFramebufferParams`. -/
def SetFramebufferParams (d : CDraw) (addr width : Nat) : CDraw :=
  let changed : Bool :=
    (d.m_pushConstants.fbBufAddr != addr) ||
    (d.m_pushConstants.fbBufWidth != width)
  if !changed then d else
  let d1 := d.FlushVertices
  { d1 with m_pushConstants := { d1.m_pushConstants with fbBufAddr := addr, fbBufWidth := width } }

/-- Embedding of `CDraw::SetDepthbufferParams`. -/
def SetDepthbufferParams (d : CDraw) (addr width : Nat) : CDraw :=
  let changed : Bool :=
    (d.m_pushConstants.depthBufAddr != addr) ||
    (d.m_pushConstants.depthBufWidth != width)
  if !changed then d else
  let d1 := d.FlushVertices
  { d1 with
    m_pushConstants := { d1.m_pushConstants with depthBufAddr := addr, depthBufWidth := width } }

/-- Embedding of `CDraw::SetTextureParams`. -/
def SetTextureParams (d : CDraw) (bufAddr bufWidth width height : Nat) : CDraw :=
  let changed : Bool :=
    (d.m_pushConstants.texBufAddr != bufAddr) ||
    (d.m_pushConstants.texBufWidth != bufWidth) ||
    (d.m_pushConstants.texWidth != width) ||
    (d.m_pushConstants.texHeight != height)
  if !changed then d else
  let d1 := d.FlushVertices
  { d1 with
    m_pushConstants := { d1.m_pushConstants with
      texBufAddr := bufAddr, texBufWidth := bufWidth, texWidth := width, texHeight := height } }

/-- Embedding of `CDraw::SetScissor`. -/
def SetScissor (d : CDraw) (scissorX scissorY scissorWidth scissorHeight : Nat) : CDraw :=
  let changed : Bool :=
    (d.m_scissorX != scissorX) ||
    (d.m_scissorY != scissorY) ||
    (d.m_scissorWidth != scissorWidth) ||
    (d.m_scissorHeight != scissorHeight)
  if !changed then d else
  let d1 := d.FlushVertices
  { d1 with
    m_scissorX := scissorX, m_scissorY := scissorY,
    m_scissorWidth := scissorWidth, m_scissorHeight := scissorHeight }

/-- Embedding of `CDraw::PreFlushFrameCommandBuffer`. -/
def PreFlushFrameCommandBuffer (d : CDraw) : CDraw :=
  d.FlushVertices

/-- Embedding of `CDraw::PostFlushFrameCommandBuffer`. -/
def PostFlushFrameCommandBuffer (d : CDraw) : CDraw :=
  { d with m_passVertexStart := 0, m_passVertexEnd := 0 }

/-- Modelled from the spec: `CFrameCommandBuffer::Flush` (the class is not
among the sources at hand). Forcing a flush of the in-flight GPU work lets
the batcher flush its pending window first (`PreFlushFrameCommandBuffer`),
submits the command buffer, and then lets the batcher restart its window
(`PostFlushFrameCommandBuffer`). -/
def FrameCommandBuffer_Flush (d : CDraw) : CDraw :=
  let d1 := d.PreFlushFrameCommandBuffer
  let d2 := { d1 with frameFlushCount := d1.frameFlushCount + 1 }
  d2.PostFlushFrameCommandBuffer

/-- First half of `CDraw::AddVertices`: makes room for `amount` vertices,
forcing a frame flush when the window would pass the end of the buffer, and
asserts that the vertices now fit. -/
def AddVertices_reserve (d : CDraw) (amount : Nat) : CDraw :=
  if d.m_passVertexEnd + amount > MAX_VERTEX_COUNT then
    let d1 := d.FrameCommandBuffer_Flush
    d1.check Assertion.fitsInBuffer (decide (d1.m_passVertexEnd + amount ≤ MAX_VERTEX_COUNT))
  else d

/-- Second half of `CDraw::AddVertices`: the `memcpy` into the vertex buffer
at `m_passVertexEnd` and the advance of `m_passVertexEnd`. -/
def AddVertices_copy (d : CDraw) (vertices : List PRIM_VERTEX) : CDraw :=
  { d with
    m_vertexBuffer := fun i =>
      if d.m_passVertexEnd ≤ i ∧ i < d.m_passVertexEnd + vertices.length then
        vertices.getD (i - d.m_passVertexEnd) ⟨0, 0, 0, 0, 0, 0, 0⟩
      else d.m_vertexBuffer i
    m_passVertexEnd := (d.m_passVertexEnd + vertices.length) % 2 ^ 32
    addLog := d.addLog ++ [vertices] }

/-- Embedding of `CDraw::AddVertices`; the vertex range is given as a list. -/
def AddVertices (d : CDraw) (vertices : List PRIM_VERTEX) : CDraw :=
  (d.AddVertices_reserve vertices.length).AddVertices_copy vertices

end CDraw

/-! ## Primitive assembler (`GSH_Vulkan.cpp`) -/

/-- Modelled from the spec: register identifier `GS_REG_PRIM` (declared in
`GSHandler.h`, outside the sources at hand), as in the GS register map. -/
def GS_REG_PRIM : Nat := 0x00

/-- Modelled from the spec: register identifier `GS_REG_RGBAQ` (declared in
`GSHandler.h`, outside the sources at hand), as in the GS register map. -/
def GS_REG_RGBAQ : Nat := 0x01

/-- Modelled from the spec: register identifier `GS_REG_ST` (declared in
`GSHandler.h`, outside the sources at hand), as in the GS register map. -/
def GS_REG_ST : Nat := 0x02

/-- Modelled from the spec: register identifier `GS_REG_UV` (declared in
`GSHandler.h`, outside the sources at hand), as in the GS register map. -/
def GS_REG_UV : Nat := 0x03

/-- Modelled from the spec: register identifier `GS_REG_XYZF2` (declared in
`GSHandler.h`, outside the sources at hand), as in the GS register map. -/
def GS_REG_XYZF2 : Nat := 0x04

/-- Modelled from the spec: register identifier `GS_REG_XYZ2` (declared in
`GSHandler.h`, outside the sources at hand), as in the GS register map. -/
def GS_REG_XYZ2 : Nat := 0x05

/-- Modelled from the spec: register identifier `GS_REG_FOG` (declared in
`GSHandler.h`, outside the sources at hand), as in the GS register map. -/
def GS_REG_FOG : Nat := 0x0A

/-- Modelled from the spec: register identifier `GS_REG_XYZF3` (declared in
`GSHandler.h`, outside the sources at hand), as in the GS register map. -/
def GS_REG_XYZF3 : Nat := 0x0C

/-- Modelled from the spec: register identifier `GS_REG_XYZ3` (declared in
`GSHandler.h`, outside the sources at hand), as in the GS register map. -/
def GS_REG_XYZ3 : Nat := 0x0D

/-- Modelled from the spec: register identifier `GS_REG_XYOFFSET_1` (declared in
`GSHandler.h`, outside the sources at hand), as in the GS register map. -/
def GS_REG_XYOFFSET_1 : Nat := 0x18

/-- Modelled from the spec: register identifier `GS_REG_XYOFFSET_2` (declared in
`GSHandler.h`, outside the sources at hand), as in the GS register map. -/
def GS_REG_XYOFFSET_2 : Nat := 0x19

/-- Modelled from the spec: register identifier `GS_REG_PRMODECONT` (declared in
`GSHandler.h`, outside the sources at hand), as in the GS register map. -/
def GS_REG_PRMODECONT : Nat := 0x1A

/-- Modelled from the spec: register identifier `GS_REG_PRMODE` (declared in
`GSHandler.h`, outside the sources at hand), as in the GS register map. -/
def GS_REG_PRMODE : Nat := 0x1B

/-- Modelled from the spec: primitive type `PRIM_POINT` (declared in
`GSHandler.h`, outside the sources at hand), in the encoding of the low three
bits of the PRIM register. -/
def PRIM_POINT : Nat := 0

/-- Modelled from the spec: primitive type `PRIM_LINE` (declared in
`GSHandler.h`, outside the sources at hand), in the encoding of the low three
bits of the PRIM register. -/
def PRIM_LINE : Nat := 1

/-- Modelled from the spec: primitive type `PRIM_LINESTRIP` (declared in
`GSHandler.h`, outside the sources at hand), in the encoding of the low three
bits of the PRIM register. -/
def PRIM_LINESTRIP : Nat := 2

/-- Modelled from the spec: primitive type `PRIM_TRIANGLE` (declared in
`GSHandler.h`, outside the sources at hand), in the encoding of the low three
bits of the PRIM register. -/
def PRIM_TRIANGLE : Nat := 3

/-- Modelled from the spec: primitive type `PRIM_TRIANGLESTRIP` (declared in
`GSHandler.h`, outside the sources at hand), in the encoding of the low three
bits of the PRIM register. -/
def PRIM_TRIANGLESTRIP : Nat := 4

/-- Modelled from the spec: primitive type `PRIM_TRIANGLEFAN` (declared in
`GSHandler.h`, outside the sources at hand), in the encoding of the low three
bits of the PRIM register. -/
def PRIM_TRIANGLEFAN : Nat := 5

/-- Modelled from the spec: primitive type `PRIM_SPRITE` (declared in
`GSHandler.h`, outside the sources at hand), in the encoding of the low three
bits of the PRIM register. -/
def PRIM_SPRITE : Nat := 6

/-- Modelled from the spec: primitive type `PRIM_INVALID` (declared in
`GSHandler.h`, outside the sources at hand), in the encoding of the low three
bits of the PRIM register. -/
def PRIM_INVALID : Nat := 7

/-- Scratch vertex of the assembler, `VERTEX`. -/
structure VERTEX where
  position : Nat
  rgbaq : Nat
  uv : Nat
  st : Nat
  fog : Nat
deriving DecidableEq

/-- Modelled from the spec: field `nShading` of the `PRMODE` bitfield (bit 3;
declared in `GSHandler.h`, outside the sources at hand): 0 is flat shading. -/
def PRMODE_nShading (prim : Nat) : Nat := (prim >>> 3) % 2

/-- Modelled from the spec: field `nContext` of the `PRMODE` bitfield (bit 9;
declared in `GSHandler.h`, outside the sources at hand). -/
def PRMODE_nContext (prim : Nat) : Nat := (prim >>> 9) % 2

/-- Modelled from the spec: field `nX` of the `XYZ` bitfield (bits 0..15;
declared in `GSHandler.h`, outside the sources at hand), in sixteenths. -/
def XYZ_nX (v : Nat) : Nat := v % 2 ^ 16

/-- Modelled from the spec: field `nY` of the `XYZ` bitfield (bits 16..31;
declared in `GSHandler.h`, outside the sources at hand), in sixteenths. -/
def XYZ_nY (v : Nat) : Nat := (v >>> 16) % 2 ^ 16

/-- Modelled from the spec: field `nZ` of the `XYZ` bitfield (bits 32..63;
declared in `GSHandler.h`, outside the sources at hand). -/
def XYZ_nZ (v : Nat) : Nat := (v >>> 32) % 2 ^ 32

/-- Modelled from the spec: field `nR` of the `RGBAQ` bitfield (bits 0..7; declared
in `GSHandler.h`, outside the sources at hand). -/
def RGBAQ_nR (v : Nat) : Nat := v % 256

/-- Modelled from the spec: field `nG` of the `RGBAQ` bitfield (bits 8..15; declared
in `GSHandler.h`, outside the sources at hand). -/
def RGBAQ_nG (v : Nat) : Nat := (v >>> 8) % 256

/-- Modelled from the spec: field `nB` of the `RGBAQ` bitfield (bits 16..23; declared
in `GSHandler.h`, outside the sources at hand). -/
def RGBAQ_nB (v : Nat) : Nat := (v >>> 16) % 256

/-- Modelled from the spec: field `nA` of the `RGBAQ` bitfield (bits 24..31; declared
in `GSHandler.h`, outside the sources at hand). -/
def RGBAQ_nA (v : Nat) : Nat := (v >>> 24) % 256

/-- Modelled from the spec: field `nOffsetX` of the `XYOFFSET` bitfield (bits
0..15; declared in `GSHandler.h`, outside the sources at hand), in
sixteenths. -/
def XYOFFSET_nOffsetX (v : Nat) : Nat := v % 2 ^ 16

/-- Modelled from the spec: field `nOffsetY` of the `XYOFFSET` bitfield (bits
32..47; declared in `GSHandler.h`, outside the sources at hand), in
sixteenths. -/
def XYOFFSET_nOffsetY (v : Nat) : Nat := (v >>> 32) % 2 ^ 16

/-- Embedding of `MakeColor`. -/
def MakeColor (r g b a : Nat) : Nat :=
  ((a <<< 24) ||| (b <<< 16) ||| (g <<< 8) ||| r) % 2 ^ 32

/-- State of `CGSH_Vulkan` together with the register file and the draw
gate of its base class. -/
structure CGSH_Vulkan where
  m_nReg : Nat → Nat
  m_drawEnabled : Bool
  m_vtxCount : Nat
  m_vtxBuffer : Nat → VERTEX
  m_primitiveMode : Nat
  m_primitiveType : Nat
  m_primOfsX : Int
  m_primOfsY : Int
  m_draw : CDraw

namespace CGSH_Vulkan

/-- Embedding of `CGSH_Vulkan::SetRenderingContext`. -/
def SetRenderingContext (s : CGSH_Vulkan) (primReg : Nat) : CGSH_Vulkan :=
  let context := PRMODE_nContext primReg
  let offset := s.m_nReg (GS_REG_XYOFFSET_1 + context)
  { s with
    m_primOfsX := (XYOFFSET_nOffsetX offset : Int)
    m_primOfsY := (XYOFFSET_nOffsetY offset : Int) }

/-- The three vertices built by `CGSH_Vulkan::Prim_Triangle` from the scratch
slots 2, 1 and 0 (in that order), the bound offset and the latched mode. -/
def Prim_Triangle_vertices (primitiveMode : Nat) (primOfsX primOfsY : Int)
    (slot2 slot1 slot0 : VERTEX) : List PRIM_VERTEX :=
  let x1 : Int := XYZ_nX slot2.position
  let x2 : Int := XYZ_nX slot1.position
  let x3 : Int := XYZ_nX slot0.position
  let y1 : Int := XYZ_nY slot2.position
  let y2 : Int := XYZ_nY slot1.position
  let y3 : Int := XYZ_nY slot0.position
  let z1 := XYZ_nZ slot2.position
  let z2 := XYZ_nZ slot1.position
  let z3 := XYZ_nZ slot0.position
  let x1 := x1 - primOfsX
  let x2 := x2 - primOfsX
  let x3 := x3 - primOfsX
  let y1 := y1 - primOfsY
  let y2 := y2 - primOfsY
  let y3 := y3 - primOfsY
  let color1 := MakeColor (RGBAQ_nR slot2.rgbaq) (RGBAQ_nG slot2.rgbaq)
    (RGBAQ_nB slot2.rgbaq) (RGBAQ_nA slot2.rgbaq)
  let color2 := MakeColor (RGBAQ_nR slot1.rgbaq) (RGBAQ_nG slot1.rgbaq)
    (RGBAQ_nB slot1.rgbaq) (RGBAQ_nA slot1.rgbaq)
  let color3 := MakeColor (RGBAQ_nR slot0.rgbaq) (RGBAQ_nG slot0.rgbaq)
    (RGBAQ_nB slot0.rgbaq) (RGBAQ_nA slot0.rgbaq)
  let flat : Bool := PRMODE_nShading primitiveMode == 0
  let color2 := if flat then color3 else color2
  let color1 := if flat then color2 else color1
  [ ⟨x1, y1, z1, color1, 0, 0, 0⟩,
    ⟨x2, y2, z2, color2, 0, 0, 0⟩,
    ⟨x3, y3, z3, color3, 0, 0, 0⟩ ]

/-- Embedding of `CGSH_Vulkan::Prim_Triangle`. -/
def Prim_Triangle (s : CGSH_Vulkan) : CGSH_Vulkan :=
  { s with
    m_draw := s.m_draw.AddVertices
      (Prim_Triangle_vertices s.m_primitiveMode s.m_primOfsX s.m_primOfsY
        (s.m_vtxBuffer 2) (s.m_vtxBuffer 1) (s.m_vtxBuffer 0)) }

/-- The scratch vertex latched by a kick: position and fog from the payload
or the FOG register, colour and texture coordinates from the register
file. -/
def kickVertex (nReg : Nat → Nat) (registerId data : Nat) : VERTEX :=
  let fog : Bool := (registerId == GS_REG_XYZF2) || (registerId == GS_REG_XYZF3)
  if fog then
    { position := data &&& 0x00FFFFFFFFFFFFFF
      rgbaq := nReg GS_REG_RGBAQ
      uv := nReg GS_REG_UV
      st := nReg GS_REG_ST
      fog := (data >>> 56) % 256 }
  else
    { position := data
      rgbaq := nReg GS_REG_RGBAQ
      uv := nReg GS_REG_UV
      st := nReg GS_REG_ST
      fog := (nReg GS_REG_FOG >>> 56) % 256 }

/-- Embedding of `CGSH_Vulkan::VertexKick`. -/
def VertexKick (s : CGSH_Vulkan) (registerId data : Nat) : CGSH_Vulkan :=
  if s.m_vtxCount = 0 then s else
  let drawingKick : Bool := (registerId == GS_REG_XYZ2) || (registerId == GS_REG_XYZF2)
  let drawingKick : Bool := if !s.m_drawEnabled then false else drawingKick
  let s1 := { s with
    m_vtxBuffer := Function.update s.m_vtxBuffer (s.m_vtxCount - 1)
      (kickVertex s.m_nReg registerId data)
    m_vtxCount := s.m_vtxCount - 1 }
  if s1.m_vtxCount = 0 then
    let s2 := { s1 with
      m_primitiveMode :=
        if s1.m_nReg GS_REG_PRMODECONT &&& 1 ≠ 0 then s1.m_nReg GS_REG_PRIM
        else s1.m_nReg GS_REG_PRMODE }
    let s3 := if drawingKick then s2.SetRenderingContext s2.m_primitiveMode else s2
    if s3.m_primitiveType = PRIM_TRIANGLE then
      let s4 := if drawingKick then s3.Prim_Triangle else s3
      { s4 with m_vtxCount := 3 }
    else if s3.m_primitiveType = PRIM_TRIANGLESTRIP then
      let s4 := if drawingKick then s3.Prim_Triangle else s3
      let s5 := { s4 with m_vtxBuffer := Function.update s4.m_vtxBuffer 2 (s4.m_vtxBuffer 1) }
      let s6 := { s5 with m_vtxBuffer := Function.update s5.m_vtxBuffer 1 (s5.m_vtxBuffer 0) }
      { s6 with m_vtxCount := 1 }
    else if s3.m_primitiveType = PRIM_TRIANGLEFAN then
      let s4 := if drawingKick then s3.Prim_Triangle else s3
      let s5 := { s4 with m_vtxBuffer := Function.update s4.m_vtxBuffer 1 (s4.m_vtxBuffer 0) }
      { s5 with m_vtxCount := 1 }
    else s3
  else s1

/-- Modelled from the spec: `CGSHandler::WriteRegisterImpl` of the base
class (not among the sources at hand), which latches the payload in the
register file. -/
def CGSHandler_WriteRegisterImpl (s : CGSH_Vulkan) (registerId data : Nat) : CGSH_Vulkan :=
  { s with m_nReg := Function.update s.m_nReg registerId data }

/-- Embedding of `CGSH_Vulkan::WriteRegisterImpl`. -/
def WriteRegisterImpl (s : CGSH_Vulkan) (registerId data : Nat) : CGSH_Vulkan :=
  let s0 := s.CGSHandler_WriteRegisterImpl registerId data
  if registerId = GS_REG_PRIM then
    let newPrimitiveType := data &&& 0x07
    let s1 :=
      if newPrimitiveType ≠ s0.m_primitiveType then
        { s0 with m_draw := s0.m_draw.FlushVertices }
      else s0
    let s2 := { s1 with m_primitiveType := newPrimitiveType }
    if s2.m_primitiveType = PRIM_POINT then { s2 with m_vtxCount := 1 }
    else if s2.m_primitiveType = PRIM_LINE ∨ s2.m_primitiveType = PRIM_LINESTRIP then
      { s2 with m_vtxCount := 2 }
    else if s2.m_primitiveType = PRIM_TRIANGLE ∨ s2.m_primitiveType = PRIM_TRIANGLESTRIP ∨
        s2.m_primitiveType = PRIM_TRIANGLEFAN then
      { s2 with m_vtxCount := 3 }
    else if s2.m_primitiveType = PRIM_SPRITE then { s2 with m_vtxCount := 2 }
    else s2
  else if registerId = GS_REG_XYZ2 ∨ registerId = GS_REG_XYZ3 ∨
      registerId = GS_REG_XYZF2 ∨ registerId = GS_REG_XYZF3 then
    s0.VertexKick registerId data
  else s0

/-- Embedding of `CGSH_Vulkan::FlipImpl` as far as the assembler and the
batcher are concerned: the pending window is flushed and the descriptor pool
is reset. -/
def FlipImpl (s : CGSH_Vulkan) : CGSH_Vulkan :=
  let d1 := s.m_draw.FlushVertices
  { s with m_draw := { d1 with m_context := { descriptorPoolAllocated := 0 } } }

/-- State after `ResetImpl` with an empty batcher, for a given register
file and draw gate. -/
def init (nReg : Nat → Nat) (drawEnabled : Bool) : CGSH_Vulkan :=
  { m_nReg := nReg
    m_drawEnabled := drawEnabled
    m_vtxCount := 0
    m_vtxBuffer := fun _ => ⟨0, 0, 0, 0, 0⟩
    m_primitiveMode := 0
    m_primitiveType := PRIM_INVALID
    m_primOfsX := 0
    m_primOfsY := 0
    m_draw := CDraw.init }

end CGSH_Vulkan

/-! ## Vocabulary of the properties -/

/-- Packed colour of an `RGBAQ` register value, as `Prim_Triangle` packs
it. -/
def packedColor (rgbaq : Nat) : Nat :=
  MakeColor (RGBAQ_nR rgbaq) (RGBAQ_nG rgbaq) (RGBAQ_nB rgbaq) (RGBAQ_nA rgbaq)

/-- One drawing kick of a client: the colour written to RGBAQ before the
kick, the register variant (XYZF2 when fogged, XYZ2 otherwise) and the
payload. -/
structure Kick where
  rgbaq : Nat
  fogged : Bool
  data : Nat
deriving DecidableEq

/-- Register written by a kick. -/
def Kick.registerId (k : Kick) : Nat :=
  if k.fogged then GS_REG_XYZF2 else GS_REG_XYZ2

/-- The scratch vertex a kick is expected to latch, given the register file
for the texture-coordinate and fog registers. -/
def Kick.vertex (nReg : Nat → Nat) (k : Kick) : VERTEX :=
  { position := if k.fogged then k.data &&& 0x00FFFFFFFFFFFFFF else k.data
    rgbaq := k.rgbaq
    uv := nReg GS_REG_UV
    st := nReg GS_REG_ST
    fog := if k.fogged then (k.data >>> 56) % 256 else (nReg GS_REG_FOG >>> 56) % 256 }

/-- The register writes of one kick: RGBAQ, then the position register. -/
def drawingKick (s : CGSH_Vulkan) (k : Kick) : CGSH_Vulkan :=
  (s.WriteRegisterImpl GS_REG_RGBAQ k.rgbaq).WriteRegisterImpl k.registerId k.data

/-- A sequence of kicks, in order. -/
def drawingKicks (s : CGSH_Vulkan) (ks : List Kick) : CGSH_Vulkan :=
  ks.foldl drawingKick s

/-- Primitive mode selected by PRMODECONT in a register file. -/
def latchedMode (nReg : Nat → Nat) : Nat :=
  if nReg GS_REG_PRMODECONT &&& 1 ≠ 0 then nReg GS_REG_PRIM else nReg GS_REG_PRMODE

/-- Triangle expected from three scratch vertices under the mode and the
offset selected by a register file. -/
def triangleOfVertices (nReg : Nat → Nat) (v1 v2 v3 : VERTEX) : List PRIM_VERTEX :=
  CGSH_Vulkan.Prim_Triangle_vertices (latchedMode nReg)
    (XYOFFSET_nOffsetX (nReg (GS_REG_XYOFFSET_1 + PRMODE_nContext (latchedMode nReg))))
    (XYOFFSET_nOffsetY (nReg (GS_REG_XYOFFSET_1 + PRMODE_nContext (latchedMode nReg))))
    v1 v2 v3

/-- Triangle expected from three kicks, first to last. -/
def triangleOf (nReg : Nat → Nat) (a b c : Kick) : List PRIM_VERTEX :=
  triangleOfVertices nReg (a.vertex nReg) (b.vertex nReg) (c.vertex nReg)

/-- Position latched by a kick: the payload, without its fog byte for the
fogged register variant. -/
def Kick.position (k : Kick) : Nat :=
  if k.fogged then k.data &&& 0x00FFFFFFFFFFFFFF else k.data

/-- X offset bound at a completing kick under a register file: the X
offset of the context selected by the latched mode. -/
def boundOfsX (nReg : Nat → Nat) : Int :=
  XYOFFSET_nOffsetX (nReg (GS_REG_XYOFFSET_1 + PRMODE_nContext (latchedMode nReg)))

/-- Y offset bound at a completing kick under a register file. -/
def boundOfsY (nReg : Nat → Nat) : Int :=
  XYOFFSET_nOffsetY (nReg (GS_REG_XYOFFSET_1 + PRMODE_nContext (latchedMode nReg)))

/-- Emitted vertex with the position of kick `k` and a given packed
colour. -/
def emittedVertex (nReg : Nat → Nat) (k : Kick) (color : Nat) : PRIM_VERTEX :=
  { x := (XYZ_nX k.position : Int) - boundOfsX nReg
    y := (XYZ_nY k.position : Int) - boundOfsY nReg
    z := XYZ_nZ k.position
    color := color
    s := 0
    t := 0
    q := 0 }

/-- Triangle whose vertices carry, each, the position and the colour latched
at its own kick. -/
def ownColourTriangle (nReg : Nat → Nat) (a b c : Kick) : List PRIM_VERTEX :=
  [emittedVertex nReg a (packedColor a.rgbaq), emittedVertex nReg b (packedColor b.rgbaq),
    emittedVertex nReg c (packedColor c.rgbaq)]

/-- Triangle expected from three kicks, first to last, stated outright: each
vertex has the position latched at its own kick; under smooth shading it has
the colour latched at its own kick, under flat shading (`nShading = 0`) all
three have the colour latched at the last kick. -/
def expectedTriangle (nReg : Nat → Nat) (a b c : Kick) : List PRIM_VERTEX :=
  if PRMODE_nShading (latchedMode nReg) = 0 then
    [emittedVertex nReg a (packedColor c.rgbaq), emittedVertex nReg b (packedColor c.rgbaq),
      emittedVertex nReg c (packedColor c.rgbaq)]
  else ownColourTriangle nReg a b c

/-- The i-th kick of a sequence. -/
def kickAt (ks : List Kick) (i : Nat) : Kick :=
  ks.getD i ⟨0, false, 0⟩

/-- Two register files agree on every register a kick does not write. -/
def stableRegs (f g : Nat → Nat) : Prop :=
  ∀ r, r ≠ GS_REG_RGBAQ → r ≠ GS_REG_XYZ2 → r ≠ GS_REG_XYZF2 → f r = g r

/-- Conditions that hold throughout a run of drawing kicks: drawing is
enabled, the primitive type is fixed, and the registers the kicks do not
write keep their values. -/
structure KickInv (R : Nat → Nat) (ty : Nat) (t : CGSH_Vulkan) : Prop where
  enabled : t.m_drawEnabled = true
  type : t.m_primitiveType = ty
  regs : stableRegs t.m_nReg R

/-- Triangles of a triangle list: consecutive groups of three kicks. -/
def listTriangles (R : Nat → Nat) : List Kick → List (List PRIM_VERTEX)
  | a :: b :: c :: rest => triangleOf R a b c :: listTriangles R rest
  | _ => []

/-- Triangles of a strip that continues after the vertices `p`, `q`. -/
def stripTriangles (R : Nat → Nat) (p q : VERTEX) : List Kick → List (List PRIM_VERTEX)
  | [] => []
  | k :: rest => triangleOfVertices R p q (k.vertex R) :: stripTriangles R q (k.vertex R) rest

/-- Triangles of a fan around `p` that continues after the vertex `q`. -/
def fanTriangles (R : Nat → Nat) (p q : VERTEX) : List Kick → List (List PRIM_VERTEX)
  | [] => []
  | k :: rest => triangleOfVertices R p q (k.vertex R) :: fanTriangles R p (k.vertex R) rest

/-- The draw `call` was recorded for the pending window of `d`: it covers
`vertexCount` vertices starting at the window start. -/
def CoversWindow (d : CDraw) (call : DrawCall) : Prop :=
  call.vertexCount = d.vertexCount ∧
    call.vertexBufferOffset = d.m_passVertexStart * SIZEOF_PRIM_VERTEX

/-- The draw `call` was recorded under the render state of `d`: pipeline
key, push constants and scissor rectangle. -/
def UsesStateOf (d : CDraw) (call : DrawCall) : Prop :=
  call.pipelineCaps = d.m_pipelineCaps ∧ call.pushConstants = d.m_pushConstants ∧
    call.scissorX = d.m_scissorX ∧ call.scissorY = d.m_scissorY ∧
    call.scissorWidth = d.m_scissorWidth ∧ call.scissorHeight = d.m_scissorHeight

/-- The render state (pipeline key, push constants, scissor) of two batcher
states is the same. -/
def SameRenderState (d d' : CDraw) : Prop :=
  d'.m_pipelineCaps = d.m_pipelineCaps ∧ d'.m_pushConstants = d.m_pushConstants ∧
    d'.m_scissorX = d.m_scissorX ∧ d'.m_scissorY = d.m_scissorY ∧
    d'.m_scissorWidth = d.m_scissorWidth ∧ d'.m_scissorHeight = d.m_scissorHeight

/-- Contract of a state setter that takes `d` to `d'`: when the arguments
are the values in effect (`same`) nothing changes; when they differ and the
pending window is non-empty exactly one draw is recorded, for that window;
when they differ and the window is empty no draw is recorded; and in every
case the values are stored afterwards (`stored`). -/
def SetterContract (d d' : CDraw) (same stored : Prop) : Prop :=
  (same → d' = d) ∧
    (¬ same → d.vertexCount ≠ 0 → ∃ call, d'.draws = d.draws ++ [call] ∧ CoversWindow d call) ∧
    (¬ same → d.vertexCount = 0 → d'.draws = d.draws) ∧
    stored

/-- A setter that takes `d` to `d'` on a change finishes the pending batch
under the old state: the flush of `d` records one draw that uses the render
state of `d`, the flushed state still has that render state, and `d'` is the
flushed state with the new values stored by `store`. -/
def FlushesUnderOldState (d d' : CDraw) (changed : Prop) (store : CDraw → CDraw) : Prop :=
  changed → d.vertexCount ≠ 0 →
    ∃ call, d.FlushVertices.draws = d.draws ++ [call] ∧ UsesStateOf d call ∧
      SameRenderState d d.FlushVertices ∧ d' = store d.FlushVertices ∧
      d'.draws = d.draws ++ [call]

/-- A batcher with one pending triangle, used as a concrete instance. -/
def CDraw.oneTriangle : CDraw :=
  CDraw.init.AddVertices [⟨0, 0, 0, 0, 0, 0, 0⟩, ⟨16, 0, 0, 0, 0, 0, 0⟩, ⟨0, 16, 0, 0, 0, 0, 0⟩]

/-- The draw `call` covers every slot of the pending window of `d`: the
byte range it reads from the vertex buffer contains each slot from the window
start up to the window end. -/
def CoversSlots (d : CDraw) (call : DrawCall) : Prop :=
  ∀ i, d.m_passVertexStart ≤ i → i < d.m_passVertexEnd →
    call.vertexBufferOffset ≤ i * SIZEOF_PRIM_VERTEX ∧
      (i + 1) * SIZEOF_PRIM_VERTEX ≤
        call.vertexBufferOffset + call.vertexCount * SIZEOF_PRIM_VERTEX

/-- A batcher whose window ends one triangle short of the buffer end, with
one triangle pending, used as a concrete instance. -/
def CDraw.nearlyFull : CDraw :=
  { CDraw.init with m_passVertexStart := 1020, m_passVertexEnd := 1023 }

/-- What one batcher call that is not an append can do to the window and
to the histories of `d`: the window end stays, the window start stays or
moves to the end, at most one draw is recorded (for the pending window), and
the only assertions that can fail are the swizzle-table one and, for a
window that is not a multiple of three, the multiple-of-three one. -/
def WindowStep (d d' : CDraw) : Prop :=
  d'.m_passVertexEnd = d.m_passVertexEnd ∧
    (d'.m_passVertexStart = d.m_passVertexStart ∨ d'.m_passVertexStart = d.m_passVertexEnd) ∧
    (d'.draws = d.draws ∨ ∃ call, d'.draws = d.draws ++ [call] ∧ call.vertexCount = d.vertexCount) ∧
    (∃ extra, d'.failedAsserts = d.failedAsserts ++ extra ∧
      ∀ a ∈ extra, a = Assertion.swizzleTableFormat ∨
        (a = Assertion.multipleOfThree ∧ d.vertexCount % 3 ≠ 0))

/-- Calls a client can make on the batcher. -/
inductive CDraw.Op where
  | addVertices (vertices : List PRIM_VERTEX)
  | setPipelineCaps (caps : Nat)
  | setFramebufferParams (addr width : Nat)
  | setDepthbufferParams (addr width : Nat)
  | setTextureParams (bufAddr bufWidth width height : Nat)
  | setScissor (scissorX scissorY scissorWidth scissorHeight : Nat)
  | flushVertices
  | frameFlush
  | preFlushFrameCommandBuffer
  | postFlushFrameCommandBuffer

/-- Number of vertices a call appends. -/
def CDraw.Op.amount : CDraw.Op → Nat
  | .addVertices vertices => vertices.length
  | _ => 0

/-- Effect of one batcher call. -/
def CDraw.step (d : CDraw) : CDraw.Op → CDraw
  | .addVertices vertices => d.AddVertices vertices
  | .setPipelineCaps caps => d.SetPipelineCaps caps
  | .setFramebufferParams addr width => d.SetFramebufferParams addr width
  | .setDepthbufferParams addr width => d.SetDepthbufferParams addr width
  | .setTextureParams bufAddr bufWidth width height =>
    d.SetTextureParams bufAddr bufWidth width height
  | .setScissor x y w h => d.SetScissor x y w h
  | .flushVertices => d.FlushVertices
  | .frameFlush => d.FrameCommandBuffer_Flush
  | .preFlushFrameCommandBuffer => d.PreFlushFrameCommandBuffer
  | .postFlushFrameCommandBuffer => d.PostFlushFrameCommandBuffer

/-- Effect of a sequence of batcher calls, in order. -/
def CDraw.run (d : CDraw) (ops : List CDraw.Op) : CDraw :=
  ops.foldl CDraw.step d

/-- Events of the backend: register writes, state-setter calls on the
batcher, flushes and frame ends. Vertices reach the batcher only through the
register writes. -/
inductive CGSH_Vulkan.Op where
  | writeRegister (registerId data : Nat)
  | setPipelineCaps (caps : Nat)
  | setFramebufferParams (addr width : Nat)
  | setDepthbufferParams (addr width : Nat)
  | setTextureParams (bufAddr bufWidth width height : Nat)
  | setScissor (scissorX scissorY scissorWidth scissorHeight : Nat)
  | flushVertices
  | frameFlush
  | flip

/-- Effect of one backend event. -/
def CGSH_Vulkan.step (s : CGSH_Vulkan) : CGSH_Vulkan.Op → CGSH_Vulkan
  | .writeRegister registerId data => s.WriteRegisterImpl registerId data
  | .setPipelineCaps caps => { s with m_draw := s.m_draw.SetPipelineCaps caps }
  | .setFramebufferParams addr width =>
    { s with m_draw := s.m_draw.SetFramebufferParams addr width }
  | .setDepthbufferParams addr width =>
    { s with m_draw := s.m_draw.SetDepthbufferParams addr width }
  | .setTextureParams bufAddr bufWidth width height =>
    { s with m_draw := s.m_draw.SetTextureParams bufAddr bufWidth width height }
  | .setScissor x y w h => { s with m_draw := s.m_draw.SetScissor x y w h }
  | .flushVertices => { s with m_draw := s.m_draw.FlushVertices }
  | .frameFlush => { s with m_draw := s.m_draw.FrameCommandBuffer_Flush }
  | .flip => s.FlipImpl

/-- Effect of a sequence of backend events, in order. -/
def CGSH_Vulkan.run (s : CGSH_Vulkan) (ops : List CGSH_Vulkan.Op) : CGSH_Vulkan :=
  ops.foldl CGSH_Vulkan.step s

/-- Window invariant of the batcher: the window is a range inside the vertex
buffer and the fit assertion of `AddVertices` has never failed. -/
def CDraw.WindowOk (d : CDraw) : Prop :=
  d.m_passVertexStart ≤ d.m_passVertexEnd ∧ d.m_passVertexEnd ≤ MAX_VERTEX_COUNT ∧
    Assertion.fitsInBuffer ∉ d.failedAsserts

/-- Triangle invariant of the batcher: the window is a range inside the
vertex buffer whose size is a multiple of three, the multiple-of-three
assertion has never failed and every recorded draw submits a multiple of
three vertices. -/
def CDraw.TrianglesOk (d : CDraw) : Prop :=
  d.m_passVertexStart ≤ d.m_passVertexEnd ∧ d.m_passVertexEnd ≤ MAX_VERTEX_COUNT ∧
    (d.m_passVertexEnd - d.m_passVertexStart) % 3 = 0 ∧
    Assertion.multipleOfThree ∉ d.failedAsserts ∧
    ∀ call ∈ d.draws, call.vertexCount % 3 = 0

/-! ## Palette loader (`GSH_VulkanClutLoad.cpp`): pipeline lookup -/

/-- Modelled from the spec: texture descriptor `CGSHandler::TEX0` (declared in
`GSHandler.h`, outside the sources at hand), as far as the palette loader
reads it: texture format, palette storage mode and format, palette bank
selector and the palette buffer pointer returned by `GetCLUTPtr`. -/
structure TEX0 where
  nPsm : Nat
  nCSM : Nat
  nCPSM : Nat
  nCSA : Nat
  clutPtr : Nat
deriving DecidableEq

/-- Modelled from the spec: `CGsPixelFormats::IsPsmIDTEX8` (declared outside
the sources at hand), true exactly for the 8-bit indexed texture formats. -/
def IsPsmIDTEX8 (psm : Nat) : Bool :=
  psm == PSMT8 || psm == PSMT8H

/-- Capabilities of a palette-load pipeline, `CClutLoad::PIPELINE_CAPS`:
8-bit-indexed flag, palette storage mode and palette storage format. -/
structure CLUTLOAD_CAPS where
  idx8 : Nat
  csm : Nat
  cpsm : Nat
deriving DecidableEq

/-- Modelled from the spec: integer encoding of `CClutLoad::PIPELINE_CAPS`
(the bitfield is declared outside the sources at hand): one bit for `idx8`,
one for `csm`, four for `cpsm`. -/
def CLUTLOAD_CAPS.encode (caps : CLUTLOAD_CAPS) : Nat :=
  caps.idx8 % 2 + 2 * (caps.csm % 2) + 4 * (caps.cpsm % 16)

/-- Binding slots of the palette-load pipeline. -/
def DESCRIPTOR_LOCATION_MEMORY : Nat := 0

/-- Binding slot of the palette image in the palette-load pipeline. -/
def DESCRIPTOR_LOCATION_CLUT : Nat := 1

/-- Binding slot of the swizzle table in the palette-load pipeline. -/
def DESCRIPTOR_LOCATION_SWIZZLETABLE : Nat := 2

/-- Descriptor-set layout part of `CClutLoad::CreateLoadPipeline` (the
compute shader is generated by `CreateLoadShader`). -/
def CreateLoadPipeline (caps : CLUTLOAD_CAPS) : PIPELINE :=
  { caps := caps.encode
    setLayoutBindings :=
      [DESCRIPTOR_LOCATION_MEMORY, DESCRIPTOR_LOCATION_CLUT, DESCRIPTOR_LOCATION_SWIZZLETABLE] }

/-- One recorded palette-load dispatch. -/
structure ClutDispatch where
  pipeline : PIPELINE
  descriptorSet : Nat
  clutBufPtr : Nat
  csa : Nat
deriving DecidableEq

/-- State of `CClutLoad`; `dispatches` and `failedAsserts` are history
variables. The context is the one shared with the batcher, seen from the
loader. -/
structure CClutLoad where
  m_context : CContext
  m_pipelines : List (Nat × PIPELINE)
  dispatches : List ClutDispatch
  failedAsserts : List Assertion

/-- State after the constructor. -/
def CClutLoad.init : CClutLoad :=
  { m_context := { descriptorPoolAllocated := 0 }
    m_pipelines := []
    dispatches := []
    failedAsserts := [] }

/-- Capabilities derived by `DoClutLoad` from a texture descriptor. -/
def CClutLoad.capsOf (tex0 : TEX0) : CLUTLOAD_CAPS :=
  { idx8 := if IsPsmIDTEX8 tex0.nPsm then 1 else 0
    csm := tex0.nCSM
    cpsm := tex0.nCPSM }

/-- Embedding of `CClutLoad::DoClutLoad`: pipeline lookup or creation,
swizzle table selection, a freshly allocated descriptor set, and one
dispatch. -/
def CClutLoad.DoClutLoad (c : CClutLoad) (tex0 : TEX0) : CClutLoad :=
  let caps := CClutLoad.capsOf tex0
  let found := TryGetPipeline c.m_pipelines caps.encode
  let reg := RegisterPipeline c.m_pipelines caps.encode (CreateLoadPipeline caps)
  let cache1 := match found with
    | some _ => c.m_pipelines
    | none => reg.1
  let loadPipeline := match found with
    | some p => p
    | none => reg.2
  let c1 := { c with m_pipelines := cache1 }
  let c2 :=
    if GetSwizzleTable_supported tex0.nCPSM then c1
    else { c1 with failedAsserts := c1.failedAsserts ++ [Assertion.swizzleTableFormat] }
  let descriptorSet := c2.m_context.descriptorPoolAllocated + 1
  let c3 := { c2 with m_context := { descriptorPoolAllocated := descriptorSet } }
  { c3 with dispatches := c3.dispatches ++ [{
      pipeline := loadPipeline, descriptorSet := descriptorSet,
      clutBufPtr := tex0.clutPtr, csa := tex0.nCSA }] }

/-- A pipeline cache after a sequence of further registrations. -/
def registerAll (cache : List (Nat × PIPELINE)) (later : List (Nat × PIPELINE)) :
    List (Nat × PIPELINE) :=
  later.foldl (fun c e => (RegisterPipeline c e.1 e.2).1) cache

/-- A backend with one triangle pending in the batcher, used as a concrete
instance. -/
def CGSH_Vulkan.onePending : CGSH_Vulkan :=
  { CGSH_Vulkan.init (fun _ => 0) true with m_draw := CDraw.oneTriangle }

/-- What one batcher call can do to the pipeline cache: nothing, or add the
pipeline built for a key that was not cached. -/
def CacheStep (c c' : List (Nat × PIPELINE)) : Prop :=
  c' = c ∨ ∃ k, TryGetPipeline c k = none ∧ c' = c ++ [(k, CreateDrawPipeline k)]

/-! ## Generated shaders

The shader generators build a program with a builder; the embedding gives,
for each generator, what one invocation of the generated program computes.
Values read from emulated memory are inputs of the embedding (the addressing
and memory utilities are outside the sources at hand). Shader integers are
32 bits wide. -/

/-- Outcome of a piece of shader generation: what was generated, and whether
an `assert(false)` marking an unsupported configuration was passed on the
way (generation then goes on as in a build without assertion checks). -/
structure Generated (β : Type) where
  value : β
  unsupported : Bool

/-- The palette index permutation of the 8-bit-indexed mode, as
`CreateLoadShader` emits it: `(i & ~0x18) | ((i & 0x08) << 1) | ((i & 0x10)
>> 1)` on 32-bit integers. -/
def permuteIndex (clutIndex : Nat) : Nat :=
  (clutIndex &&& 0xFFFFFFE7) ||| (((clutIndex &&& 0x08) <<< 1) % 2 ^ 32) |||
    ((clutIndex &&& 0x10) >>> 1)

/-- Palette slot index computed by the load shader for invocation (x, y):
permuted `x + y * 16` in 8-bit-indexed mode, `x + y * 8 + csa * 16`
otherwise. -/
def CreateLoadShader_clutIndex (idx8 csa x y : Nat) : Nat :=
  if idx8 ≠ 0 then
    permuteIndex ((x + (y * 16) % 2 ^ 32) % 2 ^ 32)
  else
    (((x + (y * 8) % 2 ^ 32) % 2 ^ 32) + (csa * 16) % 2 ^ 32) % 2 ^ 32

/-- One `Store` into the palette image: coordinates and the stored first
component. -/
structure ClutStore where
  x : Nat
  y : Nat
  value : Nat
deriving DecidableEq

/-- Stores emitted by the load shader for a slot index and a fetched colour
(second switch over `cpsm` of `CreateLoadShader`): low half at `(index, 0)`,
high half at `(index + 0x100, 0)` for the 32-bit palette format, nothing for
any other format. -/
def CreateLoadShader_stores (cpsm clutIndex colorPixel : Nat) : List ClutStore :=
  if cpsm = PSMCT32 then
    [ { x := clutIndex, y := 0, value := colorPixel &&& 0xFFFF },
      { x := (clutIndex + 0x100) % 2 ^ 32, y := 0, value := (colorPixel >>> 16) &&& 0xFFFF } ]
  else []

/-- The compute program generated by `CClutLoad::CreateLoadShader`: local
size, whether a memory read is emitted, and the stores of one invocation
given the bank selector, the colour read from memory and the invocation
coordinates. -/
structure LoadShader where
  localSizeX : Nat
  localSizeY : Nat
  readsMemory : Bool
  stores : Nat → Nat → Nat → Nat → List ClutStore

/-- Embedding of `CClutLoad::CreateLoadShader`. -/
def CreateLoadShader (caps : CLUTLOAD_CAPS) : Generated LoadShader :=
  { value :=
      { localSizeX := if caps.idx8 ≠ 0 then 16 else 8
        localSizeY := if caps.idx8 ≠ 0 then 16 else 2
        readsMemory := caps.cpsm == PSMCT32
        stores := fun csa colorPixel x y =>
          CreateLoadShader_stores caps.cpsm (CreateLoadShader_clutIndex caps.idx8 csa x y)
            colorPixel }
    unsupported := !(caps.cpsm == PSMCT32) }

/-- Content of the palette image: first component at integer coordinates. -/
def ClutImage : Type := Nat → Nat → Nat

/-- Effect of one store on the palette image. -/
def ClutImage.store (image : ClutImage) (s : ClutStore) : ClutImage :=
  fun x y => if x = s.x ∧ y = s.y then s.value else image x y

/-- Effect of a list of stores, in order. -/
def ClutImage.storeAll (image : ClutImage) (stores : List ClutStore) : ClutImage :=
  stores.foldl ClutImage.store image

/-- How the generated fragment program turns a raw pixel into a colour: with
the 32-bit decode function (`PSM32ToVec4`) or the 16-bit one
(`PSM16ToVec4`), applied to the given packed value. -/
inductive TexelDecode where
  | psm32 (pixel : Nat)
  | psm16 (pixel : Nat)
deriving DecidableEq

/-- Embedding of `GetTextureColor`: `texPixel` is the raw texel read from
memory by the case taken. -/
def GetTextureColor (textureFormat clutFormat texPixel : Nat) (clutImage : ClutImage) :
    Generated TexelDecode :=
  if textureFormat = PSMCT32 then
    { value := .psm32 texPixel, unsupported := false }
  else if textureFormat = PSMCT16S then
    { value := .psm16 texPixel, unsupported := false }
  else if textureFormat = PSMT8 then
    let clutPixelLo := clutImage (texPixel % 2 ^ 32) 0
    let clutPixelHi := clutImage ((texPixel + 0x100) % 2 ^ 32) 0
    let clutPixel := clutPixelLo ||| ((clutPixelHi <<< 16) % 2 ^ 32)
    { value := .psm32 clutPixel, unsupported := !(clutFormat == PSMCT32) }
  else if textureFormat = PSMT4 then
    let test := (texPixel * 0x10) % 2 ^ 32
    { value := .psm32 (test ||| 0xFF000000), unsupported := !(clutFormat == PSMCT32) }
  else
    { value := .psm32 texPixel, unsupported := true }

/-- The palette lookup that the spec describes for an indexed texel: read
the palette image at `(index, 0)` and `(index + 256, 0)`, recombine the
halves and decode with the 32-bit decode function. -/
def paletteLookup (index : Nat) (clutImage : ClutImage) : TexelDecode :=
  .psm32 (clutImage index 0 ||| ((clutImage (index + 256) 0 <<< 16) % 2 ^ 32))

/-- A palette image whose slots hold their own x coordinate, used as a
concrete instance. -/
def ClutImage.ramp : ClutImage := fun x _ => x


/-! ## Fragment program (`CDraw::CreateFragmentShader`)

Shader floats are the elements of an ordered ring `α` given as a parameter;
colours decoded from memory are inputs. -/

/-- Three-component shader vector. -/
structure Float3 (α : Type) where
  x : α
  y : α
  z : α
deriving DecidableEq

/-- Four-component shader vector; a colour is (r, g, b, a). -/
structure Float4 (α : Type) where
  x : α
  y : α
  z : α
  w : α
deriving DecidableEq

/-- Swizzle `xyz()`. -/
def Float4.xyz {α : Type} (v : Float4 α) : Float3 α := ⟨v.x, v.y, v.z⟩

/-- Swizzle `www()`. -/
def Float4.www {α : Type} (v : Float4 α) : Float3 α := ⟨v.w, v.w, v.w⟩

/-- Componentwise difference. -/
def Float3.sub {α : Type} [LinearOrderedRing α] (a b : Float3 α) : Float3 α :=
  ⟨a.x - b.x, a.y - b.y, a.z - b.z⟩

/-- Componentwise product. -/
def Float3.mul {α : Type} [LinearOrderedRing α] (a b : Float3 α) : Float3 α :=
  ⟨a.x * b.x, a.y * b.y, a.z * b.z⟩

/-- Componentwise sum. -/
def Float3.add {α : Type} [LinearOrderedRing α] (a b : Float3 α) : Float3 α :=
  ⟨a.x + b.x, a.y + b.y, a.z + b.z⟩

/-- Componentwise product. -/
def Float4.mul {α : Type} [LinearOrderedRing α] (a b : Float4 α) : Float4 α :=
  ⟨a.x * b.x, a.y * b.y, a.z * b.z, a.w * b.w⟩

/-- Scalar `Clamp(x, lo, hi)` of the shader language: `min(max(x, lo), hi)`. -/
def Clamp {α : Type} [LinearOrderedRing α] (x lo hi : α) : α := min (max x lo) hi

/-- Componentwise `Clamp`. -/
def Float4.Clamp {α : Type} [LinearOrderedRing α] (v lo hi : Float4 α) : Float4 α :=
  ⟨GSH_Vulkan.Clamp v.x lo.x hi.x, GSH_Vulkan.Clamp v.y lo.y hi.y,
    GSH_Vulkan.Clamp v.z lo.z hi.z, GSH_Vulkan.Clamp v.w lo.w hi.w⟩

/-- Modelled from the spec: blend operand selector `CGSHandler::ALPHABLEND_ABD_CS`
(source colour), declared in `GSHandler.h`, outside the sources at hand. -/
def ALPHABLEND_ABD_CS : Nat := 0

/-- Modelled from the spec: blend operand selector `CGSHandler::ALPHABLEND_ABD_CD`
(destination colour), declared outside the sources at hand. -/
def ALPHABLEND_ABD_CD : Nat := 1

/-- Modelled from the spec: blend operand selector `CGSHandler::ALPHABLEND_ABD_ZERO`,
declared outside the sources at hand. -/
def ALPHABLEND_ABD_ZERO : Nat := 2

/-- Modelled from the spec: blend operand selector `CGSHandler::ALPHABLEND_C_AS`
(source alpha), declared outside the sources at hand. -/
def ALPHABLEND_C_AS : Nat := 0

/-- Modelled from the spec: blend operand selector `CGSHandler::ALPHABLEND_C_AD`
(destination alpha), declared outside the sources at hand. -/
def ALPHABLEND_C_AD : Nat := 1

/-- Embedding of `GetAlphaABD`: the `default` label asserts and falls
through to the source-colour case. -/
def GetAlphaABD {α : Type} [LinearOrderedRing α] (alphaABD : Nat)
    (srcColor dstColor : Float4 α) : Generated (Float3 α) :=
  if alphaABD = ALPHABLEND_ABD_CS then
    { value := srcColor.xyz, unsupported := false }
  else if alphaABD = ALPHABLEND_ABD_CD then
    { value := dstColor.xyz, unsupported := false }
  else if alphaABD = ALPHABLEND_ABD_ZERO then
    { value := ⟨0, 0, 0⟩, unsupported := false }
  else
    { value := srcColor.xyz, unsupported := true }

/-- Embedding of `GetAlphaC`: the `default` label asserts and falls through
to the source-alpha case. -/
def GetAlphaC {α : Type} [LinearOrderedRing α] (alphaC : Nat)
    (srcColor dstColor : Float4 α) : Generated (Float3 α) :=
  if alphaC = ALPHABLEND_C_AS then
    { value := srcColor.www, unsupported := false }
  else if alphaC = ALPHABLEND_C_AD then
    { value := dstColor.www, unsupported := false }
  else
    { value := srcColor.www, unsupported := true }

/-- Blend stage of `CreateFragmentShader` (the `if(caps.hasAlphaBlending)`
statement): the colour that is packed and written, from the source colour
`textureColor` and the decoded destination colour. -/
def CreateFragmentShader_blend {α : Type} [LinearOrderedRing α]
    (hasAlphaBlending alphaA alphaB alphaC alphaD : Nat)
    (textureColor dstColor : Float4 α) : Generated (Float4 α) :=
  if hasAlphaBlending ≠ 0 then
    let a := GetAlphaABD alphaA textureColor dstColor
    let b := GetAlphaABD alphaB textureColor dstColor
    let c := GetAlphaC alphaC textureColor dstColor
    let d := GetAlphaABD alphaD textureColor dstColor
    let blendedColor := (((a.value.sub b.value).mul c.value).mul ⟨2, 2, 2⟩).add d.value
    let finalColor : Float4 α := ⟨blendedColor.x, blendedColor.y, blendedColor.z, textureColor.w⟩
    { value := finalColor.Clamp ⟨0, 0, 0, 0⟩ ⟨1, 1, 1, 1⟩
      unsupported := a.unsupported || b.unsupported || c.unsupported || d.unsupported }
  else
    { value := textureColor, unsupported := false }

/-- Operand choices for A, B and the D-term that the spec lists: source
colour, destination colour, zero. -/
inductive OperandABD where
  | Cs
  | Cd
  | Zero
deriving DecidableEq

/-- Operand choices for C that the spec lists: source alpha, destination
alpha. -/
inductive OperandC where
  | As
  | Ad
deriving DecidableEq

/-- Selector value of a listed A/B/D operand. -/
def OperandABD.selector : OperandABD → Nat
  | .Cs => ALPHABLEND_ABD_CS
  | .Cd => ALPHABLEND_ABD_CD
  | .Zero => ALPHABLEND_ABD_ZERO

/-- Selector value of a listed C operand. -/
def OperandC.selector : OperandC → Nat
  | .As => ALPHABLEND_C_AS
  | .Ad => ALPHABLEND_C_AD

/-- The rgb value that the spec gives to a listed A/B/D operand. -/
def OperandABD.rgb {α : Type} [LinearOrderedRing α] (o : OperandABD) (S D : Float4 α) :
    Float3 α :=
  match o with
  | .Cs => ⟨S.x, S.y, S.z⟩
  | .Cd => ⟨D.x, D.y, D.z⟩
  | .Zero => ⟨0, 0, 0⟩

/-- The scalar that the spec gives to a listed C operand. -/
def OperandC.alpha {α : Type} (o : OperandC) (S D : Float4 α) : α :=
  match o with
  | .As => S.w
  | .Ad => D.w


/-- The `switch` statements of `CreateFragmentShader` and its helpers whose
`default` label is `assert(false)`, and the palette-format assertion. -/
inductive ShaderAssert where
  | textureFormat
  | framebufferAddress
  | framebufferRead
  | framebufferWrite
  | blendOperand
deriving DecidableEq

/-- Storage layout used by `GetPixelAddress` for the destination address. -/
inductive PixelStorage where
  | STORAGEPSMCT32
  | STORAGEPSMCT16
deriving DecidableEq

/-- Width of a memory access of the fragment program (`Memory_Read32` /
`Memory_Write32` against `Memory_Read16` / `Memory_Write16`). -/
inductive MemoryAccess where
  | bits32
  | bits16
deriving DecidableEq

/-- What the generated fragment program does for one fragment: the source
colour after texturing (`textureColor`), the storage layout of the
destination address, the destination read (if any), the colour packed and
written (`dstColor`), the width of the write, and the assertions passed
while generating. -/
structure FragmentShader (α : Type) where
  textureColor : Float4 α
  fbAddress : PixelStorage
  dstRead : Option MemoryAccess
  dstColor : Float4 α
  write : MemoryAccess
  failedAsserts : List ShaderAssert

/-- Source colour of `CreateFragmentShader` (the `if(caps.hasTexture)`
statement): the decoded texel modulated by the vertex colour, doubled and
clamped, or the vertex colour itself. `decode` stands for the decode
functions of `CMemoryUtils`. -/
def CreateFragmentShader_textureColor {α : Type} [LinearOrderedRing α] (caps : Nat)
    (decode : TexelDecode → Float4 α) (texPixel : Nat) (clutImage : ClutImage)
    (inputColor : Float4 α) : Generated (Float4 α) :=
  if PIPELINE_CAPS_hasTexture caps ≠ 0 then
    let t := GetTextureColor (PIPELINE_CAPS_textureFormat caps) (PIPELINE_CAPS_clutFormat caps)
      texPixel clutImage
    let textureColor := ((decode t.value).mul inputColor).mul ⟨2, 2, 2, 2⟩
    { value := textureColor.Clamp ⟨0, 0, 0, 0⟩ ⟨1, 1, 1, 1⟩, unsupported := t.unsupported }
  else
    { value := inputColor, unsupported := false }

/-- First `switch(caps.framebufferFormat)` of `CreateFragmentShader`: the
destination address. -/
def CreateFragmentShader_fbAddress (framebufferFormat : Nat) : Generated PixelStorage :=
  if framebufferFormat = PSMCT32 ∨ framebufferFormat = PSMCT24 then
    { value := .STORAGEPSMCT32, unsupported := false }
  else if framebufferFormat = PSMCT16S then
    { value := .STORAGEPSMCT16, unsupported := false }
  else
    { value := .STORAGEPSMCT32, unsupported := true }

/-- Second `switch(caps.framebufferFormat)` of `CreateFragmentShader`: the
read of the destination pixel, emitted when blending needs it. -/
def CreateFragmentShader_dstRead (hasAlphaBlending framebufferFormat : Nat) :
    Generated (Option MemoryAccess) :=
  if hasAlphaBlending ≠ 0 then
    if framebufferFormat = PSMCT32 then
      { value := some .bits32, unsupported := false }
    else if framebufferFormat = PSMCT16S then
      { value := some .bits16, unsupported := false }
    else
      { value := some .bits32, unsupported := true }
  else
    { value := none, unsupported := false }

/-- Third `switch(caps.framebufferFormat)` of `CreateFragmentShader`: the
write of the result pixel. -/
def CreateFragmentShader_write (framebufferFormat : Nat) : Generated MemoryAccess :=
  if framebufferFormat = PSMCT32 then
    { value := .bits32, unsupported := false }
  else if framebufferFormat = PSMCT16S then
    { value := .bits16, unsupported := false }
  else
    { value := .bits32, unsupported := true }

/-- Embedding of `CDraw::CreateFragmentShader`. `dstPixelColor` is the
decoded destination pixel that the destination read yields. -/
def CreateFragmentShader {α : Type} [LinearOrderedRing α] (caps : Nat)
    (decode : TexelDecode → Float4 α) (texPixel : Nat) (clutImage : ClutImage)
    (inputColor dstPixelColor : Float4 α) : FragmentShader α :=
  let textureColor := CreateFragmentShader_textureColor caps decode texPixel clutImage inputColor
  let fbAddress := CreateFragmentShader_fbAddress (PIPELINE_CAPS_framebufferFormat caps)
  let dstRead := CreateFragmentShader_dstRead (PIPELINE_CAPS_hasAlphaBlending caps)
    (PIPELINE_CAPS_framebufferFormat caps)
  let dstColor := CreateFragmentShader_blend (PIPELINE_CAPS_hasAlphaBlending caps)
    (PIPELINE_CAPS_alphaA caps) (PIPELINE_CAPS_alphaB caps) (PIPELINE_CAPS_alphaC caps)
    (PIPELINE_CAPS_alphaD caps) textureColor.value dstPixelColor
  let write := CreateFragmentShader_write (PIPELINE_CAPS_framebufferFormat caps)
  { textureColor := textureColor.value
    fbAddress := fbAddress.value
    dstRead := dstRead.value
    dstColor := dstColor.value
    write := write.value
    failedAsserts :=
      (if textureColor.unsupported then [ShaderAssert.textureFormat] else []) ++
      (if fbAddress.unsupported then [ShaderAssert.framebufferAddress] else []) ++
      (if dstRead.unsupported then [ShaderAssert.framebufferRead] else []) ++
      (if dstColor.unsupported then [ShaderAssert.blendOperand] else []) ++
      (if write.unsupported then [ShaderAssert.framebufferWrite] else []) }

/-- Capability key with the given frame-buffer format and blending flag and
all other fields zero. -/
def capsOfFramebuffer (framebufferFormat hasAlphaBlending : Nat) : Nat :=
  (framebufferFormat % 64) <<< 13 ||| (hasAlphaBlending % 2) <<< 25

/-- A decode function used for concrete instances: every pixel decodes to
the given colour. -/
def constDecode {α : Type} (c : Float4 α) : TexelDecode → Float4 α := fun _ => c


/-! ## Vocabulary of the assembler properties -/

/-- Whether a kick through the given register draws: the register is XYZ2
or XYZF2 and drawing is enabled. -/
def CGSH_Vulkan.kickDraws (s : CGSH_Vulkan) (registerId : Nat) : Bool :=
  s.m_drawEnabled && ((registerId == GS_REG_XYZ2) || (registerId == GS_REG_XYZF2))

/-- The primitive type is one of the three triangle types. -/
def isTriangleType (primitiveType : Nat) : Bool :=
  primitiveType == PRIM_TRIANGLE || primitiveType == PRIM_TRIANGLESTRIP ||
    primitiveType == PRIM_TRIANGLEFAN

/-- Counter value after a completion, by primitive type: 3 for a triangle
list, 1 for a strip or a fan, 0 for every other type. -/
def rearmedCount (primitiveType : Nat) : Nat :=
  if primitiveType = PRIM_TRIANGLE then 3
  else if primitiveType = PRIM_TRIANGLESTRIP ∨ primitiveType = PRIM_TRIANGLEFAN then 1
  else 0

/-- Scratch buffer after the shifts of a completion, by primitive type:
for a strip slot 1 moves to slot 2 and slot 0 to slot 1, for a fan slot 0
moves to slot 1, nothing moves otherwise. -/
def shiftedScratch (primitiveType : Nat) (buf : Nat → VERTEX) : Nat → VERTEX :=
  if primitiveType = PRIM_TRIANGLESTRIP then
    Function.update (Function.update buf 2 (buf 1)) 1 (buf 0)
  else if primitiveType = PRIM_TRIANGLEFAN then
    Function.update buf 1 (buf 0)
  else buf

/-- Counter value a PRIM write arms for a primitive type: 1 for points, 2
for lines, line strips and sprites, 3 for the triangle types; type 7 arms
nothing. -/
def armedCount (primitiveType : Nat) : Option Nat :=
  if primitiveType = PRIM_POINT then some 1
  else if primitiveType = PRIM_LINE ∨ primitiveType = PRIM_LINESTRIP then some 2
  else if primitiveType = PRIM_TRIANGLE ∨ primitiveType = PRIM_TRIANGLESTRIP ∨
      primitiveType = PRIM_TRIANGLEFAN then some 3
  else if primitiveType = PRIM_SPRITE then some 2
  else none

/-- A register write that is a vertex kick. -/
def isKickRegister (registerId : Nat) : Bool :=
  registerId == GS_REG_XYZ2 || registerId == GS_REG_XYZ3 ||
    registerId == GS_REG_XYZF2 || registerId == GS_REG_XYZF3

/-- A sequence of register writes, in order. -/
def writeRegisters (s : CGSH_Vulkan) (ws : List (Nat × Nat)) : CGSH_Vulkan :=
  ws.foldl (fun t w => t.WriteRegisterImpl w.1 w.2) s

/-- Number of vertex kicks among register writes. -/
def kickCount (ws : List (Nat × Nat)) : Nat :=
  (ws.filter (fun w => isKickRegister w.1)).length

/-- A backend in the reset state with drawing enabled and PRMODECONT = 1, so
that the mode comes from PRIM; used as a concrete instance. -/
def CGSH_Vulkan.primControlled : CGSH_Vulkan :=
  CGSH_Vulkan.init (Function.update (fun _ => 0) GS_REG_PRMODECONT 1) true


/-! ## Vocabulary of the descriptor-set properties -/

/-- The `DESCRIPTORSET_CAPS` that `FlushVertices` derives from a capability
key: its texture-enabled flag, frame-buffer format, depth-buffer format and
texture format. -/
def descriptorSetCapsOf (caps : Nat) : DESCRIPTORSET_CAPS :=
  { hasTexture := PIPELINE_CAPS_hasTexture caps
    framebufferFormat := PIPELINE_CAPS_framebufferFormat caps
    depthbufferFormat := PIPELINE_CAPS_depthbufferFormat caps
    textureFormat := PIPELINE_CAPS_textureFormat caps }

/-- Descriptor set cached for given caps, as the `find` of
`PrepareDescriptorSet` sees it. -/
def lookupDescriptorSet (cache : List (DESCRIPTORSET_CAPS × Nat)) (caps : DESCRIPTORSET_CAPS) :
    Option Nat :=
  (cache.find? (fun e => e.1 == caps)).map (fun e => e.2)

/-- What one batcher call can do to the descriptor-set cache and the
descriptor pool: nothing, or one allocation from the pool, cached under caps
that had no entry. -/
def DescriptorStep (d d' : CDraw) : Prop :=
  (d'.m_descriptorSetCache = d.m_descriptorSetCache ∧ d'.m_context = d.m_context) ∨
    ∃ caps, lookupDescriptorSet d.m_descriptorSetCache caps = none ∧
      d'.m_descriptorSetCache =
        d.m_descriptorSetCache ++ [(caps, d.m_context.descriptorPoolAllocated + 1)] ∧
      d'.m_context.descriptorPoolAllocated = d.m_context.descriptorPoolAllocated + 1

/-- Invariant of the descriptor-set cache within a frame: no caps have two
entries, every cached set was allocated from the pool (its number is between
1 and the allocation count), and no set is cached twice. -/
def DescriptorCacheOk (d : CDraw) : Prop :=
  (d.m_descriptorSetCache.map Prod.fst).Nodup ∧
    (∀ e ∈ d.m_descriptorSetCache, 1 ≤ e.2 ∧ e.2 ≤ d.m_context.descriptorPoolAllocated) ∧
    (d.m_descriptorSetCache.map Prod.snd).Nodup

/-- A batcher with one pending triangle under a given capability key, used
as a concrete instance. -/
def CDraw.pendingWith (caps : Nat) : CDraw :=
  (CDraw.init.SetPipelineCaps caps).AddVertices
    [⟨0, 0, 0, 0, 0, 0, 0⟩, ⟨16, 0, 0, 0, 0, 0, 0⟩, ⟨0, 16, 0, 0, 0, 0, 0⟩]


/-- Batcher calls used as a concrete instance: switch to the key with
blending enabled (bit 25) and append one triangle. -/
def CDraw.blendedTriangleOps : List CDraw.Op :=
  [ .setPipelineCaps (1 <<< 25),
    .addVertices [⟨0, 0, 0, 0, 0, 0, 0⟩, ⟨16, 0, 0, 0, 0, 0, 0⟩, ⟨0, 16, 0, 0, 0, 0, 0⟩] ]


/-! ## Vocabulary of the coverage property -/

/-- Content of `count` slots of a vertex buffer, from slot `first` on. -/
def slotsOf (buf : Nat → PRIM_VERTEX) (first count : Nat) : List PRIM_VERTEX :=
  (List.range count).map (fun i => buf (first + i))

/-- First vertex slot that a draw reads: its byte offset into the vertex
buffer over the vertex size. -/
def DrawCall.firstVertex (call : DrawCall) : Nat :=
  call.vertexBufferOffset / SIZEOF_PRIM_VERTEX

/-- The vertices that a draw reads from a vertex buffer: `vertexCount`
slots from its first slot on. -/
def DrawCall.reads (call : DrawCall) (buf : Nat → PRIM_VERTEX) : List PRIM_VERTEX :=
  slotsOf buf call.firstVertex call.vertexCount

/-- The vertices pending in the window. -/
def CDraw.pending (d : CDraw) : List PRIM_VERTEX :=
  slotsOf d.m_vertexBuffer d.m_passVertexStart (d.m_passVertexEnd - d.m_passVertexStart)

/-- History kept next to a run of batcher calls: the vertices covered by
the draws recorded so far, in recording order, and the draws recorded since
the vertex window was last reset, each with the vertices it covered when it
was recorded. -/
structure Coverage where
  covered : List PRIM_VERTEX
  inFlight : List (DrawCall × List PRIM_VERTEX)

/-- History after a call that took the batcher from `d` to `d1`: the draws
recorded by the call are those added to `draws`; each covers what it reads
from the vertex buffer as it was when the call began (a call records its draw
before it copies anything); a frame flush (a change of `frameFlushCount`)
submits the draws in flight. -/
def Coverage.record (g : Coverage) (d d1 : CDraw) : Coverage :=
  let recorded := (d1.draws.drop d.draws.length).map (fun call => (call, call.reads d.m_vertexBuffer))
  { covered := g.covered ++ (recorded.map Prod.snd).flatten
    inFlight := if d1.frameFlushCount = d.frameFlushCount then g.inFlight ++ recorded else [] }

/-- History along a sequence of batcher calls. -/
def CDraw.coverage (d : CDraw) (g : Coverage) : List CDraw.Op → Coverage
  | [] => g
  | op :: rest => (d.step op).coverage (g.record d (d.step op)) rest

/-- The draws tile the slot range from `a` to `b`: the first starts at `a`,
each next one starts where the one before ends, the last ends at `b`. -/
def Tiles : Nat → List (DrawCall × List PRIM_VERTEX) → Nat → Prop
  | a, [], b => a = b
  | a, e :: rest, b =>
    e.1.firstVertex = a ∧ e.1.vertexCount = e.2.length ∧ Tiles (a + e.2.length) rest b

/-- Two batcher states agree on the vertex buffer, the window and the
histories of draws, appends and frame flushes. -/
def SameBatch (d d1 : CDraw) : Prop :=
  d1.m_vertexBuffer = d.m_vertexBuffer ∧ d1.m_passVertexStart = d.m_passVertexStart ∧
    d1.m_passVertexEnd = d.m_passVertexEnd ∧ d1.draws = d.draws ∧ d1.addLog = d.addLog ∧
    d1.frameFlushCount = d.frameFlushCount

/-- Coverage invariant: the window lies in the buffer; the vertices covered
by the recorded draws followed by the pending ones are the appended
vertices, in append order; the draws in flight tile the slots from 0 to the
window start, and the slots of each still hold the vertices it covered. -/
def CoverOk (d : CDraw) (g : Coverage) : Prop :=
  d.m_passVertexStart ≤ d.m_passVertexEnd ∧ d.m_passVertexEnd ≤ MAX_VERTEX_COUNT ∧
    g.covered ++ d.pending = d.addLog.flatten ∧
    Tiles 0 g.inFlight d.m_passVertexStart ∧
    ∀ e ∈ g.inFlight, e.1.reads d.m_vertexBuffer = e.2

/-- The calls listed for the coverage property: appends, state setters,
flushes and frame flushes (the flush hooks are not called on their own). -/
def CDraw.Op.isClientCall : CDraw.Op → Bool
  | .preFlushFrameCommandBuffer => false
  | .postFlushFrameCommandBuffer => false
  | _ => true


/-- Batcher calls used as a concrete instance: a triangle, a change of
the capability key, another triangle. -/
def CDraw.twoTriangleOps : List CDraw.Op :=
  [ .addVertices [⟨0, 0, 0, 0, 0, 0, 0⟩, ⟨16, 0, 0, 0, 0, 0, 0⟩, ⟨0, 16, 0, 0, 0, 0, 0⟩],
    .setPipelineCaps 1,
    .addVertices [⟨0, 0, 1, 0, 0, 0, 0⟩, ⟨16, 0, 1, 0, 0, 0, 0⟩, ⟨0, 16, 1, 0, 0, 0, 0⟩] ]


/-- What a generator delivers when assertion checks are active: the program
stops at a reached `assert(false)`, so nothing is delivered when one was
reached, and the generated value is delivered otherwise. -/
def Generated.delivered {β : Type} (g : Generated β) : Option β :=
  if g.unsupported then none else some g.value

/-! ## Properties -/

/-! ### Ignored kicks -/

/-- C5: a vertex kick received while the remaining-vertex counter is zero
leaves the whole state unchanged, whatever the register and the payload:
counter, scratch vertices, latched mode, bound offset and batcher (so no
triangle is appended). -/
theorem VertexKick_ignored_at_zero (s : CGSH_Vulkan) (registerId data : Nat)
    (h : s.m_vtxCount = 0) :
    s.VertexKick registerId data = s ∧
      (s.VertexKick registerId data).m_draw.addLog = s.m_draw.addLog := by
  have : s.VertexKick registerId data = s := by
    unfold CGSH_Vulkan.VertexKick
    simp [h]
  exact ⟨this, by rw [this]⟩

/-- Instance of C5 at the reset state, for an XYZ2 kick. -/
theorem VertexKick_ignored_at_zero_witness :
    (CGSH_Vulkan.init (fun _ => 0) true).m_vtxCount = 0 ∧
      ((CGSH_Vulkan.init (fun _ => 0) true).VertexKick GS_REG_XYZ2 0x123 =
          CGSH_Vulkan.init (fun _ => 0) true ∧
        ((CGSH_Vulkan.init (fun _ => 0) true).VertexKick GS_REG_XYZ2 0x123).m_draw.addLog =
          (CGSH_Vulkan.init (fun _ => 0) true).m_draw.addLog) :=
  ⟨rfl, VertexKick_ignored_at_zero _ _ _ rfl⟩

/-! ### Colours of an emitted triangle -/

/-- A checked assertion only ever extends the list of failed assertions. -/
theorem CDraw.check_eq (d : CDraw) (a : Assertion) (c : Bool) :
    d.check a c = { d with failedAsserts := d.failedAsserts ++ (if c then [] else [a]) } := by
  unfold CDraw.check
  cases c <;> simp

/-- Shape of the state after `PrepareDescriptorSet`: only the descriptor
pool, the descriptor-set cache, the write history and the failed assertions
can differ, and the only assertion that can fail is the swizzle-table one. -/
theorem CDraw.PrepareDescriptorSet_shape (d : CDraw) (caps : DESCRIPTORSET_CAPS) :
    ∃ ctx cache writes extra,
      (d.PrepareDescriptorSet caps).1 =
        { d with m_context := ctx, m_descriptorSetCache := cache, descriptorWrites := writes,
                 failedAsserts := d.failedAsserts ++ extra } ∧
      ∀ a ∈ extra, a = Assertion.swizzleTableFormat := by
  unfold CDraw.PrepareDescriptorSet
  split
  · exact ⟨d.m_context, d.m_descriptorSetCache, d.descriptorWrites, [], by simp, by simp⟩
  · simp only [CDraw.check_eq]
    refine ⟨{ descriptorPoolAllocated := d.m_context.descriptorPoolAllocated + 1 },
      d.m_descriptorSetCache ++ [(caps, d.m_context.descriptorPoolAllocated + 1)],
      d.descriptorWrites ++ [(d.m_context.descriptorPoolAllocated + 1, descriptorWriteBindings caps)],
      (if GetSwizzleTable_supported caps.textureFormat then [] else [Assertion.swizzleTableFormat])
        ++ (if GetSwizzleTable_supported caps.framebufferFormat then []
            else [Assertion.swizzleTableFormat]), ?_, ?_⟩
    · simp only [List.append_assoc]
    · intro a ha
      simp only [List.mem_append] at ha
      rcases ha with ha | ha <;> split_ifs at ha <;> simp_all

/-- Shape of the state after `FlushVertices` on a non-empty window: one draw
is added, recorded under the state in effect at the call, and the window
start moves to the window end. -/
theorem CDraw.FlushVertices_shape (d : CDraw) (h : d.vertexCount ≠ 0) :
    ∃ ctx pcache dcache writes extra pipeline descriptorSet,
      d.FlushVertices =
        { d with
          m_context := ctx, m_pipelineCache := pcache, m_descriptorSetCache := dcache,
          descriptorWrites := writes, failedAsserts := d.failedAsserts ++ extra,
          draws := d.draws ++ [{
            pipeline := pipeline, descriptorSet := descriptorSet,
            scissorX := d.m_scissorX, scissorY := d.m_scissorY,
            scissorWidth := d.m_scissorWidth, scissorHeight := d.m_scissorHeight,
            vertexBufferOffset := d.m_passVertexStart * SIZEOF_PRIM_VERTEX,
            pushConstants := d.m_pushConstants, vertexCount := d.vertexCount,
            pipelineCaps := d.m_pipelineCaps }],
          m_passVertexStart := d.m_passVertexEnd } ∧
      ∀ a ∈ extra, a = Assertion.swizzleTableFormat ∨
        (a = Assertion.multipleOfThree ∧ d.vertexCount % 3 ≠ 0) := by
  unfold CDraw.FlushVertices
  rw [if_neg h]
  simp only []
  obtain ⟨ctx, cache, writes, extra, heq, hex⟩ := CDraw.PrepareDescriptorSet_shape
    ({ d with m_pipelineCache :=
      match TryGetPipeline d.m_pipelineCache d.m_pipelineCaps with
      | some _ => d.m_pipelineCache
      | none => (RegisterPipeline d.m_pipelineCache d.m_pipelineCaps
          (CreateDrawPipeline d.m_pipelineCaps)).1 } : CDraw)
    { hasTexture := PIPELINE_CAPS_hasTexture d.m_pipelineCaps
      framebufferFormat := PIPELINE_CAPS_framebufferFormat d.m_pipelineCaps
      depthbufferFormat := PIPELINE_CAPS_depthbufferFormat d.m_pipelineCaps
      textureFormat := PIPELINE_CAPS_textureFormat d.m_pipelineCaps }
  simp only [CDraw.check_eq, heq]
  refine ⟨ctx,
    (match TryGetPipeline d.m_pipelineCache d.m_pipelineCaps with
      | some _ => d.m_pipelineCache
      | none => (RegisterPipeline d.m_pipelineCache d.m_pipelineCaps
          (CreateDrawPipeline d.m_pipelineCaps)).1),
    cache, writes,
    extra ++ (if (d.vertexCount % 3 == 0) = true then [] else [Assertion.multipleOfThree]),
    (match TryGetPipeline d.m_pipelineCache d.m_pipelineCaps with
      | some p => p
      | none => (RegisterPipeline d.m_pipelineCache d.m_pipelineCaps
          (CreateDrawPipeline d.m_pipelineCaps)).2),
    (CDraw.PrepareDescriptorSet
      ({ d with m_pipelineCache :=
        match TryGetPipeline d.m_pipelineCache d.m_pipelineCaps with
        | some _ => d.m_pipelineCache
        | none => (RegisterPipeline d.m_pipelineCache d.m_pipelineCaps
            (CreateDrawPipeline d.m_pipelineCaps)).1 } : CDraw)
      { hasTexture := PIPELINE_CAPS_hasTexture d.m_pipelineCaps
        framebufferFormat := PIPELINE_CAPS_framebufferFormat d.m_pipelineCaps
        depthbufferFormat := PIPELINE_CAPS_depthbufferFormat d.m_pipelineCaps
        textureFormat := PIPELINE_CAPS_textureFormat d.m_pipelineCaps }).2, ?_, ?_⟩
  · simp only [List.append_assoc]
  · intro a ha
    simp only [List.mem_append] at ha
    rcases ha with ha | ha
    · exact Or.inl (hex a ha)
    · split_ifs at ha with hc
      · simp at ha
      · right
        simp only [List.mem_singleton] at ha
        exact ⟨ha, by simpa using hc⟩

/-- A flush leaves the append history alone. -/
theorem CDraw.FlushVertices_addLog (d : CDraw) : d.FlushVertices.addLog = d.addLog := by
  by_cases h : d.vertexCount = 0
  · unfold CDraw.FlushVertices
    rw [if_pos h]
  · obtain ⟨_, _, _, _, _, _, _, heq, _⟩ := CDraw.FlushVertices_shape d h
    rw [heq]

/-- Appending vertices logs exactly one batch, the appended one. -/
theorem CDraw.AddVertices_addLog (d : CDraw) (vs : List PRIM_VERTEX) :
    (d.AddVertices vs).addLog = d.addLog ++ [vs] := by
  unfold CDraw.AddVertices CDraw.AddVertices_copy CDraw.AddVertices_reserve
    CDraw.FrameCommandBuffer_Flush CDraw.PostFlushFrameCommandBuffer
    CDraw.PreFlushFrameCommandBuffer
  simp only [CDraw.check_eq]
  split_ifs <;> simp [CDraw.FlushVertices_addLog]

/-- C4: `Prim_Triangle` appends exactly one triangle; under flat shading
(`nShading = 0` in the latched mode) all three vertices carry the packed
colour of scratch slot 0, the vertex of the last kick; under smooth shading
the first, second and third vertex carry the packed colour of slots 2, 1 and
0, each latched at its own kick. -/
theorem Prim_Triangle_colors (s : CGSH_Vulkan) :
    ∃ triangle : List PRIM_VERTEX,
      s.Prim_Triangle.m_draw.addLog = s.m_draw.addLog ++ [triangle] ∧
      triangle.map PRIM_VERTEX.color =
        (if PRMODE_nShading s.m_primitiveMode = 0 then
          [packedColor (s.m_vtxBuffer 0).rgbaq, packedColor (s.m_vtxBuffer 0).rgbaq,
            packedColor (s.m_vtxBuffer 0).rgbaq]
        else
          [packedColor (s.m_vtxBuffer 2).rgbaq, packedColor (s.m_vtxBuffer 1).rgbaq,
            packedColor (s.m_vtxBuffer 0).rgbaq]) := by
  refine ⟨CGSH_Vulkan.Prim_Triangle_vertices s.m_primitiveMode s.m_primOfsX s.m_primOfsY
    (s.m_vtxBuffer 2) (s.m_vtxBuffer 1) (s.m_vtxBuffer 0), ?_, ?_⟩
  · unfold CGSH_Vulkan.Prim_Triangle
    simp only [CDraw.AddVertices_addLog]
  · by_cases h : PRMODE_nShading s.m_primitiveMode = 0 <;>
      simp [h, packedColor, CGSH_Vulkan.Prim_Triangle_vertices]

/-! ### Kicks of one primitive -/

/-- Stable registers are an equivalence up to the registers kicks write. -/
theorem stableRegs_kick (f R : Nat → Nat) (k : Kick) (h : stableRegs f R) :
    stableRegs (Function.update (Function.update f GS_REG_RGBAQ k.rgbaq) k.registerId k.data) R := by
  intro r h1 h2 h3
  have hk : r ≠ k.registerId := by
    unfold Kick.registerId
    split_ifs <;> assumption
  rw [Function.update_noteq hk, Function.update_noteq h1]
  exact h r h1 h2 h3

/-- The vertex latched by a kick is the expected one. -/
theorem kickVertex_kick (f R : Nat → Nat) (k : Kick) (h : stableRegs f R) :
    CGSH_Vulkan.kickVertex
      (Function.update (Function.update f GS_REG_RGBAQ k.rgbaq) k.registerId k.data)
      k.registerId k.data = k.vertex R := by
  have hs := stableRegs_kick f R k h
  have huv := hs GS_REG_UV (by decide) (by decide) (by decide)
  have hst := hs GS_REG_ST (by decide) (by decide) (by decide)
  have hfog := hs GS_REG_FOG (by decide) (by decide) (by decide)
  have hrgba : (Function.update (Function.update f GS_REG_RGBAQ k.rgbaq) k.registerId k.data)
      GS_REG_RGBAQ = k.rgbaq := by
    have : GS_REG_RGBAQ ≠ k.registerId := by
      unfold Kick.registerId
      split_ifs <;> decide
    rw [Function.update_noteq this, Function.update_same]
  unfold CGSH_Vulkan.kickVertex Kick.vertex
  rw [huv, hst, hfog, hrgba]
  obtain ⟨rg, fg, dt⟩ := k
  cases fg
  · have hx : ((GS_REG_XYZ2 == GS_REG_XYZF2) || (GS_REG_XYZ2 == GS_REG_XYZF3)) = false := by
      decide
    simp only [Kick.registerId, hx]
    rfl
  · have hx : ((GS_REG_XYZF2 == GS_REG_XYZF2) || (GS_REG_XYZF2 == GS_REG_XYZF3)) = true := by
      decide
    simp only [Kick.registerId, hx]
    rfl

/-- The two register writes of a kick amount to one `VertexKick` on the
updated register file. -/
theorem drawingKick_eq (t : CGSH_Vulkan) (k : Kick) :
    drawingKick t k =
      CGSH_Vulkan.VertexKick
        { t with m_nReg :=
          Function.update (Function.update t.m_nReg GS_REG_RGBAQ k.rgbaq) k.registerId k.data }
        k.registerId k.data := by
  unfold drawingKick
  have h1 : t.WriteRegisterImpl GS_REG_RGBAQ k.rgbaq =
      { t with m_nReg := Function.update t.m_nReg GS_REG_RGBAQ k.rgbaq } := by
    unfold CGSH_Vulkan.WriteRegisterImpl CGSH_Vulkan.CGSHandler_WriteRegisterImpl
    simp only []
    rw [if_neg (by decide), if_neg (by decide)]
  rw [h1]
  unfold CGSH_Vulkan.WriteRegisterImpl CGSH_Vulkan.CGSHandler_WriteRegisterImpl
  simp only []
  have hp : k.registerId ≠ GS_REG_PRIM := by
    unfold Kick.registerId
    split_ifs <;> decide
  have hx : k.registerId = GS_REG_XYZ2 ∨ k.registerId = GS_REG_XYZ3 ∨
      k.registerId = GS_REG_XYZF2 ∨ k.registerId = GS_REG_XYZF3 := by
    unfold Kick.registerId
    split_ifs
    · exact Or.inr (Or.inr (Or.inl rfl))
    · exact Or.inl rfl
  rw [if_neg hp, if_pos hx]

/-- The register of a kick is a drawing register. -/
theorem Kick.registerId_drawing (k : Kick) :
    ((k.registerId == GS_REG_XYZ2) || (k.registerId == GS_REG_XYZF2)) = true := by
  unfold Kick.registerId
  split_ifs <;> decide

/-- A kick that does not complete the primitive stores its vertex in the next
scratch slot and leaves the batcher alone. -/
theorem drawingKick_pending (R : Nat → Nat) (ty : Nat) (t : CGSH_Vulkan) (k : Kick) (c : Nat)
    (hinv : KickInv R ty t) (hc : t.m_vtxCount = c + 2) :
    KickInv R ty (drawingKick t k) ∧ (drawingKick t k).m_vtxCount = c + 1 ∧
      (drawingKick t k).m_vtxBuffer = Function.update t.m_vtxBuffer (c + 1) (k.vertex R) ∧
      (drawingKick t k).m_draw = t.m_draw := by
  rw [drawingKick_eq]
  unfold CGSH_Vulkan.VertexKick
  simp only [hc, kickVertex_kick _ R k hinv.regs]
  rw [if_neg (by omega)]
  simp only [Nat.add_sub_cancel, show c + 2 - 1 = c + 1 by omega]
  rw [if_neg (by omega)]
  exact ⟨⟨hinv.enabled, hinv.type, stableRegs_kick _ R k hinv.regs⟩, rfl, rfl, rfl⟩

/-- The latched mode only depends on registers that kicks do not write. -/
theorem latchedMode_stable (f R : Nat → Nat) (h : stableRegs f R) :
    latchedMode f = latchedMode R := by
  unfold latchedMode
  rw [h GS_REG_PRMODECONT (by decide) (by decide) (by decide),
    h GS_REG_PRIM (by decide) (by decide) (by decide),
    h GS_REG_PRMODE (by decide) (by decide) (by decide)]

/-- The offset registers are not written by kicks. -/
theorem offset_stable (f R : Nat → Nat) (h : stableRegs f R) (c : Nat) :
    f (GS_REG_XYOFFSET_1 + c) = R (GS_REG_XYOFFSET_1 + c) := by
  apply h <;> simp only [GS_REG_XYOFFSET_1, GS_REG_RGBAQ, GS_REG_XYZ2, GS_REG_XYZF2] <;> omega

/-- A drawing kick received with one vertex remaining stores its vertex in
slot 0, latches the mode, binds the offset, emits the triangle and then
shifts the scratch slots and re-arms the counter as the primitive type
demands. -/
theorem VertexKick_completing (u : CGSH_Vulkan) (registerId data : Nat)
    (hc : u.m_vtxCount = 1) (hen : u.m_drawEnabled = true)
    (hd : ((registerId == GS_REG_XYZ2) || (registerId == GS_REG_XYZF2)) = true) :
    u.VertexKick registerId data =
      (if u.m_primitiveType = PRIM_TRIANGLE then
        { CGSH_Vulkan.Prim_Triangle (CGSH_Vulkan.SetRenderingContext
            { u with
              m_vtxBuffer := Function.update u.m_vtxBuffer 0
                (CGSH_Vulkan.kickVertex u.m_nReg registerId data)
              m_vtxCount := 0
              m_primitiveMode := latchedMode u.m_nReg } (latchedMode u.m_nReg)) with
          m_vtxCount := 3 }
      else if u.m_primitiveType = PRIM_TRIANGLESTRIP then
        { CGSH_Vulkan.Prim_Triangle (CGSH_Vulkan.SetRenderingContext
            { u with
              m_vtxBuffer := Function.update u.m_vtxBuffer 0
                (CGSH_Vulkan.kickVertex u.m_nReg registerId data)
              m_vtxCount := 0
              m_primitiveMode := latchedMode u.m_nReg } (latchedMode u.m_nReg)) with
          m_vtxBuffer := Function.update (Function.update (Function.update u.m_vtxBuffer 0
              (CGSH_Vulkan.kickVertex u.m_nReg registerId data)) 2 (u.m_vtxBuffer 1)) 1
              (CGSH_Vulkan.kickVertex u.m_nReg registerId data)
          m_vtxCount := 1 }
      else if u.m_primitiveType = PRIM_TRIANGLEFAN then
        { CGSH_Vulkan.Prim_Triangle (CGSH_Vulkan.SetRenderingContext
            { u with
              m_vtxBuffer := Function.update u.m_vtxBuffer 0
                (CGSH_Vulkan.kickVertex u.m_nReg registerId data)
              m_vtxCount := 0
              m_primitiveMode := latchedMode u.m_nReg } (latchedMode u.m_nReg)) with
          m_vtxBuffer := Function.update (Function.update u.m_vtxBuffer 0
              (CGSH_Vulkan.kickVertex u.m_nReg registerId data)) 1
              (CGSH_Vulkan.kickVertex u.m_nReg registerId data)
          m_vtxCount := 1 }
      else
        CGSH_Vulkan.SetRenderingContext
          { u with
            m_vtxBuffer := Function.update u.m_vtxBuffer 0
              (CGSH_Vulkan.kickVertex u.m_nReg registerId data)
            m_vtxCount := 0
            m_primitiveMode := latchedMode u.m_nReg } (latchedMode u.m_nReg)) := by
  unfold CGSH_Vulkan.VertexKick
  rw [if_neg (by omega)]
  simp only [hc, hen, hd, Nat.sub_self, if_true, Bool.not_true, Bool.false_eq_true, if_false]
  by_cases h3 : u.m_primitiveType = PRIM_TRIANGLE
  · rw [if_pos h3]
    simp only [CGSH_Vulkan.Prim_Triangle, CGSH_Vulkan.SetRenderingContext, h3, if_true]
    rfl
  · rw [if_neg h3]
    by_cases h4 : u.m_primitiveType = PRIM_TRIANGLESTRIP
    · rw [if_pos h4]
      simp only [CGSH_Vulkan.Prim_Triangle, CGSH_Vulkan.SetRenderingContext, h4, if_true]
      rw [if_neg (by decide)]
      simp [latchedMode, Function.update_apply]
    · rw [if_neg h4]
      by_cases h5 : u.m_primitiveType = PRIM_TRIANGLEFAN
      · rw [if_pos h5]
        simp only [CGSH_Vulkan.Prim_Triangle, CGSH_Vulkan.SetRenderingContext, h5, if_true]
        rw [if_neg (by decide), if_neg (by decide)]
        simp [latchedMode, Function.update_apply]
      · rw [if_neg h5]
        simp only [CGSH_Vulkan.Prim_Triangle, CGSH_Vulkan.SetRenderingContext, h3, h4, h5,
          if_false]
        rfl

/-- The triangle emitted at a completing kick is the expected one. -/
theorem emitted_triangle_eq (R f : Nat → Nat) (k : Kick) (buf : Nat → VERTEX)
    (hs : stableRegs f R) :
    CGSH_Vulkan.Prim_Triangle_vertices
      (latchedMode (Function.update (Function.update f GS_REG_RGBAQ k.rgbaq) k.registerId k.data))
      (XYOFFSET_nOffsetX ((Function.update (Function.update f GS_REG_RGBAQ k.rgbaq)
        k.registerId k.data) (GS_REG_XYOFFSET_1 + PRMODE_nContext (latchedMode
          (Function.update (Function.update f GS_REG_RGBAQ k.rgbaq) k.registerId k.data)))))
      (XYOFFSET_nOffsetY ((Function.update (Function.update f GS_REG_RGBAQ k.rgbaq)
        k.registerId k.data) (GS_REG_XYOFFSET_1 + PRMODE_nContext (latchedMode
          (Function.update (Function.update f GS_REG_RGBAQ k.rgbaq) k.registerId k.data)))))
      (buf 2) (buf 1)
      (CGSH_Vulkan.kickVertex
        (Function.update (Function.update f GS_REG_RGBAQ k.rgbaq) k.registerId k.data)
        k.registerId k.data) =
    triangleOfVertices R (buf 2) (buf 1) (k.vertex R) := by
  have hs1 := stableRegs_kick f R k hs
  rw [latchedMode_stable _ R hs1, offset_stable _ R hs1, kickVertex_kick f R k hs]
  rfl

/-- A kick that completes a triangle of a triangle list emits it from the
scratch slots 2, 1 and the kicked vertex, and re-arms the counter to 3. -/
theorem drawingKick_completes_list (R : Nat → Nat) (t : CGSH_Vulkan) (k : Kick)
    (hinv : KickInv R PRIM_TRIANGLE t) (hc : t.m_vtxCount = 1) :
    KickInv R PRIM_TRIANGLE (drawingKick t k) ∧ (drawingKick t k).m_vtxCount = 3 ∧
      (drawingKick t k).m_draw = t.m_draw.AddVertices
        (triangleOfVertices R (t.m_vtxBuffer 2) (t.m_vtxBuffer 1) (k.vertex R)) := by
  rw [drawingKick_eq, VertexKick_completing
    { t with m_nReg :=
      Function.update (Function.update t.m_nReg GS_REG_RGBAQ k.rgbaq) k.registerId k.data }
    _ _ hc hinv.enabled (Kick.registerId_drawing k)]
  have ht : CGSH_Vulkan.m_primitiveType { t with m_nReg := Function.update (Function.update t.m_nReg GS_REG_RGBAQ k.rgbaq) k.registerId k.data } = PRIM_TRIANGLE := hinv.type
  rw [ht]
  rw [if_pos rfl]
  refine ⟨⟨hinv.enabled, rfl, stableRegs_kick _ R k hinv.regs⟩, rfl, ?_⟩
  rw [← emitted_triangle_eq R t.m_nReg k t.m_vtxBuffer hinv.regs]
  rfl

/-- A kick that completes a triangle of a strip emits it and keeps the two
most recent vertices in slots 2 and 1, with the counter at 1. -/
theorem drawingKick_completes_strip (R : Nat → Nat) (t : CGSH_Vulkan) (k : Kick)
    (hinv : KickInv R PRIM_TRIANGLESTRIP t) (hc : t.m_vtxCount = 1) :
    KickInv R PRIM_TRIANGLESTRIP (drawingKick t k) ∧ (drawingKick t k).m_vtxCount = 1 ∧
      (drawingKick t k).m_vtxBuffer 2 = t.m_vtxBuffer 1 ∧
      (drawingKick t k).m_vtxBuffer 1 = k.vertex R ∧
      (drawingKick t k).m_draw = t.m_draw.AddVertices
        (triangleOfVertices R (t.m_vtxBuffer 2) (t.m_vtxBuffer 1) (k.vertex R)) := by
  rw [drawingKick_eq, VertexKick_completing
    { t with m_nReg :=
      Function.update (Function.update t.m_nReg GS_REG_RGBAQ k.rgbaq) k.registerId k.data }
    _ _ hc hinv.enabled (Kick.registerId_drawing k)]
  have ht : CGSH_Vulkan.m_primitiveType { t with m_nReg := Function.update (Function.update t.m_nReg GS_REG_RGBAQ k.rgbaq) k.registerId k.data } = PRIM_TRIANGLESTRIP := hinv.type
  rw [ht]
  rw [if_neg (by decide), if_pos rfl]
  refine ⟨⟨hinv.enabled, rfl, stableRegs_kick _ R k hinv.regs⟩, rfl, ?_, ?_, ?_⟩
  · simp [Function.update_apply]
  · simp [Function.update_apply, kickVertex_kick _ R k hinv.regs]
  · rw [← emitted_triangle_eq R t.m_nReg k t.m_vtxBuffer hinv.regs]
    rfl

/-- A kick that completes a triangle of a fan emits it, keeps the first
vertex in slot 2 and the most recent one in slot 1, with the counter at 1. -/
theorem drawingKick_completes_fan (R : Nat → Nat) (t : CGSH_Vulkan) (k : Kick)
    (hinv : KickInv R PRIM_TRIANGLEFAN t) (hc : t.m_vtxCount = 1) :
    KickInv R PRIM_TRIANGLEFAN (drawingKick t k) ∧ (drawingKick t k).m_vtxCount = 1 ∧
      (drawingKick t k).m_vtxBuffer 2 = t.m_vtxBuffer 2 ∧
      (drawingKick t k).m_vtxBuffer 1 = k.vertex R ∧
      (drawingKick t k).m_draw = t.m_draw.AddVertices
        (triangleOfVertices R (t.m_vtxBuffer 2) (t.m_vtxBuffer 1) (k.vertex R)) := by
  rw [drawingKick_eq, VertexKick_completing
    { t with m_nReg :=
      Function.update (Function.update t.m_nReg GS_REG_RGBAQ k.rgbaq) k.registerId k.data }
    _ _ hc hinv.enabled (Kick.registerId_drawing k)]
  have ht : CGSH_Vulkan.m_primitiveType { t with m_nReg := Function.update (Function.update t.m_nReg GS_REG_RGBAQ k.rgbaq) k.registerId k.data } = PRIM_TRIANGLEFAN := hinv.type
  rw [ht]
  rw [if_neg (by decide), if_neg (by decide), if_pos rfl]
  refine ⟨⟨hinv.enabled, rfl, stableRegs_kick _ R k hinv.regs⟩, rfl, ?_, ?_, ?_⟩
  · simp [Function.update_apply]
  · simp [Function.update_apply, kickVertex_kick _ R k hinv.regs]
  · rw [← emitted_triangle_eq R t.m_nReg k t.m_vtxBuffer hinv.regs]
    rfl

/-! ### Runs of kicks -/

/-- Unfolding of a run of kicks. -/
theorem drawingKicks_cons (t : CGSH_Vulkan) (k : Kick) (ks : List Kick) :
    drawingKicks t (k :: ks) = drawingKicks (drawingKick t k) ks := rfl

/-- A triangle list emits one triangle per group of three kicks. -/
theorem drawingKicks_list (R : Nat → Nat) :
    ∀ (ks : List Kick) (t : CGSH_Vulkan), KickInv R PRIM_TRIANGLE t → t.m_vtxCount = 3 →
      (drawingKicks t ks).m_draw.addLog = t.m_draw.addLog ++ listTriangles R ks
  | [], t, _, _ => by simp [drawingKicks, listTriangles]
  | [a], t, hinv, hc => by
    obtain ⟨_, _, _, hd⟩ := drawingKick_pending R _ t a 1 hinv hc
    simp [drawingKicks, listTriangles, hd]
  | [a, b], t, hinv, hc => by
    obtain ⟨hi1, hc1, _, hd1⟩ := drawingKick_pending R _ t a 1 hinv hc
    obtain ⟨_, _, _, hd2⟩ := drawingKick_pending R _ (drawingKick t a) b 0 hi1 hc1
    simp [drawingKicks, listTriangles, hd1, hd2]
  | a :: b :: c :: rest, t, hinv, hc => by
    obtain ⟨hi1, hc1, hb1, hd1⟩ := drawingKick_pending R _ t a 1 hinv hc
    obtain ⟨hi2, hc2, hb2, hd2⟩ := drawingKick_pending R _ (drawingKick t a) b 0 hi1 hc1
    obtain ⟨hi3, hc3, hd3⟩ := drawingKick_completes_list R (drawingKick (drawingKick t a) b) c
      hi2 hc2
    have ih := drawingKicks_list R rest _ hi3 hc3
    rw [drawingKicks_cons, drawingKicks_cons, drawingKicks_cons, ih, hd3,
      CDraw.AddVertices_addLog, hd2, hd1, hb2, hb1]
    simp [listTriangles, triangleOf, Function.update_apply]

/-- Triangles of a list, by index: the j-th one is made of kicks 3j, 3j+1
and 3j+2. -/
theorem listTriangles_eq_range (R : Nat → Nat) :
    ∀ ks : List Kick, listTriangles R ks =
      (List.range (ks.length / 3)).map (fun j =>
        triangleOf R (kickAt ks (3 * j)) (kickAt ks (3 * j + 1)) (kickAt ks (3 * j + 2)))
  | [] => by simp [listTriangles]
  | [a] => by simp [listTriangles]
  | [a, b] => by simp [listTriangles]
  | a :: b :: c :: rest => by
    have hlen : (a :: b :: c :: rest).length / 3 = rest.length / 3 + 1 := by
      simp only [List.length_cons]
      omega
    rw [hlen, List.range_succ_eq_map, listTriangles, listTriangles_eq_range R rest]
    simp only [List.map_cons, List.map_map]
    congr 1

/-- A strip whose first two vertices are in place emits one triangle per
further kick, each from the two previous vertices and the kicked one. -/
theorem drawingKicks_strip (R : Nat → Nat) :
    ∀ (ks : List Kick) (t : CGSH_Vulkan), KickInv R PRIM_TRIANGLESTRIP t → t.m_vtxCount = 1 →
      (drawingKicks t ks).m_draw.addLog =
        t.m_draw.addLog ++ stripTriangles R (t.m_vtxBuffer 2) (t.m_vtxBuffer 1) ks
  | [], t, _, _ => by simp [drawingKicks, stripTriangles]
  | k :: rest, t, hinv, hc => by
    obtain ⟨hi, hc1, hb2, hb1, hd⟩ := drawingKick_completes_strip R t k hinv hc
    rw [drawingKicks_cons, drawingKicks_strip R rest _ hi hc1, hd, CDraw.AddVertices_addLog,
      hb2, hb1]
    simp [stripTriangles]

/-- A fan whose first two vertices are in place emits one triangle per
further kick, each from the first vertex, the previous one and the kicked
one; slot 2 keeps the first vertex, slot 1 ends with the last kicked vertex
and the counter stays at 1. -/
theorem drawingKicks_fan (R : Nat → Nat) :
    ∀ (ks : List Kick) (t : CGSH_Vulkan), KickInv R PRIM_TRIANGLEFAN t → t.m_vtxCount = 1 →
      (drawingKicks t ks).m_vtxCount = 1 ∧
      (drawingKicks t ks).m_vtxBuffer 2 = t.m_vtxBuffer 2 ∧
      (drawingKicks t ks).m_vtxBuffer 1 =
        ((ks.getLast?).map (Kick.vertex R)).getD (t.m_vtxBuffer 1) ∧
      (drawingKicks t ks).m_draw.addLog =
        t.m_draw.addLog ++ fanTriangles R (t.m_vtxBuffer 2) (t.m_vtxBuffer 1) ks
  | [], t, _, hc => by simp [drawingKicks, fanTriangles, hc]
  | k :: rest, t, hinv, hc => by
    obtain ⟨hi, hc1, hb2, hb1, hd⟩ := drawingKick_completes_fan R t k hinv hc
    obtain ⟨ih1, ih2, ih3, ih4⟩ := drawingKicks_fan R rest _ hi hc1
    rw [drawingKicks_cons]
    refine ⟨ih1, by rw [ih2, hb2], ?_, ?_⟩
    · rw [ih3, hb1]
      cases rest with
      | nil => simp
      | cons r rs =>
        rw [List.getLast?_cons_cons]
        obtain ⟨x, hx⟩ := Option.isSome_iff_exists.mp
          (List.getLast?_isSome.mpr (List.cons_ne_nil r rs))
        simp [hx]
    · rw [ih4, hd, CDraw.AddVertices_addLog, hb2, hb1]
      simp [fanTriangles]

/-- Triangles of a strip, by index: the k-th one is made of kicks k, k+1
and k+2. -/
theorem stripTriangles_eq_range (R : Nat → Nat) :
    ∀ (rest : List Kick) (a b : Kick),
      stripTriangles R (a.vertex R) (b.vertex R) rest =
        (List.range rest.length).map (fun k =>
          triangleOf R (kickAt (a :: b :: rest) k) (kickAt (a :: b :: rest) (k + 1))
            (kickAt (a :: b :: rest) (k + 2)))
  | [], _, _ => by simp [stripTriangles]
  | c :: rest, a, b => by
    rw [stripTriangles, stripTriangles_eq_range R rest b c, List.length_cons,
      List.range_succ_eq_map]
    simp only [List.map_cons, List.map_map]
    congr 1

/-- Triangles of a fan, by index: the k-th one is made of kicks 0, k+1 and
k+2. -/
theorem fanTriangles_eq_range (R : Nat → Nat) :
    ∀ (rest : List Kick) (a b : Kick),
      fanTriangles R (a.vertex R) (b.vertex R) rest =
        (List.range rest.length).map (fun k =>
          triangleOf R (kickAt (a :: b :: rest) 0) (kickAt (a :: b :: rest) (k + 1))
            (kickAt (a :: b :: rest) (k + 2)))
  | [], _, _ => by simp [fanTriangles]
  | c :: rest, a, b => by
    rw [fanTriangles, fanTriangles_eq_range R rest a c, List.length_cons,
      List.range_succ_eq_map]
    simp only [List.map_cons, List.map_map]
    congr 1

/-- The triangle built by `Prim_Triangle` from three kicks is the expected
one. -/
theorem triangleOf_eq_expected (R : Nat → Nat) (a b c : Kick) :
    triangleOf R a b c = expectedTriangle R a b c := by
  unfold triangleOf triangleOfVertices expectedTriangle ownColourTriangle emittedVertex
    CGSH_Vulkan.Prim_Triangle_vertices Kick.vertex Kick.position boundOfsX boundOfsY packedColor
  by_cases h : PRMODE_nShading (latchedMode R) = 0 <;> simp [h]

/-- A PRIM write that selects one of the three triangle types arms the
counter with 3 and sets the primitive type. -/
theorem WriteRegisterImpl_PRIM_arms (s : CGSH_Vulkan) (d ty : Nat)
    (hen : s.m_drawEnabled = true) (hd : d &&& 0x07 = ty)
    (hty : ty = PRIM_TRIANGLE ∨ ty = PRIM_TRIANGLESTRIP ∨ ty = PRIM_TRIANGLEFAN) :
    KickInv (s.WriteRegisterImpl GS_REG_PRIM d).m_nReg ty (s.WriteRegisterImpl GS_REG_PRIM d) ∧
      (s.WriteRegisterImpl GS_REG_PRIM d).m_vtxCount = 3 := by
  unfold CGSH_Vulkan.WriteRegisterImpl CGSH_Vulkan.CGSHandler_WriteRegisterImpl
  simp only [if_true, hd]
  have h0 : ty ≠ PRIM_POINT := by rcases hty with h | h | h <;> rw [h] <;> decide
  have h1 : ¬ (ty = PRIM_LINE ∨ ty = PRIM_LINESTRIP) := by
    rcases hty with h | h | h <;> rw [h] <;> decide
  rw [if_neg h0, if_neg h1, if_pos hty]
  refine ⟨⟨?_, rfl, fun _ _ _ _ => rfl⟩, rfl⟩
  split_ifs <;> exact hen

/-! ### Triangle list, strip and fan -/

/-- C1: after a PRIM write that selects the triangle list, a run of N
drawing kicks (XYZ2 or XYZF2 writes with drawing enabled, each preceded by
its colour write) makes `Prim_Triangle` append exactly N / 3 triangles, one
per call, and the j-th of them has the positions of kicks 3j, 3j+1 and 3j+2
as first, second and third vertex (with the colours the shading mode
assigns). -/
theorem triangle_list_emits (s : CGSH_Vulkan) (d : Nat) (ks : List Kick)
    (hen : s.m_drawEnabled = true) (hd : d &&& 0x07 = PRIM_TRIANGLE) :
    (drawingKicks (s.WriteRegisterImpl GS_REG_PRIM d) ks).m_draw.addLog =
        (s.WriteRegisterImpl GS_REG_PRIM d).m_draw.addLog ++
          (List.range (ks.length / 3)).map (fun j =>
            expectedTriangle (s.WriteRegisterImpl GS_REG_PRIM d).m_nReg
              (kickAt ks (3 * j)) (kickAt ks (3 * j + 1)) (kickAt ks (3 * j + 2))) ∧
      (drawingKicks (s.WriteRegisterImpl GS_REG_PRIM d) ks).m_draw.addLog.length =
        (s.WriteRegisterImpl GS_REG_PRIM d).m_draw.addLog.length + ks.length / 3 := by
  obtain ⟨hinv, hc⟩ := WriteRegisterImpl_PRIM_arms s d PRIM_TRIANGLE hen hd (Or.inl rfl)
  have h := drawingKicks_list _ ks _ hinv hc
  rw [listTriangles_eq_range] at h
  simp only [triangleOf_eq_expected] at h
  refine ⟨h, ?_⟩
  rw [h]
  simp

/-- Instance of C1: six kicks after a PRIM write of type 3 at the reset
state. -/
theorem triangle_list_emits_witness :
    (CGSH_Vulkan.init (fun _ => 0) true).m_drawEnabled = true ∧
      (3 &&& 0x07 = PRIM_TRIANGLE) ∧
      (drawingKicks ((CGSH_Vulkan.init (fun _ => 0) true).WriteRegisterImpl GS_REG_PRIM 3)
          [⟨1, false, 10⟩, ⟨2, true, 20⟩, ⟨3, false, 30⟩, ⟨4, false, 40⟩, ⟨5, true, 50⟩,
            ⟨6, false, 60⟩]).m_draw.addLog.length =
        ((CGSH_Vulkan.init (fun _ => 0) true).WriteRegisterImpl GS_REG_PRIM 3).m_draw.addLog.length
          + [(⟨1, false, 10⟩ : Kick), ⟨2, true, 20⟩, ⟨3, false, 30⟩, ⟨4, false, 40⟩,
            ⟨5, true, 50⟩, ⟨6, false, 60⟩].length / 3 :=
  ⟨rfl, by decide,
    (triangle_list_emits (CGSH_Vulkan.init (fun _ => 0) true) 3
      [⟨1, false, 10⟩, ⟨2, true, 20⟩, ⟨3, false, 30⟩, ⟨4, false, 40⟩, ⟨5, true, 50⟩,
        ⟨6, false, 60⟩] rfl (by decide)).2⟩

/-- Triangles appended by a run of kicks of a strip, for every length of the
run. -/
theorem drawingKicks_strip_log (s : CGSH_Vulkan) (d : Nat) (ks : List Kick)
    (hen : s.m_drawEnabled = true) (hd : d &&& 0x07 = PRIM_TRIANGLESTRIP) :
    (drawingKicks (s.WriteRegisterImpl GS_REG_PRIM d) ks).m_draw.addLog =
      (s.WriteRegisterImpl GS_REG_PRIM d).m_draw.addLog ++
        (List.range (ks.length - 2)).map (fun k =>
          expectedTriangle (s.WriteRegisterImpl GS_REG_PRIM d).m_nReg
            (kickAt ks k) (kickAt ks (k + 1)) (kickAt ks (k + 2))) := by
  obtain ⟨hinv, hc⟩ := WriteRegisterImpl_PRIM_arms s d PRIM_TRIANGLESTRIP hen hd
    (Or.inr (Or.inl rfl))
  simp only [← triangleOf_eq_expected]
  match ks with
  | [] => simp [drawingKicks]
  | [a] =>
    obtain ⟨_, _, _, hd1⟩ := drawingKick_pending _ _ _ a 1 hinv hc
    simp [drawingKicks, hd1]
  | a :: b :: rest =>
    obtain ⟨hi1, hc1, hb1, hd1⟩ := drawingKick_pending _ _ _ a 1 hinv hc
    obtain ⟨hi2, hc2, hb2, hd2⟩ := drawingKick_pending _ _ _ b 0 hi1 hc1
    rw [drawingKicks_cons, drawingKicks_cons, drawingKicks_strip _ rest _ hi2 hc2, hd2, hd1,
      hb2, hb1]
    simp only [Function.update_apply, if_true, if_false,
      show ((2 : Nat) = 0 + 1) = False by simp, show ((2 : Nat) = 1 + 1) = True by simp,
      show ((1 : Nat) = 0 + 1) = True by simp]
    rw [stripTriangles_eq_range]
    simp

/-- C2, as amended: after a PRIM write that selects the triangle strip, a
run of N >= 3 drawing kicks appends exactly N - 2 triangles, the k-th of
them built from kicks k, k+1 and k+2 in that order; each vertex has the
position latched at its own kick, and the colour latched at its own kick
under smooth shading, while under flat shading all three vertices have the
colour latched at the last kick of the triangle. In particular four kicks
v0..v3 give (v0,v1,v2) and then (v1,v2,v3). -/
theorem triangle_strip_emits (s : CGSH_Vulkan) (d : Nat) (ks : List Kick) (v0 v1 v2 v3 : Kick)
    (hen : s.m_drawEnabled = true) (hd : d &&& 0x07 = PRIM_TRIANGLESTRIP)
    (hn : 3 ≤ ks.length) :
    (drawingKicks (s.WriteRegisterImpl GS_REG_PRIM d) ks).m_draw.addLog =
        (s.WriteRegisterImpl GS_REG_PRIM d).m_draw.addLog ++
          (List.range (ks.length - 2)).map (fun k =>
            expectedTriangle (s.WriteRegisterImpl GS_REG_PRIM d).m_nReg
              (kickAt ks k) (kickAt ks (k + 1)) (kickAt ks (k + 2))) ∧
      (drawingKicks (s.WriteRegisterImpl GS_REG_PRIM d) ks).m_draw.addLog.length =
        (s.WriteRegisterImpl GS_REG_PRIM d).m_draw.addLog.length + (ks.length - 2) ∧
      0 < ks.length - 2 ∧
      (drawingKicks (s.WriteRegisterImpl GS_REG_PRIM d) [v0, v1, v2, v3]).m_draw.addLog =
        (s.WriteRegisterImpl GS_REG_PRIM d).m_draw.addLog ++
          [expectedTriangle (s.WriteRegisterImpl GS_REG_PRIM d).m_nReg v0 v1 v2,
            expectedTriangle (s.WriteRegisterImpl GS_REG_PRIM d).m_nReg v1 v2 v3] := by
  refine ⟨drawingKicks_strip_log s d ks hen hd, ?_, by omega, ?_⟩
  · rw [drawingKicks_strip_log s d ks hen hd]
    simp
  · rw [drawingKicks_strip_log s d _ hen hd]
    rfl

/-- Instance of C2 as amended: four kicks after a PRIM write of type 4 at
the reset state. -/
theorem triangle_strip_emits_witness :
    (CGSH_Vulkan.init (fun _ => 0) true).m_drawEnabled = true ∧
      (4 &&& 0x07 = PRIM_TRIANGLESTRIP) ∧
      3 ≤ [(⟨1, false, 10⟩ : Kick), ⟨2, true, 20⟩, ⟨3, false, 30⟩, ⟨4, false, 40⟩].length ∧
      (drawingKicks ((CGSH_Vulkan.init (fun _ => 0) true).WriteRegisterImpl GS_REG_PRIM 4)
          [⟨1, false, 10⟩, ⟨2, true, 20⟩, ⟨3, false, 30⟩, ⟨4, false, 40⟩]).m_draw.addLog.length =
        ((CGSH_Vulkan.init (fun _ => 0) true).WriteRegisterImpl GS_REG_PRIM 4).m_draw.addLog.length
          + ([(⟨1, false, 10⟩ : Kick), ⟨2, true, 20⟩, ⟨3, false, 30⟩,
            ⟨4, false, 40⟩].length - 2) :=
  ⟨rfl, by decide, by decide,
    (triangle_strip_emits (CGSH_Vulkan.init (fun _ => 0) true) 4
      [⟨1, false, 10⟩, ⟨2, true, 20⟩, ⟨3, false, 30⟩, ⟨4, false, 40⟩]
      ⟨1, false, 10⟩ ⟨2, true, 20⟩ ⟨3, false, 30⟩ ⟨4, false, 40⟩ rfl (by decide)
      (by decide)).2.1⟩

/-- C2, as stated, fails under flat shading: after a PRIM write of type 4
(flat shading, bit 3 clear) at the reset state, three kicks with colours 1,
2 and 3 emit a triangle whose vertices all carry colour 3, not each the
colour latched at its own kick. -/
theorem triangle_strip_own_colour_counterexample :
    (CGSH_Vulkan.init (fun _ => 0) true).m_drawEnabled = true ∧
      (4 &&& 0x07 = PRIM_TRIANGLESTRIP) ∧
      (drawingKicks ((CGSH_Vulkan.init (fun _ => 0) true).WriteRegisterImpl GS_REG_PRIM 4)
          [⟨1, false, 0x10⟩, ⟨2, false, 0x20⟩, ⟨3, false, 0x30⟩]).m_draw.addLog =
        [[⟨0x10, 0, 0, 3, 0, 0, 0⟩, ⟨0x20, 0, 0, 3, 0, 0, 0⟩, ⟨0x30, 0, 0, 3, 0, 0, 0⟩]] ∧
      (drawingKicks ((CGSH_Vulkan.init (fun _ => 0) true).WriteRegisterImpl GS_REG_PRIM 4)
          [⟨1, false, 0x10⟩, ⟨2, false, 0x20⟩, ⟨3, false, 0x30⟩]).m_draw.addLog ≠
        ((CGSH_Vulkan.init (fun _ => 0) true).WriteRegisterImpl GS_REG_PRIM 4).m_draw.addLog ++
          (List.range ([(⟨1, false, 0x10⟩ : Kick), ⟨2, false, 0x20⟩,
              ⟨3, false, 0x30⟩].length - 2)).map (fun k =>
            ownColourTriangle
              ((CGSH_Vulkan.init (fun _ => 0) true).WriteRegisterImpl GS_REG_PRIM 4).m_nReg
              (kickAt [⟨1, false, 0x10⟩, ⟨2, false, 0x20⟩, ⟨3, false, 0x30⟩] k)
              (kickAt [⟨1, false, 0x10⟩, ⟨2, false, 0x20⟩, ⟨3, false, 0x30⟩] (k + 1))
              (kickAt [⟨1, false, 0x10⟩, ⟨2, false, 0x20⟩, ⟨3, false, 0x30⟩] (k + 2))) := by
  refine ⟨rfl, by decide, by decide, by decide⟩

/-- C3: after a PRIM write that selects the triangle fan, a run of N ≥ 3
drawing kicks appends exactly N - 2 triangles, the k-th of them built from
kick 0, kick k+1 and kick k+2; afterwards the counter is 1, scratch slot 2
still holds the first kicked vertex and slot 1 holds the last kicked one
(the previous slot 0). -/
theorem triangle_fan_emits (s : CGSH_Vulkan) (d : Nat) (ks : List Kick)
    (hen : s.m_drawEnabled = true) (hd : d &&& 0x07 = PRIM_TRIANGLEFAN)
    (hn : 3 ≤ ks.length) :
    (drawingKicks (s.WriteRegisterImpl GS_REG_PRIM d) ks).m_draw.addLog =
        (s.WriteRegisterImpl GS_REG_PRIM d).m_draw.addLog ++
          (List.range (ks.length - 2)).map (fun k =>
            expectedTriangle (s.WriteRegisterImpl GS_REG_PRIM d).m_nReg
              (kickAt ks 0) (kickAt ks (k + 1)) (kickAt ks (k + 2))) ∧
      (drawingKicks (s.WriteRegisterImpl GS_REG_PRIM d) ks).m_vtxCount = 1 ∧
      (drawingKicks (s.WriteRegisterImpl GS_REG_PRIM d) ks).m_vtxBuffer 2 =
        (kickAt ks 0).vertex (s.WriteRegisterImpl GS_REG_PRIM d).m_nReg ∧
      (drawingKicks (s.WriteRegisterImpl GS_REG_PRIM d) ks).m_vtxBuffer 1 =
        (kickAt ks (ks.length - 1)).vertex (s.WriteRegisterImpl GS_REG_PRIM d).m_nReg := by
  obtain ⟨hinv, hc⟩ := WriteRegisterImpl_PRIM_arms s d PRIM_TRIANGLEFAN hen hd
    (Or.inr (Or.inr rfl))
  simp only [← triangleOf_eq_expected]
  match ks, hn with
  | a :: b :: c :: rest, _ =>
    obtain ⟨hi1, hc1, hb1, hd1⟩ := drawingKick_pending _ _ _ a 1 hinv hc
    obtain ⟨hi2, hc2, hb2, hd2⟩ := drawingKick_pending _ _ _ b 0 hi1 hc1
    obtain ⟨f1, f2, f3, f4⟩ := drawingKicks_fan _ (c :: rest) _ hi2 hc2
    have e2 : (drawingKick (drawingKick (s.WriteRegisterImpl GS_REG_PRIM d) a) b).m_vtxBuffer 2 =
        a.vertex (s.WriteRegisterImpl GS_REG_PRIM d).m_nReg := by
      rw [hb2, hb1]
      simp [Function.update_apply]
    have e1 : (drawingKick (drawingKick (s.WriteRegisterImpl GS_REG_PRIM d) a) b).m_vtxBuffer 1 =
        b.vertex (s.WriteRegisterImpl GS_REG_PRIM d).m_nReg := by
      rw [hb2]
      simp [Function.update_apply]
    rw [drawingKicks_cons, drawingKicks_cons]
    refine ⟨?_, f1, ?_, ?_⟩
    · rw [f4, hd2, hd1, e2, e1, fanTriangles_eq_range]
      simp
    · rw [f2, e2]
      rfl
    · rw [f3]
      obtain ⟨x, hx⟩ := Option.isSome_iff_exists.mp
        (List.getLast?_isSome.mpr (List.cons_ne_nil c rest))
      have hx2 : kickAt (a :: b :: c :: rest) ((a :: b :: c :: rest).length - 1) = x := by
        have h1 : (a :: b :: c :: rest).getLast? = some x := by
          rw [List.getLast?_cons_cons, List.getLast?_cons_cons]
          exact hx
        rw [List.getLast?_eq_getElem?] at h1
        unfold kickAt
        rw [List.getD_eq_getElem?_getD, h1]
        rfl
      rw [hx, hx2]
      rfl

/-- Instance of C3: five kicks after a PRIM write of type 5 at the reset
state. -/
theorem triangle_fan_emits_witness :
    (CGSH_Vulkan.init (fun _ => 0) true).m_drawEnabled = true ∧
      (5 &&& 0x07 = PRIM_TRIANGLEFAN) ∧
      3 ≤ [(⟨1, false, 10⟩ : Kick), ⟨2, true, 20⟩, ⟨3, false, 30⟩, ⟨4, false, 40⟩,
        ⟨5, false, 50⟩].length ∧
      (drawingKicks ((CGSH_Vulkan.init (fun _ => 0) true).WriteRegisterImpl GS_REG_PRIM 5)
          [⟨1, false, 10⟩, ⟨2, true, 20⟩, ⟨3, false, 30⟩, ⟨4, false, 40⟩,
            ⟨5, false, 50⟩]).m_vtxCount = 1 :=
  ⟨rfl, by decide, by decide,
    (triangle_fan_emits (CGSH_Vulkan.init (fun _ => 0) true) 5
      [⟨1, false, 10⟩, ⟨2, true, 20⟩, ⟨3, false, 30⟩, ⟨4, false, 40⟩, ⟨5, false, 50⟩]
      rfl (by decide) (by decide)).2.1⟩

/-! ### Flushing -/

/-- Flushing an empty window does nothing. -/
theorem CDraw.FlushVertices_empty (d : CDraw) (h : d.vertexCount = 0) : d.FlushVertices = d := by
  unfold CDraw.FlushVertices
  rw [if_pos h]

/-- Flushing a non-empty window records exactly one draw, for that window
and under the state in effect, and moves the window start to its end. -/
theorem CDraw.FlushVertices_records (d : CDraw) (h : d.vertexCount ≠ 0) :
    ∃ call, d.FlushVertices.draws = d.draws ++ [call] ∧ CoversWindow d call ∧
      UsesStateOf d call ∧ d.FlushVertices.m_passVertexStart = d.m_passVertexEnd := by
  obtain ⟨_, _, _, _, _, _, _, heq, _⟩ := CDraw.FlushVertices_shape d h
  rw [heq]
  exact ⟨_, rfl, ⟨rfl, rfl⟩, ⟨rfl, rfl, rfl, rfl, rfl, rfl⟩, rfl⟩

/-- A flush changes neither the render state, nor the window end, nor the
vertex buffer, nor the count of frame flushes. -/
theorem CDraw.FlushVertices_keeps (d : CDraw) :
    SameRenderState d d.FlushVertices ∧ d.FlushVertices.m_passVertexEnd = d.m_passVertexEnd ∧
      d.FlushVertices.m_vertexBuffer = d.m_vertexBuffer ∧
      d.FlushVertices.frameFlushCount = d.frameFlushCount := by
  by_cases h : d.vertexCount = 0
  · rw [CDraw.FlushVertices_empty d h]
    exact ⟨⟨rfl, rfl, rfl, rfl, rfl, rfl⟩, rfl, rfl, rfl⟩
  · obtain ⟨_, _, _, _, _, _, _, heq, _⟩ := CDraw.FlushVertices_shape d h
    rw [heq]
    exact ⟨⟨rfl, rfl, rfl, rfl, rfl, rfl⟩, rfl, rfl, rfl⟩

/-! ### State setters -/

/-- A setter that returns early on equal values and otherwise flushes before
storing meets the setter contract. -/
theorem SetterContract_of_flush (d d' : CDraw) (same stored : Prop)
    (hsame : same → d' = d) (hdraws : ¬ same → d'.draws = d.FlushVertices.draws)
    (hstored : stored) : SetterContract d d' same stored := by
  refine ⟨hsame, ?_, ?_, hstored⟩
  · intro hn hv
    obtain ⟨call, hc, hw, _, _⟩ := CDraw.FlushVertices_records d hv
    exact ⟨call, by rw [hdraws hn, hc], hw⟩
  · intro hn hv
    rw [hdraws hn, CDraw.FlushVertices_empty d hv]

/-- C6: each of the five state setters of `CDraw` returns the state
unchanged (so no draw is recorded) when every argument equals the value in
effect; when an argument differs and the pending window is non-empty it
records exactly one draw, covering that window; and after the call the
stored values are the arguments. -/
theorem setters_flush_only_on_change (d : CDraw)
    (caps addr width daddr dwidth bufAddr bufWidth texWidth texHeight : Nat)
    (scissorX scissorY scissorWidth scissorHeight : Nat) :
    SetterContract d (d.SetPipelineCaps caps) (caps = d.m_pipelineCaps)
        ((d.SetPipelineCaps caps).m_pipelineCaps = caps) ∧
      SetterContract d (d.SetFramebufferParams addr width)
        (d.m_pushConstants.fbBufAddr = addr ∧ d.m_pushConstants.fbBufWidth = width)
        ((d.SetFramebufferParams addr width).m_pushConstants.fbBufAddr = addr ∧
          (d.SetFramebufferParams addr width).m_pushConstants.fbBufWidth = width) ∧
      SetterContract d (d.SetDepthbufferParams daddr dwidth)
        (d.m_pushConstants.depthBufAddr = daddr ∧ d.m_pushConstants.depthBufWidth = dwidth)
        ((d.SetDepthbufferParams daddr dwidth).m_pushConstants.depthBufAddr = daddr ∧
          (d.SetDepthbufferParams daddr dwidth).m_pushConstants.depthBufWidth = dwidth) ∧
      SetterContract d (d.SetTextureParams bufAddr bufWidth texWidth texHeight)
        (d.m_pushConstants.texBufAddr = bufAddr ∧ d.m_pushConstants.texBufWidth = bufWidth ∧
          d.m_pushConstants.texWidth = texWidth ∧ d.m_pushConstants.texHeight = texHeight)
        ((d.SetTextureParams bufAddr bufWidth texWidth texHeight).m_pushConstants.texBufAddr
            = bufAddr ∧
          (d.SetTextureParams bufAddr bufWidth texWidth texHeight).m_pushConstants.texBufWidth
            = bufWidth ∧
          (d.SetTextureParams bufAddr bufWidth texWidth texHeight).m_pushConstants.texWidth
            = texWidth ∧
          (d.SetTextureParams bufAddr bufWidth texWidth texHeight).m_pushConstants.texHeight
            = texHeight) ∧
      SetterContract d (d.SetScissor scissorX scissorY scissorWidth scissorHeight)
        (d.m_scissorX = scissorX ∧ d.m_scissorY = scissorY ∧
          d.m_scissorWidth = scissorWidth ∧ d.m_scissorHeight = scissorHeight)
        ((d.SetScissor scissorX scissorY scissorWidth scissorHeight).m_scissorX = scissorX ∧
          (d.SetScissor scissorX scissorY scissorWidth scissorHeight).m_scissorY = scissorY ∧
          (d.SetScissor scissorX scissorY scissorWidth scissorHeight).m_scissorWidth
            = scissorWidth ∧
          (d.SetScissor scissorX scissorY scissorWidth scissorHeight).m_scissorHeight
            = scissorHeight) := by
  refine ⟨?_, ?_, ?_, ?_, ?_⟩
  · apply SetterContract_of_flush
    · intro h
      simp [CDraw.SetPipelineCaps, h]
    · intro h
      simp [CDraw.SetPipelineCaps, h]
    · by_cases h : caps = d.m_pipelineCaps <;> simp [CDraw.SetPipelineCaps, h]
  · apply SetterContract_of_flush
    · intro h
      simp [CDraw.SetFramebufferParams, h.1, h.2]
    · intro h
      by_cases h1 : d.m_pushConstants.fbBufAddr = addr <;>
        by_cases h2 : d.m_pushConstants.fbBufWidth = width <;>
        simp_all [CDraw.SetFramebufferParams]
    · by_cases h1 : d.m_pushConstants.fbBufAddr = addr <;>
        by_cases h2 : d.m_pushConstants.fbBufWidth = width <;>
        simp_all [CDraw.SetFramebufferParams]
  · apply SetterContract_of_flush
    · intro h
      simp [CDraw.SetDepthbufferParams, h.1, h.2]
    · intro h
      by_cases h1 : d.m_pushConstants.depthBufAddr = daddr <;>
        by_cases h2 : d.m_pushConstants.depthBufWidth = dwidth <;>
        simp_all [CDraw.SetDepthbufferParams]
    · by_cases h1 : d.m_pushConstants.depthBufAddr = daddr <;>
        by_cases h2 : d.m_pushConstants.depthBufWidth = dwidth <;>
        simp_all [CDraw.SetDepthbufferParams]
  · apply SetterContract_of_flush
    · intro h
      simp [CDraw.SetTextureParams, h.1, h.2.1, h.2.2.1, h.2.2.2]
    · intro h
      by_cases h1 : d.m_pushConstants.texBufAddr = bufAddr <;>
        by_cases h2 : d.m_pushConstants.texBufWidth = bufWidth <;>
        by_cases h3 : d.m_pushConstants.texWidth = texWidth <;>
        by_cases h4 : d.m_pushConstants.texHeight = texHeight <;>
        simp_all [CDraw.SetTextureParams]
    · by_cases h1 : d.m_pushConstants.texBufAddr = bufAddr <;>
        by_cases h2 : d.m_pushConstants.texBufWidth = bufWidth <;>
        by_cases h3 : d.m_pushConstants.texWidth = texWidth <;>
        by_cases h4 : d.m_pushConstants.texHeight = texHeight <;>
        simp_all [CDraw.SetTextureParams]
  · apply SetterContract_of_flush
    · intro h
      simp [CDraw.SetScissor, h.1, h.2.1, h.2.2.1, h.2.2.2]
    · intro h
      by_cases h1 : d.m_scissorX = scissorX <;>
        by_cases h2 : d.m_scissorY = scissorY <;>
        by_cases h3 : d.m_scissorWidth = scissorWidth <;>
        by_cases h4 : d.m_scissorHeight = scissorHeight <;>
        simp_all [CDraw.SetScissor]
    · by_cases h1 : d.m_scissorX = scissorX <;>
        by_cases h2 : d.m_scissorY = scissorY <;>
        by_cases h3 : d.m_scissorWidth = scissorWidth <;>
        by_cases h4 : d.m_scissorHeight = scissorHeight <;>
        simp_all [CDraw.SetScissor]

/-- Instance of C6: changing the pipeline capabilities while one triangle is
pending records exactly one draw for it. -/
theorem setters_flush_only_on_change_witness :
    ∃ call, (CDraw.oneTriangle.SetPipelineCaps 1).draws = CDraw.oneTriangle.draws ++ [call] ∧
      CoversWindow CDraw.oneTriangle call :=
  (setters_flush_only_on_change CDraw.oneTriangle 1 0 0 0 0 0 0 0 0 0 0 0 0).1.2.1
    (by decide) (by decide)

/-- A setter that flushes and then stores flushes under the old state. -/
theorem FlushesUnderOldState_of_flush (d d' : CDraw) (changed : Prop) (store : CDraw → CDraw)
    (heq : changed → d' = store d.FlushVertices)
    (hdraws : ∀ f : CDraw, (store f).draws = f.draws) :
    FlushesUnderOldState d d' changed store := by
  intro hch hv
  obtain ⟨call, hc, _, hu, _⟩ := CDraw.FlushVertices_records d hv
  exact ⟨call, hc, hu, (CDraw.FlushVertices_keeps d).1, heq hch, by rw [heq hch, hdraws, hc]⟩

/-- C7: when a state setter of `CDraw` is called with a changed value while
a batch is pending, the draw recorded by the implied flush uses the old
state (pipeline key, push constants, scissor rectangle as before the call),
the flushed state still holds the old values, and the new values are stored
into the flushed state afterwards. -/
theorem setters_flush_under_old_state (d : CDraw)
    (caps addr width daddr dwidth bufAddr bufWidth texWidth texHeight : Nat)
    (scissorX scissorY scissorWidth scissorHeight : Nat) :
    FlushesUnderOldState d (d.SetPipelineCaps caps) (caps ≠ d.m_pipelineCaps)
        (fun f => { f with m_pipelineCaps := caps }) ∧
      FlushesUnderOldState d (d.SetFramebufferParams addr width)
        (¬ (d.m_pushConstants.fbBufAddr = addr ∧ d.m_pushConstants.fbBufWidth = width))
        (fun f => { f with m_pushConstants :=
          { f.m_pushConstants with fbBufAddr := addr, fbBufWidth := width } }) ∧
      FlushesUnderOldState d (d.SetDepthbufferParams daddr dwidth)
        (¬ (d.m_pushConstants.depthBufAddr = daddr ∧ d.m_pushConstants.depthBufWidth = dwidth))
        (fun f => { f with m_pushConstants :=
          { f.m_pushConstants with depthBufAddr := daddr, depthBufWidth := dwidth } }) ∧
      FlushesUnderOldState d (d.SetTextureParams bufAddr bufWidth texWidth texHeight)
        (¬ (d.m_pushConstants.texBufAddr = bufAddr ∧ d.m_pushConstants.texBufWidth = bufWidth ∧
          d.m_pushConstants.texWidth = texWidth ∧ d.m_pushConstants.texHeight = texHeight))
        (fun f => { f with m_pushConstants :=
          { f.m_pushConstants with texBufAddr := bufAddr, texBufWidth := bufWidth,
                                   texWidth := texWidth, texHeight := texHeight } }) ∧
      FlushesUnderOldState d (d.SetScissor scissorX scissorY scissorWidth scissorHeight)
        (¬ (d.m_scissorX = scissorX ∧ d.m_scissorY = scissorY ∧
          d.m_scissorWidth = scissorWidth ∧ d.m_scissorHeight = scissorHeight))
        (fun f => { f with m_scissorX := scissorX, m_scissorY := scissorY,
                           m_scissorWidth := scissorWidth, m_scissorHeight := scissorHeight }) := by
  refine ⟨?_, ?_, ?_, ?_, ?_⟩
  · apply FlushesUnderOldState_of_flush
    · intro h
      simp [CDraw.SetPipelineCaps, h]
    · intro f
      rfl
  · apply FlushesUnderOldState_of_flush
    · intro h
      by_cases h1 : d.m_pushConstants.fbBufAddr = addr <;>
        by_cases h2 : d.m_pushConstants.fbBufWidth = width <;>
        simp_all [CDraw.SetFramebufferParams]
    · intro f
      rfl
  · apply FlushesUnderOldState_of_flush
    · intro h
      by_cases h1 : d.m_pushConstants.depthBufAddr = daddr <;>
        by_cases h2 : d.m_pushConstants.depthBufWidth = dwidth <;>
        simp_all [CDraw.SetDepthbufferParams]
    · intro f
      rfl
  · apply FlushesUnderOldState_of_flush
    · intro h
      by_cases h1 : d.m_pushConstants.texBufAddr = bufAddr <;>
        by_cases h2 : d.m_pushConstants.texBufWidth = bufWidth <;>
        by_cases h3 : d.m_pushConstants.texWidth = texWidth <;>
        by_cases h4 : d.m_pushConstants.texHeight = texHeight <;>
        simp_all [CDraw.SetTextureParams]
    · intro f
      rfl
  · apply FlushesUnderOldState_of_flush
    · intro h
      by_cases h1 : d.m_scissorX = scissorX <;>
        by_cases h2 : d.m_scissorY = scissorY <;>
        by_cases h3 : d.m_scissorWidth = scissorWidth <;>
        by_cases h4 : d.m_scissorHeight = scissorHeight <;>
        simp_all [CDraw.SetScissor]
    · intro f
      rfl

/-- Instance of C7: changing the scissor rectangle while one triangle is
pending records its draw under the old rectangle. -/
theorem setters_flush_under_old_state_witness :
    ∃ call, (CDraw.oneTriangle.SetScissor 0 0 640 448).draws =
        CDraw.oneTriangle.draws ++ [call] ∧
      UsesStateOf CDraw.oneTriangle call :=
  ((setters_flush_under_old_state CDraw.oneTriangle 0 0 0 0 0 0 0 0 0 0 0 640 448).2.2.2.2
    (by decide) (by decide)).imp (fun _ h => ⟨h.2.2.2.2, h.2.1⟩)

/-! ### Appending vertices -/

/-- A flush only ever adds failed assertions, and only the swizzle-table one
or, when the window is not a multiple of three, the multiple-of-three one. -/
theorem CDraw.FlushVertices_failedAsserts (d : CDraw) :
    ∃ extra, d.FlushVertices.failedAsserts = d.failedAsserts ++ extra ∧
      ∀ a ∈ extra, a = Assertion.swizzleTableFormat ∨
        (a = Assertion.multipleOfThree ∧ d.vertexCount % 3 ≠ 0) := by
  by_cases h : d.vertexCount = 0
  · rw [CDraw.FlushVertices_empty d h]
    exact ⟨[], by simp, by simp⟩
  · obtain ⟨_, _, _, _, extra, _, _, heq, hex⟩ := CDraw.FlushVertices_shape d h
    rw [heq]
    exact ⟨extra, rfl, hex⟩

/-- In range, the 32-bit window size is the plain difference. -/
theorem CDraw.vertexCount_eq (d : CDraw) (h : d.m_passVertexStart ≤ d.m_passVertexEnd)
    (hend : d.m_passVertexEnd < 2 ^ 32) :
    d.vertexCount = d.m_passVertexEnd - d.m_passVertexStart := by
  unfold CDraw.vertexCount
  have : d.m_passVertexEnd + 2 ^ 32 - d.m_passVertexStart =
      (d.m_passVertexEnd - d.m_passVertexStart) + 2 ^ 32 := by omega
  rw [this, Nat.add_mod_right, Nat.mod_eq_of_lt]
  omega

/-- A draw recorded for the window of a state with a 32-bit window end
covers every slot of that window. -/
theorem CoversSlots_of_CoversWindow (d : CDraw) (call : DrawCall) (h : CoversWindow d call)
    (hend : d.m_passVertexEnd < 2 ^ 32) : CoversSlots d call := by
  intro i h1 h2
  have hv := CDraw.vertexCount_eq d (by omega) hend
  rw [h.1, h.2, hv]
  simp only [SIZEOF_PRIM_VERTEX]
  omega

/-- State after the frame flush forced by an append that does not fit. -/
theorem CDraw.AddVertices_reserve_overflow (d : CDraw) (amount : Nat)
    (hamount : amount ≤ MAX_VERTEX_COUNT) (hover : d.m_passVertexEnd + amount > MAX_VERTEX_COUNT) :
    d.AddVertices_reserve amount =
      { d.FlushVertices with
        frameFlushCount := d.frameFlushCount + 1, m_passVertexStart := 0, m_passVertexEnd := 0 } := by
  unfold CDraw.AddVertices_reserve
  rw [if_pos hover]
  unfold CDraw.FrameCommandBuffer_Flush CDraw.PostFlushFrameCommandBuffer
    CDraw.PreFlushFrameCommandBuffer
  simp only [CDraw.check_eq, Nat.zero_add, hamount, decide_True, if_true, List.append_nil,
    (CDraw.FlushVertices_keeps d).2.2.2]

/-- C8: an `AddVertices` call of at most `MAX_VERTEX_COUNT` vertices that
would push the window end past `MAX_VERTEX_COUNT` triggers exactly one frame
flush before the copy; right before the copy the window is empty (both start
and end are 0), the assertion `end + amount <= MAX_VERTEX_COUNT` holds (it is
not added to the failed assertions), and the vertices pending before the call
are not lost: the flush records one draw for the pending window, covering
each of its slots, and leaves the vertex buffer untouched. The copy then
puts the new vertices at slots 0.. and the window becomes [0, amount). When
the vertices fit, no flush is triggered. -/
theorem AddVertices_overflow_flushes_once (d : CDraw) (vs : List PRIM_VERTEX)
    (hamount : vs.length ≤ MAX_VERTEX_COUNT) :
    (d.m_passVertexEnd + vs.length > MAX_VERTEX_COUNT →
      (d.AddVertices_reserve vs.length).frameFlushCount = d.frameFlushCount + 1 ∧
      (d.AddVertices_reserve vs.length).m_passVertexStart = 0 ∧
      (d.AddVertices_reserve vs.length).m_passVertexEnd = 0 ∧
      (d.AddVertices_reserve vs.length).m_passVertexEnd + vs.length ≤ MAX_VERTEX_COUNT ∧
      (d.AddVertices_reserve vs.length).failedAsserts.count Assertion.fitsInBuffer =
        d.failedAsserts.count Assertion.fitsInBuffer ∧
      (d.vertexCount ≠ 0 →
        ∃ call, (d.AddVertices_reserve vs.length).draws = d.draws ++ [call] ∧
          CoversWindow d call ∧ (d.m_passVertexEnd < 2 ^ 32 → CoversSlots d call)) ∧
      (d.vertexCount = 0 → (d.AddVertices_reserve vs.length).draws = d.draws) ∧
      (d.AddVertices_reserve vs.length).m_vertexBuffer = d.m_vertexBuffer ∧
      (d.AddVertices vs).draws = (d.AddVertices_reserve vs.length).draws ∧
      (d.AddVertices vs).frameFlushCount = d.frameFlushCount + 1 ∧
      (d.AddVertices vs).m_passVertexStart = 0 ∧
      (d.AddVertices vs).m_passVertexEnd = vs.length ∧
      (∀ i, i < vs.length →
        (d.AddVertices vs).m_vertexBuffer i = vs.getD i ⟨0, 0, 0, 0, 0, 0, 0⟩)) ∧
    (d.m_passVertexEnd + vs.length ≤ MAX_VERTEX_COUNT →
      d.AddVertices_reserve vs.length = d ∧
      (d.AddVertices vs).frameFlushCount = d.frameFlushCount ∧
      (d.AddVertices vs).draws = d.draws) := by
  constructor
  · intro hover
    have hr := CDraw.AddVertices_reserve_overflow d vs.length hamount hover
    have hlt : vs.length < 4294967296 := by
      have : MAX_VERTEX_COUNT < 4294967296 := by decide
      omega
    unfold CDraw.AddVertices
    rw [hr]
    refine ⟨rfl, rfl, rfl, by simpa using hamount, ?_, ?_, ?_, ?_, rfl, rfl, rfl, ?_, ?_⟩
    · obtain ⟨extra, he, hex⟩ := CDraw.FlushVertices_failedAsserts d
      show d.FlushVertices.failedAsserts.count _ = _
      rw [he, List.count_append]
      have : extra.count Assertion.fitsInBuffer = 0 := by
        rw [List.count_eq_zero]
        intro hmem
        rcases hex _ hmem with h | h
        · exact absurd h (by decide)
        · exact absurd h.1 (by decide)
      omega
    · intro hv
      obtain ⟨call, hc, hw, _, _⟩ := CDraw.FlushVertices_records d hv
      exact ⟨call, hc, hw, fun hend => CoversSlots_of_CoversWindow d call hw hend⟩
    · intro hv
      show d.FlushVertices.draws = d.draws
      rw [CDraw.FlushVertices_empty d hv]
    · exact (CDraw.FlushVertices_keeps d).2.2.1
    · simp [CDraw.AddVertices_copy, Nat.mod_eq_of_lt hlt]
    · intro i hi
      simp [CDraw.AddVertices_copy, hi]
  · intro hfit
    have hr : d.AddVertices_reserve vs.length = d := by
      unfold CDraw.AddVertices_reserve
      rw [if_neg (by omega)]
    unfold CDraw.AddVertices
    rw [hr]
    exact ⟨rfl, rfl, rfl⟩

/-- Instance of C8: appending one triangle to a window that ends at slot
1023 forces one frame flush, which records the pending triangle. -/
theorem AddVertices_overflow_flushes_once_witness :
    [(⟨0, 0, 0, 0, 0, 0, 0⟩ : PRIM_VERTEX), ⟨16, 0, 0, 0, 0, 0, 0⟩,
        ⟨0, 16, 0, 0, 0, 0, 0⟩].length ≤ MAX_VERTEX_COUNT ∧
      (CDraw.nearlyFull.AddVertices_reserve
        [(⟨0, 0, 0, 0, 0, 0, 0⟩ : PRIM_VERTEX), ⟨16, 0, 0, 0, 0, 0, 0⟩,
          ⟨0, 16, 0, 0, 0, 0, 0⟩].length).frameFlushCount =
        CDraw.nearlyFull.frameFlushCount + 1 :=
  ⟨by decide,
    ((AddVertices_overflow_flushes_once CDraw.nearlyFull
      [⟨0, 0, 0, 0, 0, 0, 0⟩, ⟨16, 0, 0, 0, 0, 0, 0⟩, ⟨0, 16, 0, 0, 0, 0, 0⟩]
      (by decide)).1 (by decide)).1⟩

/-! ### Window invariants -/

/-- Doing nothing is a window step. -/
theorem WindowStep_refl (d : CDraw) : WindowStep d d :=
  ⟨rfl, Or.inl rfl, Or.inl rfl, [], by simp, by simp⟩

/-- A flush is a window step. -/
theorem WindowStep_flush (d : CDraw) : WindowStep d d.FlushVertices := by
  by_cases h : d.vertexCount = 0
  · rw [CDraw.FlushVertices_empty d h]
    exact WindowStep_refl d
  · obtain ⟨_, _, _, _, extra, _, _, heq, hex⟩ := CDraw.FlushVertices_shape d h
    rw [heq]
    exact ⟨rfl, Or.inr rfl, Or.inr ⟨_, rfl, rfl⟩, extra, rfl, hex⟩

/-- A state that agrees with the result of a window step on the window, the
draws and the failed assertions is itself the result of a window step. -/
theorem WindowStep_of_fields (d f d' : CDraw) (h : WindowStep d f)
    (h1 : d'.m_passVertexEnd = f.m_passVertexEnd)
    (h2 : d'.m_passVertexStart = f.m_passVertexStart) (h3 : d'.draws = f.draws)
    (h4 : d'.failedAsserts = f.failedAsserts) : WindowStep d d' := by
  unfold WindowStep
  rw [h1, h2, h3, h4]
  exact h

/-- Every state setter is a window step. -/
theorem WindowStep_setters (d : CDraw) (a b c e : Nat) :
    WindowStep d (d.SetPipelineCaps a) ∧ WindowStep d (d.SetFramebufferParams a b) ∧
      WindowStep d (d.SetDepthbufferParams a b) ∧ WindowStep d (d.SetTextureParams a b c e) ∧
      WindowStep d (d.SetScissor a b c e) := by
  refine ⟨?_, ?_, ?_, ?_, ?_⟩
  · unfold CDraw.SetPipelineCaps
    simp only []
    split_ifs
    · exact WindowStep_refl d
    · exact WindowStep_of_fields d _ _ (WindowStep_flush d) rfl rfl rfl rfl
  · unfold CDraw.SetFramebufferParams
    simp only []
    split_ifs
    · exact WindowStep_refl d
    · exact WindowStep_of_fields d _ _ (WindowStep_flush d) rfl rfl rfl rfl
  · unfold CDraw.SetDepthbufferParams
    simp only []
    split_ifs
    · exact WindowStep_refl d
    · exact WindowStep_of_fields d _ _ (WindowStep_flush d) rfl rfl rfl rfl
  · unfold CDraw.SetTextureParams
    simp only []
    split_ifs
    · exact WindowStep_refl d
    · exact WindowStep_of_fields d _ _ (WindowStep_flush d) rfl rfl rfl rfl
  · unfold CDraw.SetScissor
    simp only []
    split_ifs
    · exact WindowStep_refl d
    · exact WindowStep_of_fields d _ _ (WindowStep_flush d) rfl rfl rfl rfl

/-- A window step keeps the window invariant. -/
theorem WindowOk_step (d d' : CDraw) (h : d.WindowOk) (hs : WindowStep d d') : d'.WindowOk := by
  obtain ⟨h1, h2, h3⟩ := h
  obtain ⟨e1, e2, _, extra, e4, hex⟩ := hs
  refine ⟨?_, by rw [e1]; exact h2, ?_⟩
  · rcases e2 with e | e <;> rw [e, e1]
    exact h1
  · rw [e4, List.mem_append]
    rintro (hm | hm)
    · exact h3 hm
    · rcases hex _ hm with hh | hh
      · exact absurd hh (by decide)
      · exact absurd hh.1 (by decide)

/-- A window step keeps the triangle invariant. -/
theorem TrianglesOk_step (d d' : CDraw) (h : d.TrianglesOk) (hs : WindowStep d d') :
    d'.TrianglesOk := by
  obtain ⟨h1, h2, h3, h4, h5⟩ := h
  obtain ⟨e1, e2, e3, extra, e4, hex⟩ := hs
  have hmax : MAX_VERTEX_COUNT < 2 ^ 32 := by decide
  have hv : d.vertexCount = d.m_passVertexEnd - d.m_passVertexStart :=
    CDraw.vertexCount_eq d h1 (by omega)
  refine ⟨?_, by rw [e1]; exact h2, ?_, ?_, ?_⟩
  · rcases e2 with e | e <;> rw [e, e1]
    exact h1
  · rcases e2 with e | e <;> rw [e, e1]
    · exact h3
    · simp
  · rw [e4, List.mem_append]
    rintro (hm | hm)
    · exact h4 hm
    · rcases hex _ hm with hh | hh
      · exact absurd hh (by decide)
      · exact hh.2 (by rw [hv]; exact h3)
  · rcases e3 with e | ⟨call, e, hc⟩
    · rw [e]
      exact h5
    · rw [e]
      intro c hc'
      rw [List.mem_append, List.mem_singleton] at hc'
      rcases hc' with hc' | hc'
      · exact h5 c hc'
      · rw [hc', hc, hv]
        exact h3

/-- A frame flush keeps the window invariant. -/
theorem WindowOk_frameFlush (d : CDraw) (h : d.WindowOk) : d.FrameCommandBuffer_Flush.WindowOk := by
  have hf := WindowOk_step d _ h (WindowStep_flush d)
  exact ⟨Nat.le_refl _, Nat.zero_le _, hf.2.2⟩

/-- A frame flush keeps the triangle invariant. -/
theorem TrianglesOk_frameFlush (d : CDraw) (h : d.TrianglesOk) :
    d.FrameCommandBuffer_Flush.TrianglesOk := by
  have hf := TrianglesOk_step d _ h (WindowStep_flush d)
  exact ⟨Nat.le_refl _, Nat.zero_le _, rfl, hf.2.2.2.1, hf.2.2.2.2⟩

/-- Appending at most `MAX_VERTEX_COUNT` vertices keeps the window
invariant. -/
theorem WindowOk_AddVertices (d : CDraw) (vs : List PRIM_VERTEX) (h : d.WindowOk)
    (hn : vs.length ≤ MAX_VERTEX_COUNT) : (d.AddVertices vs).WindowOk := by
  have hmax : MAX_VERTEX_COUNT < 4294967296 := by decide
  by_cases hover : d.m_passVertexEnd + vs.length > MAX_VERTEX_COUNT
  · have hf := WindowOk_step d _ h (WindowStep_flush d)
    unfold CDraw.AddVertices
    rw [CDraw.AddVertices_reserve_overflow d vs.length hn hover]
    refine ⟨Nat.zero_le _, ?_, hf.2.2⟩
    show (0 + vs.length) % 2 ^ 32 ≤ MAX_VERTEX_COUNT
    rw [Nat.zero_add, Nat.mod_eq_of_lt (by omega)]
    exact hn
  · have hr : d.AddVertices_reserve vs.length = d := by
      unfold CDraw.AddVertices_reserve
      rw [if_neg hover]
    unfold CDraw.AddVertices
    rw [hr]
    obtain ⟨h1, h2, h3⟩ := h
    have he : (d.m_passVertexEnd + vs.length) % 2 ^ 32 = d.m_passVertexEnd + vs.length :=
      Nat.mod_eq_of_lt (by omega)
    refine ⟨?_, ?_, h3⟩
    · show d.m_passVertexStart ≤ (d.m_passVertexEnd + vs.length) % 2 ^ 32
      omega
    · show (d.m_passVertexEnd + vs.length) % 2 ^ 32 ≤ MAX_VERTEX_COUNT
      omega

/-- Appending one triangle keeps the triangle invariant. -/
theorem TrianglesOk_AddVertices (d : CDraw) (vs : List PRIM_VERTEX) (h : d.TrianglesOk)
    (hn : vs.length = 3) : (d.AddVertices vs).TrianglesOk := by
  have hmax : MAX_VERTEX_COUNT = 1024 := rfl
  by_cases hover : d.m_passVertexEnd + vs.length > MAX_VERTEX_COUNT
  · have hf := TrianglesOk_step d _ h (WindowStep_flush d)
    unfold CDraw.AddVertices
    rw [CDraw.AddVertices_reserve_overflow d vs.length (by omega) hover]
    refine ⟨Nat.zero_le _, ?_, ?_, hf.2.2.2.1, hf.2.2.2.2⟩
    · show (0 + vs.length) % 2 ^ 32 ≤ MAX_VERTEX_COUNT
      omega
    · show ((0 + vs.length) % 2 ^ 32 - 0) % 3 = 0
      omega
  · have hr : d.AddVertices_reserve vs.length = d := by
      unfold CDraw.AddVertices_reserve
      rw [if_neg hover]
    unfold CDraw.AddVertices
    rw [hr]
    obtain ⟨h1, h2, h3, h4, h5⟩ := h
    refine ⟨?_, ?_, ?_, h4, h5⟩
    · show d.m_passVertexStart ≤ (d.m_passVertexEnd + vs.length) % 2 ^ 32
      omega
    · show (d.m_passVertexEnd + vs.length) % 2 ^ 32 ≤ MAX_VERTEX_COUNT
      omega
    · show ((d.m_passVertexEnd + vs.length) % 2 ^ 32 - d.m_passVertexStart) % 3 = 0
      omega

/-- Every batcher call that appends at most `MAX_VERTEX_COUNT` vertices keeps
the window invariant. -/
theorem WindowOk_CDraw_step (d : CDraw) (op : CDraw.Op) (h : d.WindowOk)
    (hop : op.amount ≤ MAX_VERTEX_COUNT) : (d.step op).WindowOk := by
  cases op with
  | addVertices vs => exact WindowOk_AddVertices d vs h hop
  | setPipelineCaps a => exact WindowOk_step d _ h (WindowStep_setters d a 0 0 0).1
  | setFramebufferParams a b => exact WindowOk_step d _ h (WindowStep_setters d a b 0 0).2.1
  | setDepthbufferParams a b => exact WindowOk_step d _ h (WindowStep_setters d a b 0 0).2.2.1
  | setTextureParams a b c e => exact WindowOk_step d _ h (WindowStep_setters d a b c e).2.2.2.1
  | setScissor a b c e => exact WindowOk_step d _ h (WindowStep_setters d a b c e).2.2.2.2
  | flushVertices => exact WindowOk_step d _ h (WindowStep_flush d)
  | frameFlush => exact WindowOk_frameFlush d h
  | preFlushFrameCommandBuffer => exact WindowOk_step d _ h (WindowStep_flush d)
  | postFlushFrameCommandBuffer => exact ⟨Nat.le_refl _, Nat.zero_le _, h.2.2⟩

/-- The window invariant holds along every run of suitably sized calls. -/
theorem WindowOk_run (ops : List CDraw.Op) :
    ∀ d : CDraw, d.WindowOk → (∀ op ∈ ops, op.amount ≤ MAX_VERTEX_COUNT) → (d.run ops).WindowOk := by
  induction ops with
  | nil => intro d h _; exact h
  | cons op rest ih =>
    intro d h hops
    exact ih (d.step op)
      (WindowOk_CDraw_step d op h (hops op (List.mem_cons_self _ _)))
      (fun o ho => hops o (List.mem_cons_of_mem _ ho))

/-- C10: in every state reached from the initial batcher state (window start
and end both 0) by `AddVertices` calls of at most `MAX_VERTEX_COUNT` vertices each,
state setters, `FlushVertices` and frame-command-buffer flushes (also their
pre and post hooks on their own), `start <= end <= MAX_VERTEX_COUNT` holds
and the fit assertion of `AddVertices` has never failed; so `end - start`
does not underflow, and as this holds right after every append, no copy
ends past the vertex buffer. -/
theorem window_stays_in_buffer (ops : List CDraw.Op)
    (hops : ∀ op ∈ ops, op.amount ≤ MAX_VERTEX_COUNT) :
    (CDraw.init.run ops).m_passVertexStart ≤ (CDraw.init.run ops).m_passVertexEnd ∧
      (CDraw.init.run ops).m_passVertexEnd ≤ MAX_VERTEX_COUNT ∧
      Assertion.fitsInBuffer ∉ (CDraw.init.run ops).failedAsserts ∧
      (CDraw.init.run ops).vertexCount =
        (CDraw.init.run ops).m_passVertexEnd - (CDraw.init.run ops).m_passVertexStart := by
  have h0 : CDraw.init.WindowOk := ⟨Nat.le_refl _, Nat.zero_le _, by simp [CDraw.init]⟩
  obtain ⟨h1, h2, h3⟩ := WindowOk_run ops CDraw.init h0 hops
  have hmax : MAX_VERTEX_COUNT < 2 ^ 32 := by decide
  exact ⟨h1, h2, h3, CDraw.vertexCount_eq _ h1 (by omega)⟩

/-- Instance of C10: an append, a state change, and an append. -/
theorem window_stays_in_buffer_witness :
    (∀ op ∈ [CDraw.Op.addVertices [⟨0, 0, 0, 0, 0, 0, 0⟩, ⟨16, 0, 0, 0, 0, 0, 0⟩],
        CDraw.Op.setPipelineCaps 1, CDraw.Op.addVertices [⟨0, 16, 0, 0, 0, 0, 0⟩]],
        op.amount ≤ MAX_VERTEX_COUNT) ∧
      (CDraw.init.run [CDraw.Op.addVertices [⟨0, 0, 0, 0, 0, 0, 0⟩, ⟨16, 0, 0, 0, 0, 0, 0⟩],
        CDraw.Op.setPipelineCaps 1,
        CDraw.Op.addVertices [⟨0, 16, 0, 0, 0, 0, 0⟩]]).m_passVertexEnd ≤ MAX_VERTEX_COUNT :=
  ⟨by simp [CDraw.Op.amount, MAX_VERTEX_COUNT],
    (window_stays_in_buffer
      [CDraw.Op.addVertices [⟨0, 0, 0, 0, 0, 0, 0⟩, ⟨16, 0, 0, 0, 0, 0, 0⟩],
        CDraw.Op.setPipelineCaps 1, CDraw.Op.addVertices [⟨0, 16, 0, 0, 0, 0, 0⟩]]
      (by simp [CDraw.Op.amount, MAX_VERTEX_COUNT])).2.1⟩

/-- A vertex kick leaves the batcher alone or appends one triangle. -/
theorem VertexKick_draw (s : CGSH_Vulkan) (registerId data : Nat) :
    (s.VertexKick registerId data).m_draw = s.m_draw ∨
      ∃ vs : List PRIM_VERTEX, vs.length = 3 ∧
        (s.VertexKick registerId data).m_draw = s.m_draw.AddVertices vs := by
  unfold CGSH_Vulkan.VertexKick
  by_cases hc : s.m_vtxCount = 0
  · rw [if_pos hc]
    exact Or.inl rfl
  · rw [if_neg hc]
    by_cases hc1 : s.m_vtxCount - 1 = 0
    · cases hen : s.m_drawEnabled <;>
        cases hr : (registerId == GS_REG_XYZ2 || registerId == GS_REG_XYZF2) <;>
        simp only [hc1, hen, hr, if_true, if_false, Bool.not_true, Bool.not_false,
          Bool.false_eq_true] <;>
        split_ifs <;>
        first
          | exact Or.inl rfl
          | exact Or.inr ⟨_, by rfl, rfl⟩
    · rw [if_neg hc1]
      exact Or.inl rfl

/-- A register write leaves the batcher alone, flushes it, or appends one
triangle. -/
theorem WriteRegisterImpl_draw (s : CGSH_Vulkan) (registerId data : Nat) :
    (s.WriteRegisterImpl registerId data).m_draw = s.m_draw ∨
      (s.WriteRegisterImpl registerId data).m_draw = s.m_draw.FlushVertices ∨
      ∃ vs : List PRIM_VERTEX, vs.length = 3 ∧
        (s.WriteRegisterImpl registerId data).m_draw = s.m_draw.AddVertices vs := by
  unfold CGSH_Vulkan.WriteRegisterImpl
  by_cases hp : registerId = GS_REG_PRIM
  · rw [if_pos hp]
    simp only []
    by_cases ht : data &&& 0x07 ≠ (s.CGSHandler_WriteRegisterImpl registerId data).m_primitiveType
    · rw [if_pos ht]
      right
      left
      split_ifs <;> rfl
    · rw [if_neg ht]
      left
      split_ifs <;> rfl
  · rw [if_neg hp]
    split_ifs
    · rcases VertexKick_draw (s.CGSHandler_WriteRegisterImpl registerId data) registerId data with
        h | ⟨vs, h1, h2⟩
      · exact Or.inl h
      · exact Or.inr (Or.inr ⟨vs, h1, h2⟩)
    · exact Or.inl rfl

/-- Every backend event keeps the triangle invariant of the batcher. -/
theorem TrianglesOk_backend_step (s : CGSH_Vulkan) (op : CGSH_Vulkan.Op)
    (h : s.m_draw.TrianglesOk) : (s.step op).m_draw.TrianglesOk := by
  cases op with
  | writeRegister r dt =>
    rcases WriteRegisterImpl_draw s r dt with e | e | ⟨vs, hl, e⟩
    · show (s.WriteRegisterImpl r dt).m_draw.TrianglesOk
      rw [e]
      exact h
    · show (s.WriteRegisterImpl r dt).m_draw.TrianglesOk
      rw [e]
      exact TrianglesOk_step _ _ h (WindowStep_flush _)
    · show (s.WriteRegisterImpl r dt).m_draw.TrianglesOk
      rw [e]
      exact TrianglesOk_AddVertices _ vs h hl
  | setPipelineCaps a => exact TrianglesOk_step _ _ h (WindowStep_setters _ a 0 0 0).1
  | setFramebufferParams a b => exact TrianglesOk_step _ _ h (WindowStep_setters _ a b 0 0).2.1
  | setDepthbufferParams a b => exact TrianglesOk_step _ _ h (WindowStep_setters _ a b 0 0).2.2.1
  | setTextureParams a b c e => exact TrianglesOk_step _ _ h (WindowStep_setters _ a b c e).2.2.2.1
  | setScissor a b c e => exact TrianglesOk_step _ _ h (WindowStep_setters _ a b c e).2.2.2.2
  | flushVertices => exact TrianglesOk_step _ _ h (WindowStep_flush _)
  | frameFlush => exact TrianglesOk_frameFlush _ h
  | flip =>
    exact TrianglesOk_step _ _ h
      (WindowStep_of_fields _ _ _ (WindowStep_flush s.m_draw) rfl rfl rfl rfl)

/-- The triangle invariant holds along every run of backend events. -/
theorem TrianglesOk_backend_run (ops : List CGSH_Vulkan.Op) :
    ∀ s : CGSH_Vulkan, s.m_draw.TrianglesOk → (s.run ops).m_draw.TrianglesOk := by
  induction ops with
  | nil => intro s h; exact h
  | cons op rest ih =>
    intro s h
    exact ih (s.step op) (TrianglesOk_backend_step s op h)

/-- C9: in every state reached from the initial backend state (any register
file, empty batcher) by register writes, state-setter calls, flushes, frame
flushes and frame ends, the batch window has `start <= end`, its size `end -
start` (also as computed in 32 bits by `FlushVertices`) is a multiple of 3,
the assertion `(vertexCount % 3) == 0` has never failed, and every recorded
draw submits a multiple of 3 vertices. -/
theorem window_is_multiple_of_three (nReg : Nat → Nat) (drawEnabled : Bool)
    (ops : List CGSH_Vulkan.Op) :
    ((CGSH_Vulkan.init nReg drawEnabled).run ops).m_draw.m_passVertexStart ≤
        ((CGSH_Vulkan.init nReg drawEnabled).run ops).m_draw.m_passVertexEnd ∧
      (((CGSH_Vulkan.init nReg drawEnabled).run ops).m_draw.m_passVertexEnd -
        ((CGSH_Vulkan.init nReg drawEnabled).run ops).m_draw.m_passVertexStart) % 3 = 0 ∧
      ((CGSH_Vulkan.init nReg drawEnabled).run ops).m_draw.vertexCount % 3 = 0 ∧
      Assertion.multipleOfThree ∉
        ((CGSH_Vulkan.init nReg drawEnabled).run ops).m_draw.failedAsserts ∧
      ∀ call ∈ ((CGSH_Vulkan.init nReg drawEnabled).run ops).m_draw.draws,
        call.vertexCount % 3 = 0 := by
  have h0 : (CGSH_Vulkan.init nReg drawEnabled).m_draw.TrianglesOk :=
    ⟨Nat.le_refl _, Nat.zero_le _, rfl, by simp [CGSH_Vulkan.init, CDraw.init],
      by simp [CGSH_Vulkan.init, CDraw.init]⟩
  obtain ⟨h1, h2, h3, h4, h5⟩ := TrianglesOk_backend_run ops _ h0
  have hmax : MAX_VERTEX_COUNT < 2 ^ 32 := by decide
  refine ⟨h1, h3, ?_, h4, h5⟩
  rw [CDraw.vertexCount_eq _ h1 (by omega)]
  exact h3

/-! ### Flush contract -/

/-- C11: `FlushVertices` on an empty window (start = end) returns the state
unchanged, so nothing is recorded; on a non-empty window (start and end
distinct 32-bit values) it records exactly one draw, whose vertex count is
the 32-bit difference `end - start` (the plain difference when start <= end)
and whose vertex-buffer offset is `start * sizeof(PRIM_VERTEX)`, and
afterwards the window start equals the window end, which is unchanged; a
second flush right after a flush changes nothing. -/
theorem FlushVertices_contract (d : CDraw) :
    (d.m_passVertexStart = d.m_passVertexEnd → d.FlushVertices = d) ∧
      (d.m_passVertexStart ≠ d.m_passVertexEnd → d.m_passVertexStart < 2 ^ 32 →
        d.m_passVertexEnd < 2 ^ 32 →
        ∃ call, d.FlushVertices.draws = d.draws ++ [call] ∧
          call.vertexCount = (d.m_passVertexEnd + 2 ^ 32 - d.m_passVertexStart) % 2 ^ 32 ∧
          (d.m_passVertexStart ≤ d.m_passVertexEnd →
            call.vertexCount = d.m_passVertexEnd - d.m_passVertexStart) ∧
          call.vertexBufferOffset = d.m_passVertexStart * SIZEOF_PRIM_VERTEX ∧
          d.FlushVertices.m_passVertexStart = d.m_passVertexEnd ∧
          d.FlushVertices.m_passVertexEnd = d.m_passVertexEnd) ∧
      d.FlushVertices.FlushVertices = d.FlushVertices := by
  refine ⟨?_, ?_, ?_⟩
  · intro h
    apply CDraw.FlushVertices_empty
    unfold CDraw.vertexCount
    rw [h]
    simp
  · intro hne hs he
    have hv : d.vertexCount ≠ 0 := by
      unfold CDraw.vertexCount
      omega
    obtain ⟨call, hc, hw, _, hstart⟩ := CDraw.FlushVertices_records d hv
    refine ⟨call, hc, hw.1, ?_, hw.2, hstart, (CDraw.FlushVertices_keeps d).2.1⟩
    intro hle
    rw [hw.1]
    exact CDraw.vertexCount_eq d hle he
  · apply CDraw.FlushVertices_empty
    by_cases h : d.vertexCount = 0
    · rw [CDraw.FlushVertices_empty d h]
      exact h
    · obtain ⟨_, _, _, _, hstart⟩ := CDraw.FlushVertices_records d h
      unfold CDraw.vertexCount
      rw [hstart, (CDraw.FlushVertices_keeps d).2.1]
      simp

/-! ### Pipeline cache -/

/-- A lookup that hits keeps hitting, with the same entry, when entries are
added to the cache. -/
theorem TryGetPipeline_append_some (cache l : List (Nat × PIPELINE)) (k : Nat) (p : PIPELINE)
    (h : TryGetPipeline cache k = some p) : TryGetPipeline (cache ++ l) k = some p := by
  unfold TryGetPipeline at h ⊢
  rw [List.find?_append]
  cases hf : cache.find? (fun e => e.1 == k) with
  | none => rw [hf] at h; simp at h
  | some e => rw [hf] at h; simpa using h

/-- A lookup that misses sees exactly the entry added for its key. -/
theorem TryGetPipeline_append_none (cache : List (Nat × PIPELINE)) (k k' : Nat) (p : PIPELINE)
    (h : TryGetPipeline cache k = none) :
    TryGetPipeline (cache ++ [(k', p)]) k = if k' = k then some p else none := by
  unfold TryGetPipeline at h ⊢
  rw [List.find?_append]
  cases hf : cache.find? (fun e => e.1 == k) with
  | some e => rw [hf] at h; simp at h
  | none =>
    by_cases hk : k' = k
    · simp [hk]
    · simp [hk]

/-- Registering after a miss caches the given pipeline and hands it back. -/
theorem RegisterPipeline_miss (cache : List (Nat × PIPELINE)) (k : Nat) (p : PIPELINE)
    (h : TryGetPipeline cache k = none) :
    (RegisterPipeline cache k p).1 = cache ++ [(k, p)] ∧ (RegisterPipeline cache k p).2 = p ∧
      TryGetPipeline (RegisterPipeline cache k p).1 k = some p := by
  have h1 := TryGetPipeline_append_none cache k k p h
  rw [if_pos rfl] at h1
  refine ⟨rfl, ?_, h1⟩
  show (TryGetPipeline (cache ++ [(k, p)]) k).getD p = p
  rw [h1]
  rfl

/-- An entry found in the cache is still found, unchanged, after any
sequence of later registrations. -/
theorem registerAll_keeps (later : List (Nat × PIPELINE)) :
    ∀ (cache : List (Nat × PIPELINE)) (k : Nat) (p : PIPELINE),
      TryGetPipeline cache k = some p → TryGetPipeline (registerAll cache later) k = some p := by
  induction later with
  | nil => intro cache k p h; exact h
  | cons e rest ih =>
    intro cache k p h
    exact ih _ k p (TryGetPipeline_append_some cache [(e.1, e.2)] k p h)

/-- Pipeline cache after a flush of a non-empty window: unchanged on a hit,
extended by the pipeline built for the current capabilities on a miss. -/
theorem CDraw.FlushVertices_pipelineCache (d : CDraw) (h : d.vertexCount ≠ 0) :
    d.FlushVertices.m_pipelineCache =
      (match TryGetPipeline d.m_pipelineCache d.m_pipelineCaps with
        | some _ => d.m_pipelineCache
        | none => (RegisterPipeline d.m_pipelineCache d.m_pipelineCaps
            (CreateDrawPipeline d.m_pipelineCaps)).1) := by
  unfold CDraw.FlushVertices
  rw [if_neg h]
  simp only []
  obtain ⟨ctx, cache, writes, extra, heq, _⟩ := CDraw.PrepareDescriptorSet_shape
    ({ d with m_pipelineCache :=
      match TryGetPipeline d.m_pipelineCache d.m_pipelineCaps with
      | some _ => d.m_pipelineCache
      | none => (RegisterPipeline d.m_pipelineCache d.m_pipelineCaps
          (CreateDrawPipeline d.m_pipelineCaps)).1 } : CDraw)
    { hasTexture := PIPELINE_CAPS_hasTexture d.m_pipelineCaps
      framebufferFormat := PIPELINE_CAPS_framebufferFormat d.m_pipelineCaps
      depthbufferFormat := PIPELINE_CAPS_depthbufferFormat d.m_pipelineCaps
      textureFormat := PIPELINE_CAPS_textureFormat d.m_pipelineCaps }
  simp only [CDraw.check_eq, heq]

/-- A lookup misses exactly when the key has no entry. -/
theorem TryGetPipeline_eq_none (cache : List (Nat × PIPELINE)) (k : Nat) :
    TryGetPipeline cache k = none ↔ k ∉ cache.map Prod.fst := by
  unfold TryGetPipeline
  simp only [Option.map_eq_none', List.find?_eq_none, List.mem_map, not_exists, not_and]
  constructor
  · intro h e he hk
    exact h e he (by simp [hk])
  · intro h e he hk
    exact h e he (by simpa using hk)

/-- A miss stays a miss while only other keys are registered. -/
theorem registerAll_miss (later : List (Nat × PIPELINE)) :
    ∀ (cache : List (Nat × PIPELINE)) (k : Nat), TryGetPipeline cache k = none →
      (∀ e ∈ later, e.1 ≠ k) → TryGetPipeline (registerAll cache later) k = none := by
  induction later with
  | nil => intro cache k h _; exact h
  | cons e rest ih =>
    intro cache k h hl
    apply ih _ k _ (fun e' he' => hl e' (List.mem_cons_of_mem _ he'))
    show TryGetPipeline (cache ++ [(e.1, e.2)]) k = none
    rw [TryGetPipeline_append_none cache k e.1 e.2 h, if_neg (hl e (List.mem_cons_self _ _))]

/-- A flush is a cache step. -/
theorem CacheStep_flush (d : CDraw) : CacheStep d.m_pipelineCache d.FlushVertices.m_pipelineCache := by
  by_cases h : d.vertexCount = 0
  · rw [CDraw.FlushVertices_empty d h]
    exact Or.inl rfl
  · rw [CDraw.FlushVertices_pipelineCache d h]
    cases hf : TryGetPipeline d.m_pipelineCache d.m_pipelineCaps with
    | some q => exact Or.inl rfl
    | none => exact Or.inr ⟨d.m_pipelineCaps, hf, rfl⟩

/-- Every batcher call is a cache step. -/
theorem CacheStep_CDraw_step (d : CDraw) (op : CDraw.Op) :
    CacheStep d.m_pipelineCache (d.step op).m_pipelineCache := by
  have hf := CacheStep_flush d
  cases op with
  | addVertices vs =>
    show CacheStep _ ((d.AddVertices_reserve vs.length).AddVertices_copy vs).m_pipelineCache
    unfold CDraw.AddVertices_reserve CDraw.FrameCommandBuffer_Flush
      CDraw.PostFlushFrameCommandBuffer CDraw.PreFlushFrameCommandBuffer
    simp only [CDraw.check_eq]
    split_ifs <;> first | exact Or.inl rfl | exact hf
  | setPipelineCaps a =>
    show CacheStep _ (d.SetPipelineCaps a).m_pipelineCache
    unfold CDraw.SetPipelineCaps
    simp only []
    split_ifs
    · exact Or.inl rfl
    · exact hf
  | setFramebufferParams a b =>
    show CacheStep _ (d.SetFramebufferParams a b).m_pipelineCache
    unfold CDraw.SetFramebufferParams
    simp only []
    split_ifs
    · exact Or.inl rfl
    · exact hf
  | setDepthbufferParams a b =>
    show CacheStep _ (d.SetDepthbufferParams a b).m_pipelineCache
    unfold CDraw.SetDepthbufferParams
    simp only []
    split_ifs
    · exact Or.inl rfl
    · exact hf
  | setTextureParams a b c e =>
    show CacheStep _ (d.SetTextureParams a b c e).m_pipelineCache
    unfold CDraw.SetTextureParams
    simp only []
    split_ifs
    · exact Or.inl rfl
    · exact hf
  | setScissor a b c e =>
    show CacheStep _ (d.SetScissor a b c e).m_pipelineCache
    unfold CDraw.SetScissor
    simp only []
    split_ifs
    · exact Or.inl rfl
    · exact hf
  | flushVertices => exact hf
  | frameFlush => exact hf
  | preFlushFrameCommandBuffer => exact hf
  | postFlushFrameCommandBuffer => exact Or.inl rfl

/-- Along every run of batcher calls from the initial state, no key has two
entries in the pipeline cache and every entry is the pipeline built for its
key. -/
theorem pipelineCache_run (ops : List CDraw.Op) :
    ∀ d : CDraw, (d.m_pipelineCache.map Prod.fst).Nodup →
      (∀ e ∈ d.m_pipelineCache, e.2 = CreateDrawPipeline e.1) →
      ((d.run ops).m_pipelineCache.map Prod.fst).Nodup ∧
        ∀ e ∈ (d.run ops).m_pipelineCache, e.2 = CreateDrawPipeline e.1 := by
  induction ops with
  | nil => intro d h1 h2; exact ⟨h1, h2⟩
  | cons op rest ih =>
    intro d h1 h2
    apply ih (d.step op)
    · rcases CacheStep_CDraw_step d op with e | ⟨k, hk, e⟩
      · rw [e]; exact h1
      · rw [e, List.map_append, List.nodup_append]
        refine ⟨h1, by simp, ?_⟩
        intro a ha hb
        simp only [List.map_cons, List.map_nil, List.mem_singleton] at hb
        rw [hb] at ha
        exact (TryGetPipeline_eq_none _ _).mp hk ha
    · rcases CacheStep_CDraw_step d op with e | ⟨k, hk, e⟩
      · rw [e]; exact h2
      · rw [e]
        intro x hx
        rw [List.mem_append, List.mem_singleton] at hx
        rcases hx with hx | hx
        · exact h2 x hx
        · rw [hx]

/-- Pipeline cache of the palette loader after `DoClutLoad`: unchanged on a
hit, extended by the pipeline built for the derived capabilities on a miss. -/
theorem CClutLoad.DoClutLoad_pipelines (c : CClutLoad) (tex0 : TEX0) :
    (c.DoClutLoad tex0).m_pipelines =
      (match TryGetPipeline c.m_pipelines (CClutLoad.capsOf tex0).encode with
        | some _ => c.m_pipelines
        | none => (RegisterPipeline c.m_pipelines (CClutLoad.capsOf tex0).encode
            (CreateLoadPipeline (CClutLoad.capsOf tex0))).1) := by
  unfold CClutLoad.DoClutLoad
  simp only []
  split_ifs <;> rfl

/-- C12: in the pipeline cache used by `FlushVertices` and `DoClutLoad`,
registering a pipeline `p` for a key `k` that is not cached makes the lookup
of `k` return `p`, now and after any later registrations; a key `k'` whose
encoding differs from `k` in some bit and that is not cached is still not
found after `k` is registered, nor after any registrations of other keys,
and is found once it is registered itself. `FlushVertices` and `DoClutLoad`
build a pipeline only when the lookup misses, so along every run of batcher
calls no key has two entries in the cache. -/
theorem pipeline_cache_contract (cache : List (Nat × PIPELINE)) (k k' : Nat) (p p' : PIPELINE)
    (later : List (Nat × PIPELINE)) (hmiss : TryGetPipeline cache k = none) :
    (RegisterPipeline cache k p).2 = p ∧
      TryGetPipeline (RegisterPipeline cache k p).1 k = some p ∧
      TryGetPipeline (registerAll (RegisterPipeline cache k p).1 later) k = some p ∧
      ((∃ j, k.testBit j ≠ k'.testBit j) → TryGetPipeline cache k' = none →
        TryGetPipeline (RegisterPipeline cache k p).1 k' = none ∧
        ((∀ e ∈ later, e.1 ≠ k') →
          TryGetPipeline (registerAll (RegisterPipeline cache k p).1 later) k' = none) ∧
        TryGetPipeline (RegisterPipeline (RegisterPipeline cache k p).1 k' p').1 k' = some p') ∧
      (∀ d : CDraw, d.vertexCount ≠ 0 →
        (∀ q, TryGetPipeline d.m_pipelineCache d.m_pipelineCaps = some q →
          d.FlushVertices.m_pipelineCache = d.m_pipelineCache) ∧
        (TryGetPipeline d.m_pipelineCache d.m_pipelineCaps = none →
          d.FlushVertices.m_pipelineCache =
            d.m_pipelineCache ++ [(d.m_pipelineCaps, CreateDrawPipeline d.m_pipelineCaps)])) ∧
      (∀ (c : CClutLoad) (tex0 : TEX0),
        (∀ q, TryGetPipeline c.m_pipelines (CClutLoad.capsOf tex0).encode = some q →
          (c.DoClutLoad tex0).m_pipelines = c.m_pipelines) ∧
        (TryGetPipeline c.m_pipelines (CClutLoad.capsOf tex0).encode = none →
          (c.DoClutLoad tex0).m_pipelines =
            c.m_pipelines ++ [((CClutLoad.capsOf tex0).encode,
              CreateLoadPipeline (CClutLoad.capsOf tex0))])) ∧
      (∀ ops : List CDraw.Op, ((CDraw.init.run ops).m_pipelineCache.map Prod.fst).Nodup) := by
  obtain ⟨h1, h2, h3⟩ := RegisterPipeline_miss cache k p hmiss
  refine ⟨h2, h3, registerAll_keeps later _ k p h3, ?_, ?_, ?_, ?_⟩
  · rintro ⟨j, hj⟩ hk'
    have hne : k ≠ k' := by
      intro h
      rw [h] at hj
      exact hj rfl
    have hn : TryGetPipeline (RegisterPipeline cache k p).1 k' = none := by
      rw [h1, TryGetPipeline_append_none cache k' k p hk', if_neg hne]
    exact ⟨hn, fun hl => registerAll_miss later _ k' hn hl,
      (RegisterPipeline_miss _ k' p' hn).2.2⟩
  · intro d hv
    rw [CDraw.FlushVertices_pipelineCache d hv]
    constructor
    · intro q hq
      rw [hq]
    · intro hn
      rw [hn]
      rfl
  · intro c tex0
    rw [CClutLoad.DoClutLoad_pipelines]
    constructor
    · intro q hq
      rw [hq]
    · intro hn
      rw [hn]
      rfl
  · intro ops
    exact (pipelineCache_run ops CDraw.init (by simp [CDraw.init]) (by simp [CDraw.init])).1

/-- Instance of C12: registering key 5 in an empty cache, then key 7. -/
theorem pipeline_cache_contract_witness :
    TryGetPipeline [] 5 = none ∧
      TryGetPipeline (registerAll (RegisterPipeline [] 5 (CreateDrawPipeline 5)).1
        [(7, CreateDrawPipeline 7)]) 5 = some (CreateDrawPipeline 5) :=
  ⟨rfl, (pipeline_cache_contract [] 5 4 (CreateDrawPipeline 5) (CreateDrawPipeline 4)
    [(7, CreateDrawPipeline 7)] rfl).2.2.1⟩

/-! ### End of frame -/

/-- Descriptor-set cache after `PrepareDescriptorSet`: unchanged on a hit,
extended by one entry on a miss. -/
theorem CDraw.PrepareDescriptorSet_cache (d : CDraw) (caps : DESCRIPTORSET_CAPS) :
    (d.PrepareDescriptorSet caps).1.m_descriptorSetCache = d.m_descriptorSetCache ∨
      (d.PrepareDescriptorSet caps).1.m_descriptorSetCache =
        d.m_descriptorSetCache ++ [(caps, d.m_context.descriptorPoolAllocated + 1)] := by
  unfold CDraw.PrepareDescriptorSet
  split
  · exact Or.inl rfl
  · right
    simp only [CDraw.check_eq]

/-- A flush keeps every entry of the descriptor-set cache. -/
theorem CDraw.FlushVertices_descriptorSetCache (d : CDraw) :
    ∀ e ∈ d.m_descriptorSetCache, e ∈ d.FlushVertices.m_descriptorSetCache := by
  intro e he
  by_cases h : d.vertexCount = 0
  · rw [CDraw.FlushVertices_empty d h]
    exact he
  · unfold CDraw.FlushVertices
    rw [if_neg h]
    simp only [CDraw.check_eq]
    rcases CDraw.PrepareDescriptorSet_cache
      ({ d with m_pipelineCache :=
        match TryGetPipeline d.m_pipelineCache d.m_pipelineCaps with
        | some _ => d.m_pipelineCache
        | none => (RegisterPipeline d.m_pipelineCache d.m_pipelineCaps
            (CreateDrawPipeline d.m_pipelineCaps)).1 } : CDraw)
      { hasTexture := PIPELINE_CAPS_hasTexture d.m_pipelineCaps
        framebufferFormat := PIPELINE_CAPS_framebufferFormat d.m_pipelineCaps
        depthbufferFormat := PIPELINE_CAPS_depthbufferFormat d.m_pipelineCaps
        textureFormat := PIPELINE_CAPS_textureFormat d.m_pipelineCaps } with hc | hc
    · rw [hc]
      exact he
    · rw [hc]
      exact List.mem_append_left _ he

/-- After a flush the window is empty. -/
theorem CDraw.FlushVertices_vertexCount (d : CDraw) : d.FlushVertices.vertexCount = 0 := by
  by_cases h : d.vertexCount = 0
  · rw [CDraw.FlushVertices_empty d h]
    exact h
  · obtain ⟨_, _, _, _, hstart⟩ := CDraw.FlushVertices_records d h
    unfold CDraw.vertexCount
    rw [hstart, (CDraw.FlushVertices_keeps d).2.1]
    simp

/-- C13, as the code has it: `FlipImpl` leaves the vertex window empty,
keeps every entry of the pipeline cache and resets the descriptor pool, but
it does not clear the descriptor-set cache of the batcher: every entry is
still there afterwards, and ending a frame with one triangle pending leaves
the cache with the entry that its flush has just added, although the pool
that entry was allocated from has been reset. -/
theorem FlipImpl_keeps_descriptorSetCache :
    (∀ s : CGSH_Vulkan,
      s.FlipImpl.m_draw.vertexCount = 0 ∧
      (∀ e ∈ s.m_draw.m_pipelineCache, e ∈ s.FlipImpl.m_draw.m_pipelineCache) ∧
      s.FlipImpl.m_draw.m_context.descriptorPoolAllocated = 0 ∧
      (∀ e ∈ s.m_draw.m_descriptorSetCache, e ∈ s.FlipImpl.m_draw.m_descriptorSetCache)) ∧
    CGSH_Vulkan.onePending.m_draw.m_descriptorSetCache = [] ∧
    CGSH_Vulkan.onePending.FlipImpl.m_draw.m_descriptorSetCache = [(⟨0, 0, 0, 0⟩, 1)] ∧
    CGSH_Vulkan.onePending.FlipImpl.m_draw.m_context.descriptorPoolAllocated = 0 := by
  refine ⟨fun s => ⟨?_, ?_, rfl, ?_⟩, rfl, by decide, rfl⟩
  · exact CDraw.FlushVertices_vertexCount s.m_draw
  · intro e he
    show e ∈ s.m_draw.FlushVertices.m_pipelineCache
    rcases CacheStep_flush s.m_draw with h | ⟨k, _, h⟩
    · rw [h]
      exact he
    · rw [h]
      exact List.mem_append_left _ he
  · exact CDraw.FlushVertices_descriptorSetCache s.m_draw


/-! ### Palette loader: slot index -/

set_option maxRecDepth 100000 in
/-- The permutation maps 0..255 into 0..255. -/
theorem permuteIndex_lt : ∀ i, i < 256 → permuteIndex i < 256 := by
  decide

set_option maxRecDepth 100000 in
/-- Applying the permutation twice gives the index back, on 0..255. -/
theorem permuteIndex_permuteIndex : ∀ i, i < 256 → permuteIndex (permuteIndex i) = i := by
  decide

set_option maxRecDepth 100000 in
/-- Bits 0..7 of the permuted index: bits 3 and 4 exchanged. -/
theorem permuteIndex_testBit_low : ∀ i, i < 256 → ∀ j, j < 8 →
    (permuteIndex i).testBit j = i.testBit (if j = 3 then 4 else if j = 4 then 3 else j) := by
  decide

/-- Every bit of the permuted index: bits 3 and 4 exchanged. -/
theorem permuteIndex_testBit (i : Nat) (hi : i < 256) (j : Nat) :
    (permuteIndex i).testBit j = i.testBit (if j = 3 then 4 else if j = 4 then 3 else j) := by
  by_cases hj : j < 8
  · exact permuteIndex_testBit_low i hi j hj
  · have h8 : (2 : Nat) ^ 8 ≤ 2 ^ j := Nat.pow_le_pow_right (by decide) (by omega)
    have h256 : (2 : Nat) ^ 8 = 256 := by decide
    have hp := permuteIndex_lt i hi
    rw [if_neg (by omega), if_neg (by omega)]
    rw [Nat.testBit_lt_two_pow (by omega), Nat.testBit_lt_two_pow (by omega)]

/-- In 8-bit-indexed mode the slot index of invocation (x, y) is the
permuted `x + 16 * y`. -/
theorem CreateLoadShader_clutIndex_idx8 (idx8 csa x y : Nat) (h8 : idx8 ≠ 0)
    (hx : x < 16) (hy : y < 16) :
    CreateLoadShader_clutIndex idx8 csa x y = permuteIndex (x + 16 * y) := by
  unfold CreateLoadShader_clutIndex
  rw [if_pos h8]
  congr 1
  omega

/-- In 4-bit mode the slot index of invocation (x, y) is `x + 8 * y + 16 *
csa` in 32-bit arithmetic. -/
theorem CreateLoadShader_clutIndex_idx4 (csa x y : Nat) :
    CreateLoadShader_clutIndex 0 csa x y = (x + 8 * y + 16 * csa) % 2 ^ 32 := by
  unfold CreateLoadShader_clutIndex
  rw [if_neg (by decide)]
  omega

/-- C14: in 8-bit-indexed mode the palette slot index that the load shader
computes for invocation (x, y) with x, y below 16 is p(x + 16 * y), which is
x + 16 * y with bits 3 and 4 exchanged; invocation (8, 0) gets slot 16 and
raw index 24 is mapped to 24. -/
theorem clutIndex_idx8_swaps_bits (idx8 csa x y : Nat) (h8 : idx8 ≠ 0)
    (hx : x < 16) (hy : y < 16) :
    CreateLoadShader_clutIndex idx8 csa x y = permuteIndex (x + 16 * y) ∧
    (∀ j, (CreateLoadShader_clutIndex idx8 csa x y).testBit j =
      (x + 16 * y).testBit (if j = 3 then 4 else if j = 4 then 3 else j)) ∧
    CreateLoadShader_clutIndex idx8 csa 8 0 = 16 ∧
    permuteIndex 24 = 24 := by
  refine ⟨CreateLoadShader_clutIndex_idx8 idx8 csa x y h8 hx hy, ?_, ?_, by decide⟩
  · intro j
    rw [CreateLoadShader_clutIndex_idx8 idx8 csa x y h8 hx hy]
    exact permuteIndex_testBit _ (by omega) j
  · rw [CreateLoadShader_clutIndex_idx8 idx8 csa 8 0 h8 (by decide) (by decide)]
    decide

/-- Instance of C14: invocation (9, 1) in 8-bit-indexed mode. -/
theorem clutIndex_idx8_swaps_bits_witness :
    CreateLoadShader_clutIndex 1 0 9 1 = permuteIndex (9 + 16 * 1) ∧
    (∀ j, (CreateLoadShader_clutIndex 1 0 9 1).testBit j =
      (9 + 16 * 1).testBit (if j = 3 then 4 else if j = 4 then 3 else j)) ∧
    CreateLoadShader_clutIndex 1 0 8 0 = 16 ∧
    permuteIndex 24 = 24 :=
  clutIndex_idx8_swaps_bits 1 0 9 1 (by decide) (by decide) (by decide)

set_option maxRecDepth 100000 in
/-- C15, as stated, fails: the permutation applied twice gives back every
index of 0..255, so it is its own inverse; for instance p(p(8)) = p(16) =
8. -/
theorem permuteIndex_involution_counterexample :
    (List.range 256).all (fun i => permuteIndex (permuteIndex i) == i) = true ∧
    permuteIndex 8 = 16 ∧ permuteIndex 16 = 8 := by
  decide

/-- C15, amended: the 8-bit palette index permutation is an involution on
0..255: it maps 0..255 into itself and p(p(i)) = i for every such i. -/
theorem permuteIndex_involution (i : Nat) (hi : i < 256) :
    permuteIndex i < 256 ∧ permuteIndex (permuteIndex i) = i :=
  ⟨permuteIndex_lt i hi, permuteIndex_permuteIndex i hi⟩

/-- Instance of the amended C15 at index 8. -/
theorem permuteIndex_involution_witness :
    8 < 256 ∧ permuteIndex 8 < 256 ∧ permuteIndex (permuteIndex 8) = 8 :=
  ⟨by decide, permuteIndex_involution 8 (by decide)⟩


/-! ### Palette loader: stores -/

/-- The stores of one invocation, spelled out. -/
theorem CreateLoadShader_stores_value (caps : CLUTLOAD_CAPS) (csa c x y : Nat) :
    (CreateLoadShader caps).value.stores csa c x y =
      CreateLoadShader_stores caps.cpsm (CreateLoadShader_clutIndex caps.idx8 csa x y) c := rfl

/-- Every store of an invocation goes to row 0, at the slot index or 256
after it. -/
theorem CreateLoadShader_stores_slot (cpsm i c : Nat) (s : ClutStore)
    (hs : s ∈ CreateLoadShader_stores cpsm i c) :
    s.y = 0 ∧ (s.x = i ∨ s.x = (i + 0x100) % 2 ^ 32) := by
  unfold CreateLoadShader_stores at hs
  split_ifs at hs
  · simp only [List.mem_cons, List.mem_singleton, List.mem_nil_iff, or_false] at hs
    rcases hs with rfl | rfl
    · exact ⟨rfl, Or.inl rfl⟩
    · exact ⟨rfl, Or.inr rfl⟩
  · simp at hs

/-- Slot indices of two invocations of one dispatch are equal only for the
same invocation, and a low-half slot is never a high-half slot. -/
theorem CreateLoadShader_clutIndex_separates (idx8 csa x y x' y' : Nat)
    (hx : x < (if idx8 ≠ 0 then 16 else 8)) (hy : y < (if idx8 ≠ 0 then 16 else 2))
    (hx' : x' < (if idx8 ≠ 0 then 16 else 8)) (hy' : y' < (if idx8 ≠ 0 then 16 else 2)) :
    (CreateLoadShader_clutIndex idx8 csa x y = CreateLoadShader_clutIndex idx8 csa x' y' →
      x = x' ∧ y = y') ∧
    ((CreateLoadShader_clutIndex idx8 csa x y + 0x100) % 2 ^ 32 =
        (CreateLoadShader_clutIndex idx8 csa x' y' + 0x100) % 2 ^ 32 → x = x' ∧ y = y') ∧
    CreateLoadShader_clutIndex idx8 csa x y ≠
      (CreateLoadShader_clutIndex idx8 csa x' y' + 0x100) % 2 ^ 32 := by
  by_cases h8 : idx8 ≠ 0
  · rw [if_pos h8] at hx hy hx' hy'
    rw [CreateLoadShader_clutIndex_idx8 idx8 csa x y h8 hx hy,
      CreateLoadShader_clutIndex_idx8 idx8 csa x' y' h8 hx' hy']
    have hi : x + 16 * y < 256 := by omega
    have hi' : x' + 16 * y' < 256 := by omega
    have hp := permuteIndex_lt _ hi
    have hp' := permuteIndex_lt _ hi'
    have hinj : permuteIndex (x + 16 * y) = permuteIndex (x' + 16 * y') → x = x' ∧ y = y' := by
      intro h
      have h2 := congrArg permuteIndex h
      rw [permuteIndex_permuteIndex _ hi, permuteIndex_permuteIndex _ hi'] at h2
      omega
    refine ⟨hinj, ?_, ?_⟩
    · intro h
      apply hinj
      omega
    · omega
  · rw [if_neg h8] at hx hy hx' hy'
    have h0 : idx8 = 0 := by omega
    subst h0
    rw [CreateLoadShader_clutIndex_idx4, CreateLoadShader_clutIndex_idx4]
    refine ⟨?_, ?_, ?_⟩
    · intro h
      omega
    · intro h
      omega
    · omega

/-- C16: within one palette-load dispatch no two distinct invocations write
the same palette slot. In 8-bit-indexed mode (x, y) -> p(x + 16 * y) is
injective on the 16 x 16 grid and its image is exactly 0..255; in 4-bit mode
(x, y) -> x + 8 * y + 16 * csa is injective on the 8 x 2 grid for every bank
selector; in both modes no low-half slot is a high-half slot (index + 256);
hence two stores of two distinct invocations never hit the same
coordinates. -/
theorem palette_load_slots_disjoint (caps : CLUTLOAD_CAPS) (csa x y x' y' : Nat)
    (hx : x < (CreateLoadShader caps).value.localSizeX)
    (hy : y < (CreateLoadShader caps).value.localSizeY)
    (hx' : x' < (CreateLoadShader caps).value.localSizeX)
    (hy' : y' < (CreateLoadShader caps).value.localSizeY) :
    (CreateLoadShader_clutIndex caps.idx8 csa x y = CreateLoadShader_clutIndex caps.idx8 csa x' y' →
      x = x' ∧ y = y') ∧
    (caps.idx8 ≠ 0 → CreateLoadShader_clutIndex caps.idx8 csa x y < 256 ∧
      ∀ i, i < 256 → ∃ u v, u < 16 ∧ v < 16 ∧ CreateLoadShader_clutIndex caps.idx8 csa u v = i) ∧
    (caps.idx8 = 0 → CreateLoadShader_clutIndex caps.idx8 csa x y = (x + 8 * y + 16 * csa) % 2 ^ 32) ∧
    CreateLoadShader_clutIndex caps.idx8 csa x y ≠
      (CreateLoadShader_clutIndex caps.idx8 csa x' y' + 0x100) % 2 ^ 32 ∧
    (∀ c c' s s', (x, y) ≠ (x', y') →
      s ∈ (CreateLoadShader caps).value.stores csa c x y →
      s' ∈ (CreateLoadShader caps).value.stores csa c' x' y' →
      (s.x, s.y) ≠ (s'.x, s'.y)) := by
  have hsep := CreateLoadShader_clutIndex_separates caps.idx8 csa x y x' y' hx hy hx' hy'
  have hsep' := CreateLoadShader_clutIndex_separates caps.idx8 csa x' y' x y hx' hy' hx hy
  refine ⟨hsep.1, ?_, ?_, hsep.2.2, ?_⟩
  · intro h8
    have hx16 : x < 16 := by
      have := hx
      simp only [CreateLoadShader, if_pos h8] at this
      exact this
    have hy16 : y < 16 := by
      have := hy
      simp only [CreateLoadShader, if_pos h8] at this
      exact this
    refine ⟨?_, ?_⟩
    · rw [CreateLoadShader_clutIndex_idx8 _ csa x y h8 hx16 hy16]
      exact permuteIndex_lt _ (by omega)
    · intro i hi
      have hp := permuteIndex_lt i hi
      refine ⟨permuteIndex i % 16, permuteIndex i / 16, by omega, by omega, ?_⟩
      rw [CreateLoadShader_clutIndex_idx8 _ csa _ _ h8 (by omega) (by omega)]
      have : permuteIndex i % 16 + 16 * (permuteIndex i / 16) = permuteIndex i := by omega
      rw [this]
      exact permuteIndex_permuteIndex i hi
  · intro h0
    rw [h0]
    exact CreateLoadShader_clutIndex_idx4 csa x y
  · intro c c' s s' hne hs hs' heq
    rw [CreateLoadShader_stores_value] at hs hs'
    obtain ⟨-, h1⟩ := CreateLoadShader_stores_slot _ _ _ _ hs
    obtain ⟨-, h2⟩ := CreateLoadShader_stores_slot _ _ _ _ hs'
    have hxx : s.x = s'.x := congrArg Prod.fst heq
    apply hne
    rcases h1 with h1 | h1 <;> rcases h2 with h2 | h2
    · obtain ⟨a, b⟩ := hsep.1 (by rw [← h1, ← h2, hxx])
      rw [a, b]
    · exact absurd (by rw [← h1, ← h2, hxx]) hsep.2.2
    · exact absurd (by rw [← h1, ← h2, hxx]) hsep'.2.2
    · obtain ⟨a, b⟩ := hsep.2.1 (by rw [← h1, ← h2, hxx])
      rw [a, b]

/-- Instance of C16: invocations (8, 0) and (0, 1) of an 8-bit-indexed
load. -/
theorem palette_load_slots_disjoint_witness :
    (CreateLoadShader_clutIndex 1 0 8 0 = CreateLoadShader_clutIndex 1 0 0 1 →
      8 = 0 ∧ 0 = 1) ∧
    CreateLoadShader_clutIndex 1 0 8 0 ≠ (CreateLoadShader_clutIndex 1 0 0 1 + 0x100) % 2 ^ 32 ∧
    (CreateLoadShader ⟨1, 0, PSMCT32⟩).value.stores 0 7 8 0 ≠ [] :=
  ⟨(palette_load_slots_disjoint ⟨1, 0, PSMCT32⟩ 0 8 0 0 1
      (by decide) (by decide) (by decide) (by decide)).1,
    (palette_load_slots_disjoint ⟨1, 0, PSMCT32⟩ 0 8 0 0 1
      (by decide) (by decide) (by decide) (by decide)).2.2.2.1,
    by decide⟩


/-- Low half and high half of a 32-bit value recombine to the value. -/
theorem halves_recombine (c : Nat) (hc : c < 2 ^ 32) :
    (c &&& 0xFFFF) ||| ((((c >>> 16) &&& 0xFFFF) <<< 16) % 2 ^ 32) = c := by
  apply Nat.eq_of_testBit_eq
  intro j
  have hmask : (0xFFFF : Nat) = 2 ^ 16 - 1 := by decide
  rw [hmask]
  simp only [Nat.testBit_or, Nat.testBit_and, Nat.testBit_mod_two_pow, Nat.testBit_shiftLeft,
    Nat.testBit_shiftRight, Nat.testBit_two_pow_sub_one]
  by_cases h16 : j < 16
  · simp [h16]
  · by_cases h32 : j < 32
    · have h1 : 16 ≤ j := by omega
      have h2 : j - 16 < 16 := by omega
      have h3 : 16 + (j - 16) = j := by omega
      simp [h16, h32, h1, h2, h3]
    · have hj : c.testBit j = false :=
        Nat.testBit_lt_two_pow (lt_of_lt_of_le hc (Nat.pow_le_pow_right (by decide) (by omega)))
      simp [h16, h32, hj]

/-- C17: palette store and palette fetch are a round trip. For a 32-bit
colour c and a slot index i the load shader stores `c & 0xFFFF` at (i, 0)
and `(c >> 16) & 0xFFFF` at (i + 256, 0), and the PSMT8 texture fetch for
raw texel i, reading the palette image after these stores, decodes exactly
c. -/
theorem palette_store_fetch_round_trip (c i : Nat) (image : ClutImage)
    (hc : c < 2 ^ 32) (hi : i + 256 < 2 ^ 32) :
    CreateLoadShader_stores PSMCT32 i c =
      [ { x := i, y := 0, value := c &&& 0xFFFF },
        { x := i + 256, y := 0, value := (c >>> 16) &&& 0xFFFF } ] ∧
    GetTextureColor PSMT8 PSMCT32 i (image.storeAll (CreateLoadShader_stores PSMCT32 i c)) =
      { value := .psm32 c, unsupported := false } := by
  have hm : (i + 0x100) % 2 ^ 32 = i + 256 := Nat.mod_eq_of_lt hi
  have hm0 : i % 2 ^ 32 = i := Nat.mod_eq_of_lt (by omega)
  have hst : CreateLoadShader_stores PSMCT32 i c =
      [ { x := i, y := 0, value := c &&& 0xFFFF },
        { x := i + 256, y := 0, value := (c >>> 16) &&& 0xFFFF } ] := by
    unfold CreateLoadShader_stores
    rw [if_pos rfl, hm]
  refine ⟨hst, ?_⟩
  rw [hst]
  have hlo : ClutImage.storeAll image
      [ { x := i, y := 0, value := c &&& 0xFFFF },
        { x := i + 256, y := 0, value := (c >>> 16) &&& 0xFFFF } ] i 0 = c &&& 0xFFFF := by
    simp [ClutImage.storeAll, ClutImage.store]
  have hhi : ClutImage.storeAll image
      [ { x := i, y := 0, value := c &&& 0xFFFF },
        { x := i + 256, y := 0, value := (c >>> 16) &&& 0xFFFF } ] (i + 256) 0 =
        (c >>> 16) &&& 0xFFFF := by
    simp [ClutImage.storeAll, ClutImage.store]
  unfold GetTextureColor
  rw [if_neg (by decide), if_neg (by decide), if_pos rfl]
  simp only [hm, hm0, hlo, hhi]
  rw [halves_recombine c hc]
  rfl

/-- Instance of C17: colour 0x12345678 at slot 5 of the ramp image. -/
theorem palette_store_fetch_round_trip_witness :
    CreateLoadShader_stores PSMCT32 5 0x12345678 =
      [ { x := 5, y := 0, value := 0x12345678 &&& 0xFFFF },
        { x := 5 + 256, y := 0, value := (0x12345678 >>> 16) &&& 0xFFFF } ] ∧
    GetTextureColor PSMT8 PSMCT32 5
        (ClutImage.ramp.storeAll (CreateLoadShader_stores PSMCT32 5 0x12345678)) =
      { value := .psm32 0x12345678, unsupported := false } :=
  palette_store_fetch_round_trip 0x12345678 5 ClutImage.ramp (by decide) (by decide)


/-! ### Fragment program: blending and texel fetch -/

/-- A listed A/B/D operand selects the value the spec gives it. -/
theorem GetAlphaABD_selector {α : Type} [LinearOrderedRing α] (o : OperandABD)
    (S D : Float4 α) :
    GetAlphaABD o.selector S D = { value := o.rgb S D, unsupported := false } := by
  cases o <;> rfl

/-- A listed C operand selects the value the spec gives it, in all three
channels. -/
theorem GetAlphaC_selector {α : Type} [LinearOrderedRing α] (o : OperandC) (S D : Float4 α) :
    GetAlphaC o.selector S D =
      { value := ⟨o.alpha S D, o.alpha S D, o.alpha S D⟩, unsupported := false } := by
  cases o <;> rfl

/-- Clamping to [0, 1] leaves a value of [0, 1] unchanged. -/
theorem Clamp_unit {α : Type} [LinearOrderedRing α] (x : α) (h0 : 0 ≤ x) (h1 : x ≤ 1) :
    Clamp x 0 1 = x := by
  unfold Clamp
  rw [max_eq_left h0, min_eq_left h1]

/-- A clamped value lies in [0, 1]. -/
theorem Clamp_mem_unit {α : Type} [LinearOrderedRing α] (x : α) :
    0 ≤ Clamp x 0 1 ∧ Clamp x 0 1 ≤ 1 := by
  unfold Clamp
  exact ⟨le_min (le_max_right _ _) zero_le_one, min_le_right _ _⟩

/-- C18: with blending enabled, for a source colour S whose alpha lies in
[0, 1], any destination colour D and every supported operand selection, the
colour the fragment program writes has rgb = clamp((A - B) * C * 2 + D-term,
0, 1) per channel and alpha = S.a, and no unsupported-configuration
assertion is passed; with blending disabled the written colour is S
unchanged. -/
theorem blend_formula {α : Type} [LinearOrderedRing α] (A B Dt : OperandABD) (C : OperandC)
    (S D : Float4 α) (hasAlphaBlending : Nat) (hen : hasAlphaBlending ≠ 0)
    (h0 : 0 ≤ S.w) (h1 : S.w ≤ 1) :
    CreateFragmentShader_blend hasAlphaBlending A.selector B.selector C.selector Dt.selector S D =
      { value :=
          ⟨Clamp (((A.rgb S D).x - (B.rgb S D).x) * C.alpha S D * 2 + (Dt.rgb S D).x) 0 1,
           Clamp (((A.rgb S D).y - (B.rgb S D).y) * C.alpha S D * 2 + (Dt.rgb S D).y) 0 1,
           Clamp (((A.rgb S D).z - (B.rgb S D).z) * C.alpha S D * 2 + (Dt.rgb S D).z) 0 1,
           S.w⟩
        unsupported := false } ∧
    (∀ a b c d, CreateFragmentShader_blend 0 a b c d S D =
      { value := S, unsupported := false }) := by
  refine ⟨?_, fun a b c d => rfl⟩
  unfold CreateFragmentShader_blend
  rw [if_pos hen]
  simp only [GetAlphaABD_selector, GetAlphaC_selector, Float3.sub, Float3.mul, Float3.add,
    Float4.Clamp, Clamp_unit S.w h0 h1, Bool.or_self]

/-- Instance of C18, the blend scenario of the spec: A = S.rgb, B = D.rgb,
C = S.a, D-term = D.rgb, S = (1, 0, 0, 1/2), D = (0, 0, 1, 1) gives rgb
(1, 0, 0) and alpha 1/2. -/
theorem blend_formula_witness :
    CreateFragmentShader_blend 1 ALPHABLEND_ABD_CS ALPHABLEND_ABD_CD ALPHABLEND_C_AS
        ALPHABLEND_ABD_CD (⟨1, 0, 0, 1 / 2⟩ : Float4 ℚ) ⟨0, 0, 1, 1⟩ =
      { value := ⟨1, 0, 0, 1 / 2⟩, unsupported := false } := by
  have h := (blend_formula OperandABD.Cs OperandABD.Cd OperandABD.Cd OperandC.As
    (⟨1, 0, 0, 1 / 2⟩ : Float4 ℚ) ⟨0, 0, 1, 1⟩ 1 (by decide) (by norm_num) (by norm_num)).1
  simp only [OperandABD.selector, OperandC.selector, OperandABD.rgb, OperandC.alpha] at h
  rw [h]
  norm_num [Clamp]


/-- In a build without assertion checks, where the reached assertion does
not stop the program: for a selector outside the supported ones the `default`
label falls through to the first case, the source colour for A, B and the
D-term and the source alpha for C; the assertion is recorded as reached. -/
theorem fallthrough_after_assert {α : Type} [LinearOrderedRing α] (a c : Nat)
    (S D : Float4 α)
    (ha : a ≠ ALPHABLEND_ABD_CS ∧ a ≠ ALPHABLEND_ABD_CD ∧ a ≠ ALPHABLEND_ABD_ZERO)
    (hc : c ≠ ALPHABLEND_C_AS ∧ c ≠ ALPHABLEND_C_AD) :
    GetAlphaABD a S D = { value := S.xyz, unsupported := true } ∧
    GetAlphaC c S D = { value := S.www, unsupported := true } ∧
    (∀ en b c0 d, en ≠ 0 →
      (CreateFragmentShader_blend en a b c0 d S D).unsupported = true ∧
      (CreateFragmentShader_blend en a b c0 d S D).value =
        (CreateFragmentShader_blend en ALPHABLEND_ABD_CS b c0 d S D).value) ∧
    (∀ en a0 b d, en ≠ 0 →
      (CreateFragmentShader_blend en a0 b c d S D).unsupported = true ∧
      (CreateFragmentShader_blend en a0 b c d S D).value =
        (CreateFragmentShader_blend en a0 b ALPHABLEND_C_AS d S D).value) := by
  have hA : GetAlphaABD a S D = { value := S.xyz, unsupported := true } := by
    unfold GetAlphaABD
    rw [if_neg ha.1, if_neg ha.2.1, if_neg ha.2.2]
  have hA0 : GetAlphaABD ALPHABLEND_ABD_CS S D = { value := S.xyz, unsupported := false } := rfl
  have hC : GetAlphaC c S D = { value := S.www, unsupported := true } := by
    unfold GetAlphaC
    rw [if_neg hc.1, if_neg hc.2]
  have hC0 : GetAlphaC ALPHABLEND_C_AS S D = { value := S.www, unsupported := false } := rfl
  refine ⟨hA, hC, ?_, ?_⟩
  · intro en b c0 d hen
    unfold CreateFragmentShader_blend
    rw [if_pos hen, if_pos hen]
    simp only [hA, hA0, Bool.true_or, and_self]
  · intro en a0 b d hen
    unfold CreateFragmentShader_blend
    rw [if_pos hen, if_pos hen]
    simp only [hC, hC0, Bool.true_or, Bool.or_true, and_self]

/-- The fall-through at A selector 3 and C selector 2 with S = (1, 0, 0,
1/2) and D = (0, 0, 1, 1). -/
theorem fallthrough_after_assert_instance :
    GetAlphaABD 3 (⟨1, 0, 0, 1 / 2⟩ : Float4 ℚ) ⟨0, 0, 1, 1⟩ =
      { value := ⟨1, 0, 0⟩, unsupported := true } ∧
    GetAlphaC 2 (⟨1, 0, 0, 1 / 2⟩ : Float4 ℚ) ⟨0, 0, 1, 1⟩ =
      { value := ⟨1 / 2, 1 / 2, 1 / 2⟩, unsupported := true } :=
  ⟨(fallthrough_after_assert 3 2 (⟨1, 0, 0, 1 / 2⟩ : Float4 ℚ) ⟨0, 0, 1, 1⟩
      (by decide) (by decide)).1,
    (fallthrough_after_assert 3 2 (⟨1, 0, 0, 1 / 2⟩ : Float4 ℚ) ⟨0, 0, 1, 1⟩
      (by decide) (by decide)).2.1⟩

/-- `GetAlphaABD` reaches its assertion exactly for the selectors other than
Cs, Cd and zero. -/
theorem GetAlphaABD_unsupported_iff {α : Type} [LinearOrderedRing α] (sel : Nat)
    (S D : Float4 α) :
    (GetAlphaABD sel S D).unsupported = true ↔
      (sel ≠ ALPHABLEND_ABD_CS ∧ sel ≠ ALPHABLEND_ABD_CD ∧ sel ≠ ALPHABLEND_ABD_ZERO) := by
  unfold GetAlphaABD
  by_cases h0 : sel = ALPHABLEND_ABD_CS
  · rw [if_pos h0]
    simp [h0]
  · rw [if_neg h0]
    by_cases h1 : sel = ALPHABLEND_ABD_CD
    · rw [if_pos h1]
      simp [h1]
    · rw [if_neg h1]
      by_cases h2 : sel = ALPHABLEND_ABD_ZERO
      · rw [if_pos h2]
        simp [h2]
      · rw [if_neg h2]
        simp [h0, h1, h2]

/-- `GetAlphaC` reaches its assertion exactly for the selectors other than
As and Ad. -/
theorem GetAlphaC_unsupported_iff {α : Type} [LinearOrderedRing α] (sel : Nat)
    (S D : Float4 α) :
    (GetAlphaC sel S D).unsupported = true ↔
      (sel ≠ ALPHABLEND_C_AS ∧ sel ≠ ALPHABLEND_C_AD) := by
  unfold GetAlphaC
  by_cases h0 : sel = ALPHABLEND_C_AS
  · rw [if_pos h0]
    simp [h0]
  · rw [if_neg h0]
    by_cases h1 : sel = ALPHABLEND_C_AD
    · rw [if_pos h1]
      simp [h1]
    · rw [if_neg h1]
      simp [h0, h1]

/-- With blending enabled the blend stage reaches an assertion exactly when
one of its four operand selections does. -/
theorem CreateFragmentShader_blend_unsupported {α : Type} [LinearOrderedRing α]
    (en a b c d : Nat) (S D : Float4 α) (hen : en ≠ 0) :
    (CreateFragmentShader_blend en a b c d S D).unsupported =
      ((GetAlphaABD a S D).unsupported || (GetAlphaABD b S D).unsupported ||
        (GetAlphaC c S D).unsupported || (GetAlphaABD d S D).unsupported) := by
  unfold CreateFragmentShader_blend
  rw [if_pos hen]

/-- Nothing is delivered exactly when an assertion was reached. -/
theorem Generated.delivered_eq_none {β : Type} (g : Generated β) :
    g.delivered = none ↔ g.unsupported = true := by
  unfold Generated.delivered
  cases g.unsupported <;> simp

/-- A delivered value is the generated value, and no assertion was
reached. -/
theorem Generated.delivered_eq_some {β : Type} (g : Generated β) (v : β) :
    g.delivered = some v ↔ (g.unsupported = false ∧ g.value = v) := by
  unfold Generated.delivered
  cases g.unsupported <;> simp

/-- C19: for every blend operand selector that is not one of the supported
ones (A, B or D-term selector other than Cs, Cd, zero; C selector other than
As, Ad) shader generation reaches the unsupported-configuration assertion,
which is fatal: with blending enabled nothing is delivered by the operand
function nor by the blend stage, whichever of the four positions the
selector stands in. No default operand is substituted silently: whenever an
operand or a blended colour is delivered, every selector involved is a
supported one. -/
theorem unsupported_selector_is_fatal {α : Type} [LinearOrderedRing α] (a c : Nat)
    (S D : Float4 α)
    (ha : a ≠ ALPHABLEND_ABD_CS ∧ a ≠ ALPHABLEND_ABD_CD ∧ a ≠ ALPHABLEND_ABD_ZERO)
    (hc : c ≠ ALPHABLEND_C_AS ∧ c ≠ ALPHABLEND_C_AD) :
    (GetAlphaABD a S D).unsupported = true ∧
    (GetAlphaABD a S D).delivered = none ∧
    (GetAlphaC c S D).unsupported = true ∧
    (GetAlphaC c S D).delivered = none ∧
    (∀ en x y z : Nat, en ≠ 0 →
      (CreateFragmentShader_blend en a x y z S D).delivered = none ∧
      (CreateFragmentShader_blend en x a y z S D).delivered = none ∧
      (CreateFragmentShader_blend en x y c z S D).delivered = none ∧
      (CreateFragmentShader_blend en x y z a S D).delivered = none) ∧
    (∀ (sel : Nat) (v : Float3 α), (GetAlphaABD sel S D).delivered = some v →
      sel = ALPHABLEND_ABD_CS ∨ sel = ALPHABLEND_ABD_CD ∨ sel = ALPHABLEND_ABD_ZERO) ∧
    (∀ (sel : Nat) (v : Float3 α), (GetAlphaC sel S D).delivered = some v →
      sel = ALPHABLEND_C_AS ∨ sel = ALPHABLEND_C_AD) ∧
    (∀ (en x y z w : Nat) (v : Float4 α), en ≠ 0 →
      (CreateFragmentShader_blend en x y z w S D).delivered = some v →
      (x = ALPHABLEND_ABD_CS ∨ x = ALPHABLEND_ABD_CD ∨ x = ALPHABLEND_ABD_ZERO) ∧
      (y = ALPHABLEND_ABD_CS ∨ y = ALPHABLEND_ABD_CD ∨ y = ALPHABLEND_ABD_ZERO) ∧
      (z = ALPHABLEND_C_AS ∨ z = ALPHABLEND_C_AD) ∧
      (w = ALPHABLEND_ABD_CS ∨ w = ALPHABLEND_ABD_CD ∨ w = ALPHABLEND_ABD_ZERO)) := by
  have hA : (GetAlphaABD a S D).unsupported = true := (GetAlphaABD_unsupported_iff a S D).mpr ha
  have hC : (GetAlphaC c S D).unsupported = true := (GetAlphaC_unsupported_iff c S D).mpr hc
  have hsupA : ∀ sel : Nat, (GetAlphaABD sel S D).unsupported = false →
      sel = ALPHABLEND_ABD_CS ∨ sel = ALPHABLEND_ABD_CD ∨ sel = ALPHABLEND_ABD_ZERO := by
    intro sel h
    by_contra hn
    simp only [not_or] at hn
    rw [(GetAlphaABD_unsupported_iff sel S D).mpr ⟨hn.1, hn.2.1, hn.2.2⟩] at h
    exact Bool.noConfusion h
  have hsupC : ∀ sel : Nat, (GetAlphaC sel S D).unsupported = false →
      sel = ALPHABLEND_C_AS ∨ sel = ALPHABLEND_C_AD := by
    intro sel h
    by_contra hn
    simp only [not_or] at hn
    rw [(GetAlphaC_unsupported_iff sel S D).mpr ⟨hn.1, hn.2⟩] at h
    exact Bool.noConfusion h
  refine ⟨hA, (Generated.delivered_eq_none _).mpr hA, hC, (Generated.delivered_eq_none _).mpr hC,
    ?_, ?_, ?_, ?_⟩
  · intro en x y z hen
    refine ⟨?_, ?_, ?_, ?_⟩ <;>
    · rw [Generated.delivered_eq_none, CreateFragmentShader_blend_unsupported _ _ _ _ _ _ _ hen]
      simp [hA, hC]
  · intro sel v h
    exact hsupA sel ((Generated.delivered_eq_some _ _).mp h).1
  · intro sel v h
    exact hsupC sel ((Generated.delivered_eq_some _ _).mp h).1
  · intro en x y z w v hen h
    have hu := ((Generated.delivered_eq_some _ _).mp h).1
    rw [CreateFragmentShader_blend_unsupported _ _ _ _ _ _ _ hen] at hu
    simp only [Bool.or_eq_false_iff] at hu
    exact ⟨hsupA x hu.1.1.1, hsupA y hu.1.1.2, hsupC z hu.1.2, hsupA w hu.2⟩

/-- Instance of C19: A selector 3 and C selector 2 (FIX) with S = (1, 0, 0,
1/2) and D = (0, 0, 1, 1): the assertion is reached and nothing is
delivered. -/
theorem unsupported_selector_is_fatal_witness :
    (GetAlphaABD 3 (⟨1, 0, 0, 1 / 2⟩ : Float4 ℚ) ⟨0, 0, 1, 1⟩).unsupported = true ∧
    (GetAlphaABD 3 (⟨1, 0, 0, 1 / 2⟩ : Float4 ℚ) ⟨0, 0, 1, 1⟩).delivered = none ∧
    (GetAlphaC 2 (⟨1, 0, 0, 1 / 2⟩ : Float4 ℚ) ⟨0, 0, 1, 1⟩).delivered = none ∧
    (CreateFragmentShader_blend 1 3 ALPHABLEND_ABD_CD ALPHABLEND_C_AS ALPHABLEND_ABD_CD
      (⟨1, 0, 0, 1 / 2⟩ : Float4 ℚ) ⟨0, 0, 1, 1⟩).delivered = none :=
  ⟨(unsupported_selector_is_fatal 3 2 (⟨1, 0, 0, 1 / 2⟩ : Float4 ℚ) ⟨0, 0, 1, 1⟩
      (by decide) (by decide)).1,
    (unsupported_selector_is_fatal 3 2 (⟨1, 0, 0, 1 / 2⟩ : Float4 ℚ) ⟨0, 0, 1, 1⟩
      (by decide) (by decide)).2.1,
    (unsupported_selector_is_fatal 3 2 (⟨1, 0, 0, 1 / 2⟩ : Float4 ℚ) ⟨0, 0, 1, 1⟩
      (by decide) (by decide)).2.2.2.1,
    ((unsupported_selector_is_fatal 3 2 (⟨1, 0, 0, 1 / 2⟩ : Float4 ℚ) ⟨0, 0, 1, 1⟩
      (by decide) (by decide)).2.2.2.2.1 1 ALPHABLEND_ABD_CD ALPHABLEND_C_AS ALPHABLEND_ABD_CD
      (by decide)).1⟩

/-- C20, divergence: for PSMT8 the texel colour is the palette lookup at
the raw texel value; for PSMT4 the generated code never reads the palette
image: it decodes the raw texel times 16 with the top byte set, whatever the
palette holds, which differs from the palette lookup (raw texel 5 on the
ramp image: 0xFF000050 against 0x01050005). -/
theorem GetTextureColor_PSMT4_skips_palette (clutFormat texPixel : Nat)
    (image image0 : ClutImage) (ht : texPixel + 256 < 2 ^ 32) :
    (GetTextureColor PSMT8 clutFormat texPixel image).value = paletteLookup texPixel image ∧
    (GetTextureColor PSMT4 clutFormat texPixel image).value =
      .psm32 (((texPixel * 0x10) % 2 ^ 32) ||| 0xFF000000) ∧
    (GetTextureColor PSMT4 clutFormat texPixel image).value =
      (GetTextureColor PSMT4 clutFormat texPixel image0).value ∧
    (GetTextureColor PSMT4 PSMCT32 5 ClutImage.ramp).value = .psm32 0xFF000050 ∧
    paletteLookup 5 ClutImage.ramp = .psm32 0x01050005 ∧
    (GetTextureColor PSMT4 PSMCT32 5 ClutImage.ramp).value ≠ paletteLookup 5 ClutImage.ramp := by
  have hm : (texPixel + 0x100) % 2 ^ 32 = texPixel + 256 := Nat.mod_eq_of_lt ht
  have hm0 : texPixel % 2 ^ 32 = texPixel := Nat.mod_eq_of_lt (by omega)
  refine ⟨?_, rfl, rfl, by decide, by decide, by decide⟩
  unfold GetTextureColor paletteLookup
  rw [if_neg (by decide), if_neg (by decide), if_pos rfl]
  simp only [hm, hm0]

/-- Instance of the C20 divergence at raw texel 5 on the ramp image. -/
theorem GetTextureColor_PSMT4_skips_palette_witness :
    (GetTextureColor PSMT8 PSMCT32 5 ClutImage.ramp).value = paletteLookup 5 ClutImage.ramp ∧
    (GetTextureColor PSMT4 PSMCT32 5 ClutImage.ramp).value ≠ paletteLookup 5 ClutImage.ramp :=
  ⟨(GetTextureColor_PSMT4_skips_palette PSMCT32 5 ClutImage.ramp ClutImage.ramp (by decide)).1,
    (GetTextureColor_PSMT4_skips_palette PSMCT32 5 ClutImage.ramp ClutImage.ramp
      (by decide)).2.2.2.2.2⟩


/-! ### Fragment program: frame-buffer formats and source colour -/

/-- Which assertions `CreateFragmentShader` passes, in terms of its
parts. -/
theorem CreateFragmentShader_failedAsserts {α : Type} [LinearOrderedRing α] (caps : Nat)
    (decode : TexelDecode → Float4 α) (texPixel : Nat) (clutImage : ClutImage)
    (inputColor dstPixelColor : Float4 α) :
    (ShaderAssert.framebufferAddress ∈
        (CreateFragmentShader caps decode texPixel clutImage inputColor dstPixelColor).failedAsserts ↔
      (CreateFragmentShader_fbAddress (PIPELINE_CAPS_framebufferFormat caps)).unsupported = true) ∧
    (ShaderAssert.framebufferRead ∈
        (CreateFragmentShader caps decode texPixel clutImage inputColor dstPixelColor).failedAsserts ↔
      (CreateFragmentShader_dstRead (PIPELINE_CAPS_hasAlphaBlending caps)
        (PIPELINE_CAPS_framebufferFormat caps)).unsupported = true) ∧
    (ShaderAssert.framebufferWrite ∈
        (CreateFragmentShader caps decode texPixel clutImage inputColor dstPixelColor).failedAsserts ↔
      (CreateFragmentShader_write (PIPELINE_CAPS_framebufferFormat caps)).unsupported = true) := by
  unfold CreateFragmentShader
  simp only [List.mem_append]
  refine ⟨?_, ?_, ?_⟩ <;>
  · split_ifs <;> simp_all

/-- C21, divergence: for PSMCT32 and PSMCT16S no frame-buffer switch of
the generator asserts, the address uses the 32-bit resp. 16-bit storage
layout and the write is a 32-bit resp. 16-bit write. For PSMCT24 the
address is computed with the 32-bit storage layout without asserting, but
the write switch has no PSMCT24 label: it passes `assert(false)` and falls
through to the 32-bit write, and so does the destination read when blending
is on. -/
theorem PSMCT24_write_asserts {α : Type} [LinearOrderedRing α] (caps : Nat)
    (decode : TexelDecode → Float4 α) (texPixel : Nat) (clutImage : ClutImage)
    (inputColor dstPixelColor : Float4 α)
    (h24 : PIPELINE_CAPS_framebufferFormat caps = PSMCT24) :
    (CreateFragmentShader caps decode texPixel clutImage inputColor dstPixelColor).fbAddress =
      PixelStorage.STORAGEPSMCT32 ∧
    (CreateFragmentShader caps decode texPixel clutImage inputColor dstPixelColor).write =
      MemoryAccess.bits32 ∧
    ShaderAssert.framebufferAddress ∉
      (CreateFragmentShader caps decode texPixel clutImage inputColor dstPixelColor).failedAsserts ∧
    ShaderAssert.framebufferWrite ∈
      (CreateFragmentShader caps decode texPixel clutImage inputColor dstPixelColor).failedAsserts ∧
    (ShaderAssert.framebufferRead ∈
        (CreateFragmentShader caps decode texPixel clutImage inputColor dstPixelColor).failedAsserts ↔
      PIPELINE_CAPS_hasAlphaBlending caps ≠ 0) ∧
    CreateFragmentShader_fbAddress PSMCT32 = { value := .STORAGEPSMCT32, unsupported := false } ∧
    CreateFragmentShader_write PSMCT32 = { value := .bits32, unsupported := false } ∧
    CreateFragmentShader_fbAddress PSMCT16S = { value := .STORAGEPSMCT16, unsupported := false } ∧
    CreateFragmentShader_write PSMCT16S = { value := .bits16, unsupported := false } ∧
    (∀ en, CreateFragmentShader_dstRead en PSMCT32 =
      { value := if en ≠ 0 then some .bits32 else none, unsupported := false }) ∧
    (∀ en, CreateFragmentShader_dstRead en PSMCT16S =
      { value := if en ≠ 0 then some .bits16 else none, unsupported := false }) := by
  have hA : CreateFragmentShader_fbAddress PSMCT24 =
      { value := .STORAGEPSMCT32, unsupported := false } := rfl
  have hW : CreateFragmentShader_write PSMCT24 =
      { value := .bits32, unsupported := true } := rfl
  obtain ⟨ha, hr, hw⟩ := CreateFragmentShader_failedAsserts caps decode texPixel clutImage
    inputColor dstPixelColor
  refine ⟨?_, ?_, ?_, ?_, ?_, rfl, rfl, rfl, rfl, ?_, ?_⟩
  · show (CreateFragmentShader_fbAddress (PIPELINE_CAPS_framebufferFormat caps)).value = _
    rw [h24, hA]
  · show (CreateFragmentShader_write (PIPELINE_CAPS_framebufferFormat caps)).value = _
    rw [h24, hW]
  · rw [ha, h24, hA]
    simp
  · rw [hw, h24, hW]
  · rw [hr, h24]
    unfold CreateFragmentShader_dstRead
    by_cases hb : PIPELINE_CAPS_hasAlphaBlending caps ≠ 0
    · rw [if_pos hb, if_neg (by decide), if_neg (by decide)]
      simp [hb]
    · rw [if_neg hb]
      simp [hb]
  · intro en
    unfold CreateFragmentShader_dstRead
    split_ifs <;> first | rfl | (exfalso; revert ‹¬ PSMCT32 = PSMCT32›; decide)
  · intro en
    unfold CreateFragmentShader_dstRead
    by_cases hb : en ≠ 0
    · rw [if_pos hb, if_neg (by decide), if_pos rfl, if_pos hb]
    · rw [if_neg hb, if_neg hb]

/-- Instance of the C21 divergence: the key with frame-buffer format PSMCT24
and every other field zero, for an untextured fragment. -/
theorem PSMCT24_write_asserts_witness :
    PIPELINE_CAPS_framebufferFormat (capsOfFramebuffer PSMCT24 0) = PSMCT24 ∧
    (CreateFragmentShader (capsOfFramebuffer PSMCT24 0) (constDecode ⟨1, 1, 1, 1⟩) 0
      ClutImage.ramp (⟨1, 0, 0, 1⟩ : Float4 ℚ) ⟨0, 0, 0, 0⟩).write = MemoryAccess.bits32 ∧
    ShaderAssert.framebufferWrite ∈
      (CreateFragmentShader (capsOfFramebuffer PSMCT24 0) (constDecode ⟨1, 1, 1, 1⟩) 0
        ClutImage.ramp (⟨1, 0, 0, 1⟩ : Float4 ℚ) ⟨0, 0, 0, 0⟩).failedAsserts :=
  ⟨by decide,
    (PSMCT24_write_asserts (capsOfFramebuffer PSMCT24 0) (constDecode ⟨1, 1, 1, 1⟩) 0
      ClutImage.ramp (⟨1, 0, 0, 1⟩ : Float4 ℚ) ⟨0, 0, 0, 0⟩ (by decide)).2.1,
    (PSMCT24_write_asserts (capsOfFramebuffer PSMCT24 0) (constDecode ⟨1, 1, 1, 1⟩) 0
      ClutImage.ramp (⟨1, 0, 0, 1⟩ : Float4 ℚ) ⟨0, 0, 0, 0⟩ (by decide)).2.2.2.1⟩


/-- C22: palette-load shader generation passes no assertion if and only if
the palette storage format is PSMCT32; then it emits the memory read and the
two stores of every invocation. For every other format it passes the
unsupported-configuration assertion and emits neither a memory read nor a
palette store. -/
theorem CreateLoadShader_supported_iff (caps : CLUTLOAD_CAPS) :
    ((CreateLoadShader caps).unsupported = false ↔ caps.cpsm = PSMCT32) ∧
    (caps.cpsm = PSMCT32 →
      (CreateLoadShader caps).value.readsMemory = true ∧
      ∀ csa colorPixel x y,
        ((CreateLoadShader caps).value.stores csa colorPixel x y).length = 2) ∧
    (caps.cpsm ≠ PSMCT32 →
      (CreateLoadShader caps).unsupported = true ∧
      (CreateLoadShader caps).value.readsMemory = false ∧
      ∀ csa colorPixel x y, (CreateLoadShader caps).value.stores csa colorPixel x y = []) := by
  refine ⟨?_, ?_, ?_⟩
  · simp [CreateLoadShader]
  · intro h
    refine ⟨by simp [CreateLoadShader, h], ?_⟩
    intro csa colorPixel x y
    rw [CreateLoadShader_stores_value]
    unfold CreateLoadShader_stores
    rw [if_pos h]
    rfl
  · intro h
    refine ⟨by simp [CreateLoadShader, h], by simp [CreateLoadShader, h], ?_⟩
    intro csa colorPixel x y
    rw [CreateLoadShader_stores_value]
    unfold CreateLoadShader_stores
    rw [if_neg h]

/-- Instance of C22: an 8-bit-indexed load with the 16-bit palette format
PSMCT16 asserts and stores nothing; with PSMCT32 it stores two halves. -/
theorem CreateLoadShader_supported_iff_witness :
    (CreateLoadShader ⟨1, 0, PSMCT16⟩).unsupported = true ∧
    (CreateLoadShader ⟨1, 0, PSMCT16⟩).value.readsMemory = false ∧
    (CreateLoadShader ⟨1, 0, PSMCT16⟩).value.stores 0 0x12345678 8 0 = [] ∧
    (CreateLoadShader ⟨1, 0, PSMCT32⟩).unsupported = false ∧
    (CreateLoadShader ⟨1, 0, PSMCT32⟩).value.stores 0 0x12345678 8 0 =
      [⟨16, 0, 0x5678⟩, ⟨272, 0, 0x1234⟩] :=
  ⟨((CreateLoadShader_supported_iff ⟨1, 0, PSMCT16⟩).2.2 (by decide)).1,
    ((CreateLoadShader_supported_iff ⟨1, 0, PSMCT16⟩).2.2 (by decide)).2.1,
    ((CreateLoadShader_supported_iff ⟨1, 0, PSMCT16⟩).2.2 (by decide)).2.2 0 0x12345678 8 0,
    by decide, by decide⟩

/-- C26: for a textured primitive the source colour fed to blending and
writing is, per channel including alpha, clamp(T * V * 2, 0, 1) with T the
decoded texel colour and V the interpolated vertex colour, hence within
[0, 1]; for an untextured primitive it is V unchanged. -/
theorem source_colour_modulate {α : Type} [LinearOrderedRing α] (caps : Nat)
    (decode : TexelDecode → Float4 α) (texPixel : Nat) (clutImage : ClutImage)
    (V dstPixelColor : Float4 α) :
    (PIPELINE_CAPS_hasTexture caps ≠ 0 →
      ∀ T, T = decode (GetTextureColor (PIPELINE_CAPS_textureFormat caps)
          (PIPELINE_CAPS_clutFormat caps) texPixel clutImage).value →
        (CreateFragmentShader caps decode texPixel clutImage V dstPixelColor).textureColor =
          ⟨Clamp (T.x * V.x * 2) 0 1, Clamp (T.y * V.y * 2) 0 1,
           Clamp (T.z * V.z * 2) 0 1, Clamp (T.w * V.w * 2) 0 1⟩ ∧
        (0 ≤ (CreateFragmentShader caps decode texPixel clutImage V dstPixelColor).textureColor.x ∧
          (CreateFragmentShader caps decode texPixel clutImage V dstPixelColor).textureColor.x ≤ 1) ∧
        (0 ≤ (CreateFragmentShader caps decode texPixel clutImage V dstPixelColor).textureColor.y ∧
          (CreateFragmentShader caps decode texPixel clutImage V dstPixelColor).textureColor.y ≤ 1) ∧
        (0 ≤ (CreateFragmentShader caps decode texPixel clutImage V dstPixelColor).textureColor.z ∧
          (CreateFragmentShader caps decode texPixel clutImage V dstPixelColor).textureColor.z ≤ 1) ∧
        (0 ≤ (CreateFragmentShader caps decode texPixel clutImage V dstPixelColor).textureColor.w ∧
          (CreateFragmentShader caps decode texPixel clutImage V dstPixelColor).textureColor.w ≤ 1)) ∧
    (PIPELINE_CAPS_hasTexture caps = 0 →
      (CreateFragmentShader caps decode texPixel clutImage V dstPixelColor).textureColor = V) ∧
    (CreateFragmentShader caps decode texPixel clutImage V dstPixelColor).dstColor =
      (CreateFragmentShader_blend (PIPELINE_CAPS_hasAlphaBlending caps)
        (PIPELINE_CAPS_alphaA caps) (PIPELINE_CAPS_alphaB caps) (PIPELINE_CAPS_alphaC caps)
        (PIPELINE_CAPS_alphaD caps)
        (CreateFragmentShader caps decode texPixel clutImage V dstPixelColor).textureColor
        dstPixelColor).value := by
  refine ⟨?_, ?_, rfl⟩
  · intro h T hT
    have hval : (CreateFragmentShader caps decode texPixel clutImage V dstPixelColor).textureColor =
        ⟨Clamp (T.x * V.x * 2) 0 1, Clamp (T.y * V.y * 2) 0 1,
         Clamp (T.z * V.z * 2) 0 1, Clamp (T.w * V.w * 2) 0 1⟩ := by
      show (CreateFragmentShader_textureColor caps decode texPixel clutImage V).value = _
      unfold CreateFragmentShader_textureColor
      rw [if_pos h, hT]
      rfl
    refine ⟨hval, ?_⟩
    rw [hval]
    exact ⟨Clamp_mem_unit _, Clamp_mem_unit _, Clamp_mem_unit _, Clamp_mem_unit _⟩
  · intro h
    show (CreateFragmentShader_textureColor caps decode texPixel clutImage V).value = _
    unfold CreateFragmentShader_textureColor
    rw [if_neg (by simpa using h)]

/-- Instance of C26: a textured fragment with texel (1, 1/2, 1/4, 1) and vertex
colour (1, 1/2, 1, 1/4) gets source colour (1, 1/2, 1/2, 1/2). -/
theorem source_colour_modulate_witness :
    (CreateFragmentShader 1 (constDecode ⟨1, 1 / 2, 1 / 4, 1⟩) 0 ClutImage.ramp
      (⟨1, 1 / 2, 1, 1 / 4⟩ : Float4 ℚ) ⟨0, 0, 0, 0⟩).textureColor = ⟨1, 1 / 2, 1 / 2, 1 / 2⟩ := by
  have h := ((source_colour_modulate 1 (constDecode ⟨1, 1 / 2, 1 / 4, 1⟩) 0 ClutImage.ramp
    (⟨1, 1 / 2, 1, 1 / 4⟩ : Float4 ℚ) ⟨0, 0, 0, 0⟩).1 (by decide) _ rfl).1
  rw [h]
  norm_num [Clamp, constDecode]


/-! ### Vertex kicks: one kick in full -/

/-- A kick that does not complete a primitive (counter above 1) latches its
vertex in slot counter - 1, decrements the counter and does nothing
else. -/
theorem VertexKick_pending (s : CGSH_Vulkan) (registerId data : Nat) (hc : 1 < s.m_vtxCount) :
    s.VertexKick registerId data =
      { s with
        m_vtxBuffer := Function.update s.m_vtxBuffer (s.m_vtxCount - 1)
          (CGSH_Vulkan.kickVertex s.m_nReg registerId data)
        m_vtxCount := s.m_vtxCount - 1 } := by
  unfold CGSH_Vulkan.VertexKick
  rw [if_neg (by omega)]
  simp only []
  rw [if_neg (by omega)]

/-- A kick that completes a primitive (counter 1), in full: the vertex goes
to slot 0, the mode is latched from the register PRMODECONT selects, a
drawing kick re-binds the offset and, for a triangle type, appends the
triangle of slots 2, 1, 0; then the scratch slots are shifted and the counter
re-armed according to the primitive type. -/
theorem VertexKick_complete (s : CGSH_Vulkan) (registerId data : Nat) (hc : s.m_vtxCount = 1) :
    s.VertexKick registerId data =
      { m_nReg := s.m_nReg
        m_drawEnabled := s.m_drawEnabled
        m_vtxCount := rearmedCount s.m_primitiveType
        m_vtxBuffer := shiftedScratch s.m_primitiveType
          (Function.update s.m_vtxBuffer 0 (CGSH_Vulkan.kickVertex s.m_nReg registerId data))
        m_primitiveMode := latchedMode s.m_nReg
        m_primitiveType := s.m_primitiveType
        m_primOfsX := if s.kickDraws registerId then boundOfsX s.m_nReg else s.m_primOfsX
        m_primOfsY := if s.kickDraws registerId then boundOfsY s.m_nReg else s.m_primOfsY
        m_draw :=
          if s.kickDraws registerId && isTriangleType s.m_primitiveType then
            s.m_draw.AddVertices (triangleOfVertices s.m_nReg (s.m_vtxBuffer 2) (s.m_vtxBuffer 1)
              (CGSH_Vulkan.kickVertex s.m_nReg registerId data))
          else s.m_draw } := by
  unfold CGSH_Vulkan.VertexKick
  rw [if_neg (by omega)]
  have hc1 : s.m_vtxCount - 1 = 0 := by omega
  unfold CGSH_Vulkan.kickDraws isTriangleType rearmedCount shiftedScratch
  by_cases h3 : s.m_primitiveType = PRIM_TRIANGLE
  · cases hen : s.m_drawEnabled <;>
      cases hr : (registerId == GS_REG_XYZ2 || registerId == GS_REG_XYZF2) <;>
      simp only [CGSH_Vulkan.SetRenderingContext, CGSH_Vulkan.Prim_Triangle, hc1, hen, hr, h3, if_true, if_false, Bool.not_true, Bool.not_false,
        Bool.false_eq_true, Bool.false_and, Bool.true_and, Bool.and_false] <;>
      rfl
  · by_cases h4 : s.m_primitiveType = PRIM_TRIANGLESTRIP
    · cases hen : s.m_drawEnabled <;>
        cases hr : (registerId == GS_REG_XYZ2 || registerId == GS_REG_XYZF2) <;>
        simp only [CGSH_Vulkan.SetRenderingContext, CGSH_Vulkan.Prim_Triangle, hc1, hen, hr, h4, if_true, if_false, Bool.not_true, Bool.not_false,
          Bool.false_eq_true, Bool.false_and, Bool.true_and, Bool.and_false] <;>
        rfl
    · by_cases h5 : s.m_primitiveType = PRIM_TRIANGLEFAN
      · cases hen : s.m_drawEnabled <;>
          cases hr : (registerId == GS_REG_XYZ2 || registerId == GS_REG_XYZF2) <;>
          simp only [CGSH_Vulkan.SetRenderingContext, CGSH_Vulkan.Prim_Triangle, hc1, hen, hr, h5, if_true, if_false, Bool.not_true, Bool.not_false,
            Bool.false_eq_true, Bool.false_and, Bool.true_and, Bool.and_false] <;>
          rfl
      · have b3 : (s.m_primitiveType == PRIM_TRIANGLE) = false := by simpa using h3
        have b4 : (s.m_primitiveType == PRIM_TRIANGLESTRIP) = false := by simpa using h4
        have b5 : (s.m_primitiveType == PRIM_TRIANGLEFAN) = false := by simpa using h5
        cases hen : s.m_drawEnabled <;>
          cases hr : (registerId == GS_REG_XYZ2 || registerId == GS_REG_XYZF2) <;>
          simp only [CGSH_Vulkan.SetRenderingContext, CGSH_Vulkan.Prim_Triangle, hc1, hen, hr, h3, h4, h5, b3, b4, b5, if_true, if_false, Bool.not_true,
            Bool.not_false, Bool.false_eq_true, Bool.false_and, Bool.true_and, Bool.and_false,
            Bool.or_self, or_self] <;>
          rfl


/-- A kick at counter zero returns the state unchanged. -/
theorem VertexKick_at_zero (s : CGSH_Vulkan) (registerId data : Nat)
    (h : s.m_vtxCount = 0) : s.VertexKick registerId data = s := by
  unfold CGSH_Vulkan.VertexKick
  rw [if_pos h]

/-- C24: whenever a kick brings the counter to zero the primitive mode is
latched, from PRIM if bit 0 of PRMODECONT is 1 and from PRMODE otherwise,
before the triangle is emitted: the triangle appended by that kick is built
with the shading flag of the selected register and the offset of the context
it names. A kick that does not complete a primitive leaves the latched mode
unchanged. -/
theorem mode_latched_at_completion (s : CGSH_Vulkan) (registerId data : Nat) :
    (s.m_vtxCount = 1 →
      (s.VertexKick registerId data).m_primitiveMode = latchedMode s.m_nReg ∧
      latchedMode s.m_nReg =
        (if s.m_nReg GS_REG_PRMODECONT &&& 1 ≠ 0 then s.m_nReg GS_REG_PRIM
         else s.m_nReg GS_REG_PRMODE) ∧
      (s.kickDraws registerId = true → isTriangleType s.m_primitiveType = true →
        (s.VertexKick registerId data).m_draw =
          s.m_draw.AddVertices
            (CGSH_Vulkan.Prim_Triangle_vertices (latchedMode s.m_nReg)
              (XYOFFSET_nOffsetX
                (s.m_nReg (GS_REG_XYOFFSET_1 + PRMODE_nContext (latchedMode s.m_nReg))))
              (XYOFFSET_nOffsetY
                (s.m_nReg (GS_REG_XYOFFSET_1 + PRMODE_nContext (latchedMode s.m_nReg))))
              (s.m_vtxBuffer 2) (s.m_vtxBuffer 1)
              (CGSH_Vulkan.kickVertex s.m_nReg registerId data)))) ∧
    (s.m_vtxCount ≠ 1 →
      (s.VertexKick registerId data).m_primitiveMode = s.m_primitiveMode) := by
  refine ⟨?_, ?_⟩
  · intro hc
    refine ⟨?_, rfl, ?_⟩
    · rw [VertexKick_complete s registerId data hc]
    · intro hd ht
      rw [VertexKick_complete s registerId data hc]
      simp only [hd, ht, Bool.and_self, if_true]
      rfl
  · intro hc
    by_cases h0 : s.m_vtxCount = 0
    · rw [(VertexKick_at_zero s registerId data h0)]
    · rw [VertexKick_pending s registerId data (by omega)]


/-- Instance of C24: PRMODECONT = 1, PRIM selects a smooth-shaded triangle
list of context 1, and the third XYZ2 kick completes the triangle: the mode
latched is the PRIM value and one triangle is appended. -/
theorem mode_latched_at_completion_witness :
    (writeRegisters CGSH_Vulkan.primControlled
      [(GS_REG_PRIM, 0x20B), (GS_REG_XYZ2, 1), (GS_REG_XYZ2, 2)]).m_vtxCount = 1 ∧
    ((writeRegisters CGSH_Vulkan.primControlled
      [(GS_REG_PRIM, 0x20B), (GS_REG_XYZ2, 1), (GS_REG_XYZ2, 2)]).VertexKick
        GS_REG_XYZ2 3).m_primitiveMode = 0x20B :=
  ⟨by decide,
    ((mode_latched_at_completion (writeRegisters CGSH_Vulkan.primControlled
      [(GS_REG_PRIM, 0x20B), (GS_REG_XYZ2, 1), (GS_REG_XYZ2, 2)]) GS_REG_XYZ2 3).1
        (by decide)).1.trans (by decide)⟩

/-- C25: a kick accepted with counter n > 0 stores in scratch slot n - 1 the
latched RGBAQ, UV and ST register values; for the fogged registers (XYZF2,
XYZF3) the stored position is the payload with its top 8 bits cleared and
the stored fog is the top byte of the payload, for the other registers the
stored position is the payload and the stored fog is the top byte of the FOG
register. The counter becomes n - 1, and is then re-armed according to the
primitive type if that is zero. -/
theorem kick_latches_vertex (s : CGSH_Vulkan) (registerId data : Nat)
    (hn : 0 < s.m_vtxCount) :
    (s.VertexKick registerId data).m_vtxBuffer (s.m_vtxCount - 1) =
      { position :=
          if registerId = GS_REG_XYZF2 ∨ registerId = GS_REG_XYZF3 then
            data &&& 0x00FFFFFFFFFFFFFF
          else data
        rgbaq := s.m_nReg GS_REG_RGBAQ
        uv := s.m_nReg GS_REG_UV
        st := s.m_nReg GS_REG_ST
        fog :=
          if registerId = GS_REG_XYZF2 ∨ registerId = GS_REG_XYZF3 then (data >>> 56) % 256
          else (s.m_nReg GS_REG_FOG >>> 56) % 256 } ∧
    (s.VertexKick registerId data).m_vtxCount =
      (if s.m_vtxCount - 1 = 0 then rearmedCount s.m_primitiveType else s.m_vtxCount - 1) ∧
    (data < 2 ^ 64 → (data >>> 56) % 256 = data >>> 56) := by
  have hkv : CGSH_Vulkan.kickVertex s.m_nReg registerId data =
      { position :=
          if registerId = GS_REG_XYZF2 ∨ registerId = GS_REG_XYZF3 then
            data &&& 0x00FFFFFFFFFFFFFF
          else data
        rgbaq := s.m_nReg GS_REG_RGBAQ
        uv := s.m_nReg GS_REG_UV
        st := s.m_nReg GS_REG_ST
        fog :=
          if registerId = GS_REG_XYZF2 ∨ registerId = GS_REG_XYZF3 then (data >>> 56) % 256
          else (s.m_nReg GS_REG_FOG >>> 56) % 256 } := by
    unfold CGSH_Vulkan.kickVertex
    by_cases hf : registerId = GS_REG_XYZF2 ∨ registerId = GS_REG_XYZF3
    · have hb : ((registerId == GS_REG_XYZF2) || (registerId == GS_REG_XYZF3)) = true := by
        simpa using hf
      simp only [hb, if_true, if_pos hf]
    · have hb : ((registerId == GS_REG_XYZF2) || (registerId == GS_REG_XYZF3)) = false := by
        simpa using hf
      simp only [hb, if_neg hf, Bool.false_eq_true, if_false]
  refine ⟨?_, ?_, ?_⟩
  · rw [← hkv]
    by_cases hc : s.m_vtxCount = 1
    · rw [VertexKick_complete s registerId data hc, hc]
      show shiftedScratch _ _ 0 = _
      unfold shiftedScratch
      split_ifs <;> simp [Function.update]
    · rw [VertexKick_pending s registerId data (by omega)]
      simp
  · by_cases hc : s.m_vtxCount = 1
    · rw [VertexKick_complete s registerId data hc, hc]
      rfl
    · rw [VertexKick_pending s registerId data (by omega)]
      show s.m_vtxCount - 1 = _
      rw [if_neg (by omega)]
  · intro hd
    apply Nat.mod_eq_of_lt
    rw [Nat.shiftRight_eq_div_pow]
    have : data / 2 ^ 56 < 2 ^ 8 := by
      apply Nat.div_lt_of_lt_mul
      calc data < 2 ^ 64 := hd
        _ = 2 ^ 56 * 2 ^ 8 := by norm_num
    simpa using this

/-- Instance of C25: an XYZF2 kick with payload 0xAB00000000000123 at
counter 3 after a PRIM write for a triangle list. -/
theorem kick_latches_vertex_witness :
    ((CGSH_Vulkan.primControlled.WriteRegisterImpl GS_REG_PRIM 0x20B).VertexKick GS_REG_XYZF2
        0xAB00000000000123).m_vtxBuffer 2 =
      { position := 0x123, rgbaq := 0, uv := 0, st := 0, fog := 0xAB } ∧
    ((CGSH_Vulkan.primControlled.WriteRegisterImpl GS_REG_PRIM 0x20B).VertexKick GS_REG_XYZF2
        0xAB00000000000123).m_vtxCount = 2 :=
  ⟨(kick_latches_vertex (CGSH_Vulkan.primControlled.WriteRegisterImpl GS_REG_PRIM 0x20B)
      GS_REG_XYZF2 0xAB00000000000123 (by decide)).1.trans (by decide),
    (kick_latches_vertex (CGSH_Vulkan.primControlled.WriteRegisterImpl GS_REG_PRIM 0x20B)
      GS_REG_XYZF2 0xAB00000000000123 (by decide)).2.1.trans (by decide)⟩


/-- C27: for the triangle, strip and fan types a completing kick calls
`Prim_Triangle` (one triangle appended) and re-binds the X/Y offset if and
only if its own register is XYZ2 or XYZF2 and drawing is enabled; the
scratch-buffer shifts and the counter reset are the same for drawing and
non-drawing completions. The registers of the two earlier kicks of a
triangle play no part. -/
theorem emission_depends_on_completing_kick (s : CGSH_Vulkan) (registerId data : Nat)
    (hc : s.m_vtxCount = 1) (ht : isTriangleType s.m_primitiveType = true) :
    s.kickDraws registerId =
      (s.m_drawEnabled && ((registerId == GS_REG_XYZ2) || (registerId == GS_REG_XYZF2))) ∧
    (s.VertexKick registerId data).m_draw.addLog =
      (if s.kickDraws registerId then
        s.m_draw.addLog ++ [triangleOfVertices s.m_nReg (s.m_vtxBuffer 2) (s.m_vtxBuffer 1)
          (CGSH_Vulkan.kickVertex s.m_nReg registerId data)]
      else s.m_draw.addLog) ∧
    (s.kickDraws registerId = false → (s.VertexKick registerId data).m_draw = s.m_draw) ∧
    (s.VertexKick registerId data).m_primOfsX =
      (if s.kickDraws registerId then boundOfsX s.m_nReg else s.m_primOfsX) ∧
    (s.VertexKick registerId data).m_primOfsY =
      (if s.kickDraws registerId then boundOfsY s.m_nReg else s.m_primOfsY) ∧
    (s.VertexKick registerId data).m_vtxBuffer =
      shiftedScratch s.m_primitiveType
        (Function.update s.m_vtxBuffer 0 (CGSH_Vulkan.kickVertex s.m_nReg registerId data)) ∧
    (s.VertexKick registerId data).m_vtxCount = rearmedCount s.m_primitiveType ∧
    (∀ (t : CGSH_Vulkan) (r1 d1 r2 d2 : Nat), t.m_vtxCount = 3 →
      s = (t.VertexKick r1 d1).VertexKick r2 d2 →
      (s.VertexKick registerId data).m_draw.addLog.length =
        t.m_draw.addLog.length + (if t.kickDraws registerId then 1 else 0)) := by
  have hfull := VertexKick_complete s registerId data hc
  refine ⟨rfl, ?_, ?_, ?_, ?_, ?_, ?_, ?_⟩
  · rw [hfull]
    simp only [ht, Bool.and_true]
    cases hk : s.kickDraws registerId
    · simp
    · simp only [if_true]
      rw [CDraw.AddVertices_addLog]
  · intro hk
    rw [hfull]
    simp only [hk, Bool.false_and, Bool.false_eq_true, if_false]
  · rw [hfull]
  · rw [hfull]
  · rw [hfull]
  · rw [hfull]
  · intro t r1 d1 r2 d2 h3 hs
    have e1 := VertexKick_pending t r1 d1 (by omega)
    have h2 : (t.VertexKick r1 d1).m_vtxCount = 2 := by
      rw [e1]
      show t.m_vtxCount - 1 = 2
      omega
    have e2 := VertexKick_pending (t.VertexKick r1 d1) r2 d2 (by omega)
    have hdraw : s.m_draw = t.m_draw := by rw [hs, e2, e1]
    have hen : s.m_drawEnabled = t.m_drawEnabled := by rw [hs, e2, e1]
    have hk : s.kickDraws registerId = t.kickDraws registerId := by
      unfold CGSH_Vulkan.kickDraws
      rw [hen]
    rw [hfull]
    simp only [ht, Bool.and_true, hk, hdraw]
    cases t.kickDraws registerId
    · simp
    · simp only [if_true]
      rw [CDraw.AddVertices_addLog]
      simp

/-- Instance of C27: a triangle whose first two vertices come through XYZ3
and whose last comes through XYZ2 is emitted; with the last through XYZ3 it
is not. -/
theorem emission_depends_on_completing_kick_witness :
    ((writeRegisters CGSH_Vulkan.primControlled
      [(GS_REG_PRIM, 0x20B), (GS_REG_XYZ3, 1), (GS_REG_XYZ3, 2)]).VertexKick
        GS_REG_XYZ2 3).m_draw.addLog.length = 1 ∧
    ((writeRegisters CGSH_Vulkan.primControlled
      [(GS_REG_PRIM, 0x20B), (GS_REG_XYZ2, 1), (GS_REG_XYZ2, 2)]).VertexKick
        GS_REG_XYZ3 3).m_draw.addLog.length = 0 :=
  ⟨(congrArg List.length (emission_depends_on_completing_kick
      (writeRegisters CGSH_Vulkan.primControlled
        [(GS_REG_PRIM, 0x20B), (GS_REG_XYZ3, 1), (GS_REG_XYZ3, 2)]) GS_REG_XYZ2 3
      (by decide) (by decide)).2.1).trans (by decide),
    (congrArg List.length (emission_depends_on_completing_kick
      (writeRegisters CGSH_Vulkan.primControlled
        [(GS_REG_PRIM, 0x20B), (GS_REG_XYZ2, 1), (GS_REG_XYZ2, 2)]) GS_REG_XYZ3 3
      (by decide) (by decide)).2.1).trans (by decide)⟩


/-! ### Primitive types without an emitter -/

/-- A PRIM write in full: the register is latched, the pending batch is
flushed when the type changes, the type is stored and the counter armed. -/
theorem WriteRegisterImpl_PRIM (s : CGSH_Vulkan) (data : Nat) :
    s.WriteRegisterImpl GS_REG_PRIM data =
      { s with
        m_nReg := Function.update s.m_nReg GS_REG_PRIM data
        m_draw := if data &&& 0x07 ≠ s.m_primitiveType then s.m_draw.FlushVertices else s.m_draw
        m_primitiveType := data &&& 0x07
        m_vtxCount := (armedCount (data &&& 0x07)).getD s.m_vtxCount } := by
  unfold CGSH_Vulkan.WriteRegisterImpl CGSH_Vulkan.CGSHandler_WriteRegisterImpl armedCount
  rw [if_pos rfl]
  simp only []
  by_cases hch : data &&& 0x07 ≠ s.m_primitiveType
  · simp only [if_pos hch]
    split_ifs <;> rfl
  · simp only [if_neg hch]
    split_ifs <;> rfl

/-- A register write other than PRIM, with a primitive type that is not a
triangle type: the batcher and the type are left alone, and the counter
goes down by one for a kick (staying at zero) and stays for any other
register. -/
theorem WriteRegisterImpl_no_emitter (t : CGSH_Vulkan) (registerId data : Nat)
    (hr : registerId ≠ GS_REG_PRIM) (hty : isTriangleType t.m_primitiveType = false) :
    (t.WriteRegisterImpl registerId data).m_draw = t.m_draw ∧
    (t.WriteRegisterImpl registerId data).m_primitiveType = t.m_primitiveType ∧
    (t.WriteRegisterImpl registerId data).m_vtxCount =
      t.m_vtxCount - (if isKickRegister registerId then 1 else 0) := by
  have hre : rearmedCount t.m_primitiveType = 0 := by
    unfold isTriangleType at hty
    simp only [Bool.or_eq_false_iff, beq_eq_false_iff_ne, ne_eq] at hty
    unfold rearmedCount
    rw [if_neg hty.1.1, if_neg (by rintro (h | h); exact hty.1.2 h; exact hty.2 h)]
  unfold CGSH_Vulkan.WriteRegisterImpl
  rw [if_neg hr]
  by_cases hk : registerId = GS_REG_XYZ2 ∨ registerId = GS_REG_XYZ3 ∨
      registerId = GS_REG_XYZF2 ∨ registerId = GS_REG_XYZF3
  · have hkb : isKickRegister registerId = true := by
      unfold isKickRegister
      rcases hk with h | h | h | h <;> simp [h]
    rw [if_pos hk, hkb, if_pos rfl]
    have hs0 : (t.CGSHandler_WriteRegisterImpl registerId data).m_vtxCount = t.m_vtxCount := rfl
    by_cases h0 : t.m_vtxCount = 0
    · rw [VertexKick_at_zero _ _ _ (hs0.trans h0)]
      exact ⟨rfl, rfl, by rw [hs0]; omega⟩
    · by_cases h1 : t.m_vtxCount = 1
      · rw [VertexKick_complete _ _ _ (hs0.trans h1)]
        refine ⟨?_, rfl, ?_⟩
        · show (if _ then _ else _) = _
          have : isTriangleType (t.CGSHandler_WriteRegisterImpl registerId data).m_primitiveType =
              false := hty
          rw [this]
          simp only [Bool.and_false, Bool.false_eq_true, if_false]
          rfl
        · show rearmedCount t.m_primitiveType = _
          rw [hre]
          omega
      · rw [VertexKick_pending _ _ _ (by rw [hs0]; omega)]
        exact ⟨rfl, rfl, rfl⟩
  · have hkb : isKickRegister registerId = false := by
      unfold isKickRegister
      simp only [not_or] at hk
      simp [hk.1, hk.2.1, hk.2.2.1, hk.2.2.2]
    rw [if_neg hk, hkb]
    exact ⟨rfl, rfl, rfl⟩

/-- Register writes without a PRIM write, under a primitive type that is not
a triangle type: nothing reaches the batcher and the counter goes down by the
number of kicks, stopping at zero. -/
theorem writeRegisters_no_emitter (ws : List (Nat × Nat)) (t : CGSH_Vulkan)
    (hws : ∀ w ∈ ws, w.1 ≠ GS_REG_PRIM) (hty : isTriangleType t.m_primitiveType = false) :
    (writeRegisters t ws).m_draw = t.m_draw ∧
    (writeRegisters t ws).m_primitiveType = t.m_primitiveType ∧
    (writeRegisters t ws).m_vtxCount = t.m_vtxCount - kickCount ws := by
  induction ws generalizing t with
  | nil => exact ⟨rfl, rfl, rfl⟩
  | cons w ws ih =>
    obtain ⟨h1, h2, h3⟩ := WriteRegisterImpl_no_emitter t w.1 w.2
      (hws w (List.mem_cons_self _ _)) hty
    obtain ⟨i1, i2, i3⟩ := ih (t.WriteRegisterImpl w.1 w.2)
      (fun x hx => hws x (List.mem_cons_of_mem _ hx)) (by rw [h2]; exact hty)
    have hrun : writeRegisters t (w :: ws) = writeRegisters (t.WriteRegisterImpl w.1 w.2) ws := rfl
    rw [hrun]
    refine ⟨i1.trans h1, i2.trans h2, ?_⟩
    rw [i3, h3]
    unfold kickCount
    rw [List.filter_cons]
    cases hk : isKickRegister w.1
    · simp
    · simp only [if_true, List.length_cons]
      omega

/-- C28: a PRIM write stores the type `data & 7`, arms the counter for the
types 0..6 whatever its previous value (1 for points, 2 for lines, line
strips and sprites, 3 for the triangle types) and flushes the pending batch
if and only if the type changed. For points, lines, line strips and sprites
no triangle is ever emitted: through any register writes up to the next PRIM
write the batcher is left alone and the counter goes down by one per kick
until it is zero, where it stays, every further kick being ignored. -/
theorem no_emitter_for_points_lines_sprites (s : CGSH_Vulkan) (data : Nat)
    (ws : List (Nat × Nat)) (hws : ∀ w ∈ ws, w.1 ≠ GS_REG_PRIM) :
    (s.WriteRegisterImpl GS_REG_PRIM data).m_primitiveType = data &&& 0x07 ∧
    (s.WriteRegisterImpl GS_REG_PRIM data).m_vtxCount =
      (armedCount (data &&& 0x07)).getD s.m_vtxCount ∧
    (s.WriteRegisterImpl GS_REG_PRIM data).m_draw =
      (if data &&& 0x07 ≠ s.m_primitiveType then s.m_draw.FlushVertices else s.m_draw) ∧
    (armedCount PRIM_POINT = some 1 ∧ armedCount PRIM_LINE = some 2 ∧
      armedCount PRIM_LINESTRIP = some 2 ∧ armedCount PRIM_TRIANGLE = some 3 ∧
      armedCount PRIM_TRIANGLESTRIP = some 3 ∧ armedCount PRIM_TRIANGLEFAN = some 3 ∧
      armedCount PRIM_SPRITE = some 2 ∧ armedCount PRIM_INVALID = none) ∧
    (data &&& 0x07 = PRIM_POINT ∨ data &&& 0x07 = PRIM_LINE ∨ data &&& 0x07 = PRIM_LINESTRIP ∨
        data &&& 0x07 = PRIM_SPRITE →
      (writeRegisters (s.WriteRegisterImpl GS_REG_PRIM data) ws).m_draw =
        (s.WriteRegisterImpl GS_REG_PRIM data).m_draw ∧
      (writeRegisters (s.WriteRegisterImpl GS_REG_PRIM data) ws).m_draw.addLog = s.m_draw.addLog ∧
      (writeRegisters (s.WriteRegisterImpl GS_REG_PRIM data) ws).m_vtxCount =
        (s.WriteRegisterImpl GS_REG_PRIM data).m_vtxCount - kickCount ws) := by
  have hP := WriteRegisterImpl_PRIM s data
  refine ⟨by rw [hP], by rw [hP], by rw [hP], by decide, ?_⟩
  intro hty
  have hnt : isTriangleType (s.WriteRegisterImpl GS_REG_PRIM data).m_primitiveType = false := by
    rw [hP]
    show isTriangleType (data &&& 0x07) = false
    rcases hty with h | h | h | h <;> rw [h] <;> decide
  obtain ⟨h1, -, h3⟩ := writeRegisters_no_emitter ws _ hws hnt
  refine ⟨h1, ?_, h3⟩
  rw [h1, hP]
  show (if _ then _ else _ : CDraw).addLog = _
  split_ifs
  · exact CDraw.FlushVertices_addLog _
  · rfl

/-- Instance of C28: a sprite selected at the reset state, then four kicks
with a colour write in between: nothing is appended, the counter is down to
zero after two kicks and stays there. -/
theorem no_emitter_for_points_lines_sprites_witness :
    (CGSH_Vulkan.primControlled.WriteRegisterImpl GS_REG_PRIM PRIM_SPRITE).m_vtxCount = 2 ∧
    (writeRegisters (CGSH_Vulkan.primControlled.WriteRegisterImpl GS_REG_PRIM PRIM_SPRITE)
      [(GS_REG_XYZ2, 1), (GS_REG_RGBAQ, 5), (GS_REG_XYZ2, 2), (GS_REG_XYZF2, 3),
        (GS_REG_XYZ2, 4)]).m_draw.addLog = [] ∧
    (writeRegisters (CGSH_Vulkan.primControlled.WriteRegisterImpl GS_REG_PRIM PRIM_SPRITE)
      [(GS_REG_XYZ2, 1), (GS_REG_RGBAQ, 5), (GS_REG_XYZ2, 2), (GS_REG_XYZF2, 3),
        (GS_REG_XYZ2, 4)]).m_vtxCount = 0 :=
  ⟨(no_emitter_for_points_lines_sprites CGSH_Vulkan.primControlled PRIM_SPRITE
      [(GS_REG_XYZ2, 1), (GS_REG_RGBAQ, 5), (GS_REG_XYZ2, 2), (GS_REG_XYZF2, 3),
        (GS_REG_XYZ2, 4)] (by decide)).2.1.trans (by decide),
    ((no_emitter_for_points_lines_sprites CGSH_Vulkan.primControlled PRIM_SPRITE
      [(GS_REG_XYZ2, 1), (GS_REG_RGBAQ, 5), (GS_REG_XYZ2, 2), (GS_REG_XYZF2, 3),
        (GS_REG_XYZ2, 4)] (by decide)).2.2.2.2 (by decide)).2.1.trans (by decide),
    ((no_emitter_for_points_lines_sprites CGSH_Vulkan.primControlled PRIM_SPRITE
      [(GS_REG_XYZ2, 1), (GS_REG_RGBAQ, 5), (GS_REG_XYZ2, 2), (GS_REG_XYZF2, 3),
        (GS_REG_XYZ2, 4)] (by decide)).2.2.2.2 (by decide)).2.2.trans (by decide)⟩


/-! ### Descriptor sets -/

/-- `PrepareDescriptorSet` on a hit: the cached set, state unchanged. -/
theorem CDraw.PrepareDescriptorSet_hit (d : CDraw) (caps : DESCRIPTORSET_CAPS) (set : Nat)
    (h : lookupDescriptorSet d.m_descriptorSetCache caps = some set) :
    d.PrepareDescriptorSet caps = (d, set) := by
  unfold lookupDescriptorSet at h
  unfold CDraw.PrepareDescriptorSet
  cases hf : d.m_descriptorSetCache.find? (fun e => e.1 == caps) with
  | none => rw [hf] at h; simp at h
  | some e =>
    rw [hf] at h
    simp only [Option.map_some', Option.some.injEq] at h
    rw [← h]

/-- `PrepareDescriptorSet` on a miss: one set is allocated from the pool,
written at the binding slots of the caps, and cached. -/
theorem CDraw.PrepareDescriptorSet_miss (d : CDraw) (caps : DESCRIPTORSET_CAPS)
    (h : lookupDescriptorSet d.m_descriptorSetCache caps = none) :
    d.PrepareDescriptorSet caps =
      ({ d with
          m_context := { descriptorPoolAllocated := d.m_context.descriptorPoolAllocated + 1 }
          m_descriptorSetCache :=
            d.m_descriptorSetCache ++ [(caps, d.m_context.descriptorPoolAllocated + 1)]
          descriptorWrites := d.descriptorWrites ++
            [(d.m_context.descriptorPoolAllocated + 1, descriptorWriteBindings caps)]
          failedAsserts := d.failedAsserts ++
            ((if GetSwizzleTable_supported caps.textureFormat then []
              else [Assertion.swizzleTableFormat]) ++
             (if GetSwizzleTable_supported caps.framebufferFormat then []
              else [Assertion.swizzleTableFormat])) },
        d.m_context.descriptorPoolAllocated + 1) := by
  unfold lookupDescriptorSet at h
  unfold CDraw.PrepareDescriptorSet
  cases hf : d.m_descriptorSetCache.find? (fun e => e.1 == caps) with
  | some e => rw [hf] at h; simp at h
  | none =>
    simp only [CDraw.check_eq, List.append_assoc]

/-- Descriptor part of a flush of a non-empty window, on a hit: no
allocation, no write, and the draw is recorded with the cached set. -/
theorem CDraw.FlushVertices_descriptor_hit (d : CDraw) (hv : d.vertexCount ≠ 0) (set : Nat)
    (h : lookupDescriptorSet d.m_descriptorSetCache (descriptorSetCapsOf d.m_pipelineCaps) =
      some set) :
    d.FlushVertices.m_descriptorSetCache = d.m_descriptorSetCache ∧
    d.FlushVertices.m_context = d.m_context ∧
    d.FlushVertices.descriptorWrites = d.descriptorWrites ∧
    ∃ call, d.FlushVertices.draws = d.draws ++ [call] ∧ call.descriptorSet = set ∧
      call.pipelineCaps = d.m_pipelineCaps := by
  unfold CDraw.FlushVertices
  rw [if_neg hv]
  simp only []
  have key := CDraw.PrepareDescriptorSet_hit
    ({ d with m_pipelineCache :=
      match TryGetPipeline d.m_pipelineCache d.m_pipelineCaps with
      | some _ => d.m_pipelineCache
      | none => (RegisterPipeline d.m_pipelineCache d.m_pipelineCaps
          (CreateDrawPipeline d.m_pipelineCaps)).1 } : CDraw)
    { hasTexture := PIPELINE_CAPS_hasTexture d.m_pipelineCaps
      framebufferFormat := PIPELINE_CAPS_framebufferFormat d.m_pipelineCaps
      depthbufferFormat := PIPELINE_CAPS_depthbufferFormat d.m_pipelineCaps
      textureFormat := PIPELINE_CAPS_textureFormat d.m_pipelineCaps } set h
  rw [key, CDraw.check_eq]
  exact ⟨rfl, rfl, rfl, _, rfl, rfl, rfl⟩

/-- Descriptor part of a flush of a non-empty window, on a miss: one set is
allocated, written at the binding slots of the derived caps and cached, and
the draw is recorded with it. -/
theorem CDraw.FlushVertices_descriptor_miss (d : CDraw) (hv : d.vertexCount ≠ 0)
    (h : lookupDescriptorSet d.m_descriptorSetCache (descriptorSetCapsOf d.m_pipelineCaps) =
      none) :
    d.FlushVertices.m_descriptorSetCache = d.m_descriptorSetCache ++
      [(descriptorSetCapsOf d.m_pipelineCaps, d.m_context.descriptorPoolAllocated + 1)] ∧
    d.FlushVertices.m_context.descriptorPoolAllocated =
      d.m_context.descriptorPoolAllocated + 1 ∧
    d.FlushVertices.descriptorWrites = d.descriptorWrites ++
      [(d.m_context.descriptorPoolAllocated + 1,
        descriptorWriteBindings (descriptorSetCapsOf d.m_pipelineCaps))] ∧
    ∃ call, d.FlushVertices.draws = d.draws ++ [call] ∧
      call.descriptorSet = d.m_context.descriptorPoolAllocated + 1 ∧
      call.pipelineCaps = d.m_pipelineCaps := by
  unfold CDraw.FlushVertices
  rw [if_neg hv]
  simp only []
  have key := CDraw.PrepareDescriptorSet_miss
    ({ d with m_pipelineCache :=
      match TryGetPipeline d.m_pipelineCache d.m_pipelineCaps with
      | some _ => d.m_pipelineCache
      | none => (RegisterPipeline d.m_pipelineCache d.m_pipelineCaps
          (CreateDrawPipeline d.m_pipelineCaps)).1 } : CDraw)
    { hasTexture := PIPELINE_CAPS_hasTexture d.m_pipelineCaps
      framebufferFormat := PIPELINE_CAPS_framebufferFormat d.m_pipelineCaps
      depthbufferFormat := PIPELINE_CAPS_depthbufferFormat d.m_pipelineCaps
      textureFormat := PIPELINE_CAPS_textureFormat d.m_pipelineCaps } h
  rw [key, CDraw.check_eq]
  exact ⟨rfl, rfl, rfl, _, rfl, rfl, rfl⟩


/-- A cached set stays the set found for its caps when entries are appended
to the cache. -/
theorem lookupDescriptorSet_append_some (cache later : List (DESCRIPTORSET_CAPS × Nat))
    (caps : DESCRIPTORSET_CAPS) (set : Nat) (h : lookupDescriptorSet cache caps = some set) :
    lookupDescriptorSet (cache ++ later) caps = some set := by
  unfold lookupDescriptorSet at *
  rw [List.find?_append]
  cases hf : cache.find? (fun e => e.1 == caps) with
  | none => rw [hf] at h; simp at h
  | some e => rw [hf] at h; simpa using h

/-- Lookup after an entry is appended to a cache that misses: the new entry
for its own caps, still a miss for other caps. -/
theorem lookupDescriptorSet_append_none (cache : List (DESCRIPTORSET_CAPS × Nat))
    (caps caps' : DESCRIPTORSET_CAPS) (set : Nat) (h : lookupDescriptorSet cache caps' = none) :
    lookupDescriptorSet (cache ++ [(caps, set)]) caps' =
      if caps = caps' then some set else none := by
  unfold lookupDescriptorSet at *
  rw [List.find?_append]
  cases hf : cache.find? (fun e => e.1 == caps') with
  | some e => rw [hf] at h; simp at h
  | none =>
    by_cases hc : caps = caps'
    · simp [hc]
    · simp [hc]

/-- A miss means that no entry has the caps. -/
theorem lookupDescriptorSet_eq_none (cache : List (DESCRIPTORSET_CAPS × Nat))
    (caps : DESCRIPTORSET_CAPS) :
    lookupDescriptorSet cache caps = none ↔ caps ∉ cache.map Prod.fst := by
  unfold lookupDescriptorSet
  simp only [Option.map_eq_none', List.find?_eq_none, List.mem_map, not_exists, not_and]
  constructor
  · intro h e he heq
    have := h e he
    simp [heq] at this
  · intro h e he
    have := h e he
    simpa using this

/-- A flush is a descriptor step. -/
theorem DescriptorStep_flush (d : CDraw) : DescriptorStep d d.FlushVertices := by
  by_cases hv : d.vertexCount = 0
  · rw [CDraw.FlushVertices_empty d hv]
    exact Or.inl ⟨rfl, rfl⟩
  · cases h : lookupDescriptorSet d.m_descriptorSetCache (descriptorSetCapsOf d.m_pipelineCaps) with
    | some set =>
      obtain ⟨h1, h2, -⟩ := CDraw.FlushVertices_descriptor_hit d hv set h
      exact Or.inl ⟨h1, h2⟩
    | none =>
      obtain ⟨h1, h2, -⟩ := CDraw.FlushVertices_descriptor_miss d hv h
      exact Or.inr ⟨_, h, h1, h2⟩

/-- Every batcher call is a descriptor step. -/
theorem DescriptorStep_CDraw_step (d : CDraw) (op : CDraw.Op) :
    DescriptorStep d (d.step op) := by
  have hf := DescriptorStep_flush d
  cases op with
  | addVertices vs =>
    show DescriptorStep _ ((d.AddVertices_reserve vs.length).AddVertices_copy vs)
    unfold CDraw.AddVertices_reserve CDraw.FrameCommandBuffer_Flush
      CDraw.PostFlushFrameCommandBuffer CDraw.PreFlushFrameCommandBuffer CDraw.AddVertices_copy
    simp only [CDraw.check_eq]
    split_ifs <;> first | exact Or.inl ⟨rfl, rfl⟩ | exact hf
  | setPipelineCaps a =>
    show DescriptorStep _ (d.SetPipelineCaps a)
    unfold CDraw.SetPipelineCaps
    simp only []
    split_ifs
    · exact Or.inl ⟨rfl, rfl⟩
    · exact hf
  | setFramebufferParams a b =>
    show DescriptorStep _ (d.SetFramebufferParams a b)
    unfold CDraw.SetFramebufferParams
    simp only []
    split_ifs
    · exact Or.inl ⟨rfl, rfl⟩
    · exact hf
  | setDepthbufferParams a b =>
    show DescriptorStep _ (d.SetDepthbufferParams a b)
    unfold CDraw.SetDepthbufferParams
    simp only []
    split_ifs
    · exact Or.inl ⟨rfl, rfl⟩
    · exact hf
  | setTextureParams a b c e =>
    show DescriptorStep _ (d.SetTextureParams a b c e)
    unfold CDraw.SetTextureParams
    simp only []
    split_ifs
    · exact Or.inl ⟨rfl, rfl⟩
    · exact hf
  | setScissor a b c e =>
    show DescriptorStep _ (d.SetScissor a b c e)
    unfold CDraw.SetScissor
    simp only []
    split_ifs
    · exact Or.inl ⟨rfl, rfl⟩
    · exact hf
  | flushVertices => exact hf
  | frameFlush => exact hf
  | preFlushFrameCommandBuffer => exact hf
  | postFlushFrameCommandBuffer => exact Or.inl ⟨rfl, rfl⟩

/-- Along a run of batcher calls the descriptor-set cache only grows at its
end. -/
theorem descriptorSetCache_run (ops : List CDraw.Op) :
    ∀ d : CDraw, ∃ later, (d.run ops).m_descriptorSetCache = d.m_descriptorSetCache ++ later := by
  induction ops with
  | nil => intro d; exact ⟨[], by simp [CDraw.run]⟩
  | cons op rest ih =>
    intro d
    obtain ⟨later, hl⟩ := ih (d.step op)
    have hrun : d.run (op :: rest) = (d.step op).run rest := rfl
    rw [hrun, hl]
    rcases DescriptorStep_CDraw_step d op with ⟨e, -⟩ | ⟨caps, -, e, -⟩
    · exact ⟨later, by rw [e]⟩
    · exact ⟨(caps, d.m_context.descriptorPoolAllocated + 1) :: later, by rw [e]; simp⟩

/-- The cache invariant is kept by every run of batcher calls. -/
theorem DescriptorCacheOk_run (ops : List CDraw.Op) :
    ∀ d : CDraw, DescriptorCacheOk d → DescriptorCacheOk (d.run ops) := by
  induction ops with
  | nil => intro d h; exact h
  | cons op rest ih =>
    intro d h
    apply ih (d.step op)
    obtain ⟨h1, h2, h3⟩ := h
    rcases DescriptorStep_CDraw_step d op with ⟨e, ec⟩ | ⟨caps, hm, e, ep⟩
    · unfold DescriptorCacheOk
      rw [e, ec]
      exact ⟨h1, h2, h3⟩
    · unfold DescriptorCacheOk
      rw [e, ep]
      refine ⟨?_, ?_, ?_⟩
      · rw [List.map_append, List.nodup_append]
        refine ⟨h1, by simp, ?_⟩
        intro a ha hb
        simp only [List.map_cons, List.map_nil, List.mem_singleton] at hb
        rw [hb] at ha
        exact (lookupDescriptorSet_eq_none _ _).mp hm ha
      · intro x hx
        rw [List.mem_append, List.mem_singleton] at hx
        rcases hx with hx | hx
        · have := h2 x hx
          omega
        · rw [hx]
          simp
      · rw [List.map_append, List.nodup_append]
        refine ⟨h3, by simp, ?_⟩
        intro a ha hb
        simp only [List.map_cons, List.map_nil, List.mem_singleton] at hb
        rw [List.mem_map] at ha
        obtain ⟨x, hx, hxa⟩ := ha
        have := h2 x hx
        omega


/-- Lookup of other caps is not affected by an appended entry. -/
theorem lookupDescriptorSet_append_ne (cache : List (DESCRIPTORSET_CAPS × Nat))
    (caps caps' : DESCRIPTORSET_CAPS) (set : Nat) (hne : caps' ≠ caps) :
    lookupDescriptorSet (cache ++ [(caps, set)]) caps' = lookupDescriptorSet cache caps' := by
  unfold lookupDescriptorSet
  rw [List.find?_append]
  cases hf : cache.find? (fun e => e.1 == caps') with
  | some e => simp
  | none =>
    have : (caps == caps') = false := by
      simp only [beq_eq_false_iff_ne, ne_eq]
      exact fun h => hne h.symm
    simp [List.find?, this]

/-- C23: two flushes of one frame whose capability keys agree on the
texture-enabled flag, texture format, frame-buffer format and depth-buffer
format are recorded with the same descriptor set, whatever the other fields
of the keys and whatever batcher calls lie between them: the later flush
finds the set in the cache and allocates nothing. When the caps of the first
flush are not cached, that flush allocates one set from the pool and inserts
it. Caps that differ in one of the four fields are served by other entries:
the entry of the first flush does not change what is found for them, and
along every run of batcher calls from the initial state no caps have two
entries and no set is cached twice. -/
theorem descriptor_set_reuse (d : CDraw) (ops : List CDraw.Op)
    (hv : d.vertexCount ≠ 0) (hv2 : (d.FlushVertices.run ops).vertexCount ≠ 0)
    (hagree : descriptorSetCapsOf (d.FlushVertices.run ops).m_pipelineCaps =
      descriptorSetCapsOf d.m_pipelineCaps) :
    ((d.FlushVertices.run ops).FlushVertices.m_context = (d.FlushVertices.run ops).m_context ∧
      (d.FlushVertices.run ops).FlushVertices.m_descriptorSetCache =
        (d.FlushVertices.run ops).m_descriptorSetCache ∧
      (d.FlushVertices.run ops).FlushVertices.descriptorWrites =
        (d.FlushVertices.run ops).descriptorWrites) ∧
    (∃ c1 c2, d.FlushVertices.draws = d.draws ++ [c1] ∧
      (d.FlushVertices.run ops).FlushVertices.draws = (d.FlushVertices.run ops).draws ++ [c2] ∧
      c1.pipelineCaps = d.m_pipelineCaps ∧
      c2.pipelineCaps = (d.FlushVertices.run ops).m_pipelineCaps ∧
      c2.descriptorSet = c1.descriptorSet ∧
      lookupDescriptorSet d.FlushVertices.m_descriptorSetCache
        (descriptorSetCapsOf d.m_pipelineCaps) = some c1.descriptorSet ∧
      (lookupDescriptorSet d.m_descriptorSetCache (descriptorSetCapsOf d.m_pipelineCaps) = none →
        c1.descriptorSet = d.m_context.descriptorPoolAllocated + 1 ∧
        d.FlushVertices.m_context.descriptorPoolAllocated =
          d.m_context.descriptorPoolAllocated + 1 ∧
        d.FlushVertices.m_descriptorSetCache = d.m_descriptorSetCache ++
          [(descriptorSetCapsOf d.m_pipelineCaps, d.m_context.descriptorPoolAllocated + 1)])) ∧
    (∀ caps, caps ≠ descriptorSetCapsOf d.m_pipelineCaps →
      lookupDescriptorSet d.FlushVertices.m_descriptorSetCache caps =
        lookupDescriptorSet d.m_descriptorSetCache caps) ∧
    (∀ k1 k2 : Nat, descriptorSetCapsOf k1 = descriptorSetCapsOf k2 ↔
      (PIPELINE_CAPS_hasTexture k1 = PIPELINE_CAPS_hasTexture k2 ∧
        PIPELINE_CAPS_textureFormat k1 = PIPELINE_CAPS_textureFormat k2 ∧
        PIPELINE_CAPS_framebufferFormat k1 = PIPELINE_CAPS_framebufferFormat k2 ∧
        PIPELINE_CAPS_depthbufferFormat k1 = PIPELINE_CAPS_depthbufferFormat k2)) ∧
    (∀ ops0 : List CDraw.Op, DescriptorCacheOk (CDraw.init.run ops0)) := by
  -- what the first flush leaves in the cache
  have hfirst : ∃ c1, d.FlushVertices.draws = d.draws ++ [c1] ∧
      c1.pipelineCaps = d.m_pipelineCaps ∧
      lookupDescriptorSet d.FlushVertices.m_descriptorSetCache
        (descriptorSetCapsOf d.m_pipelineCaps) = some c1.descriptorSet ∧
      (lookupDescriptorSet d.m_descriptorSetCache (descriptorSetCapsOf d.m_pipelineCaps) = none →
        c1.descriptorSet = d.m_context.descriptorPoolAllocated + 1 ∧
        d.FlushVertices.m_context.descriptorPoolAllocated =
          d.m_context.descriptorPoolAllocated + 1 ∧
        d.FlushVertices.m_descriptorSetCache = d.m_descriptorSetCache ++
          [(descriptorSetCapsOf d.m_pipelineCaps, d.m_context.descriptorPoolAllocated + 1)]) := by
    cases h : lookupDescriptorSet d.m_descriptorSetCache (descriptorSetCapsOf d.m_pipelineCaps) with
    | some set =>
      obtain ⟨h1, -, -, c1, hc1, hs1, hp1⟩ := CDraw.FlushVertices_descriptor_hit d hv set h
      refine ⟨c1, hc1, hp1, ?_, ?_⟩
      · rw [h1, hs1, h]
      · intro hn
        simp at hn
    | none =>
      obtain ⟨h1, h2, -, c1, hc1, hs1, hp1⟩ := CDraw.FlushVertices_descriptor_miss d hv h
      refine ⟨c1, hc1, hp1, ?_, ?_⟩
      · rw [h1, lookupDescriptorSet_append_none _ _ _ _ h, if_pos rfl, hs1]
      · intro _
        exact ⟨hs1, h2, h1⟩
  obtain ⟨c1, hc1, hp1, hl1, hm1⟩ := hfirst
  -- the entry survives the calls in between
  obtain ⟨later, hlater⟩ := descriptorSetCache_run ops d.FlushVertices
  have hl2 : lookupDescriptorSet (d.FlushVertices.run ops).m_descriptorSetCache
      (descriptorSetCapsOf (d.FlushVertices.run ops).m_pipelineCaps) = some c1.descriptorSet := by
    rw [hagree, hlater]
    exact lookupDescriptorSet_append_some _ _ _ _ hl1
  obtain ⟨g1, g2, g3, c2, hc2, hs2, hp2⟩ :=
    CDraw.FlushVertices_descriptor_hit (d.FlushVertices.run ops) hv2 c1.descriptorSet hl2
  refine ⟨⟨g2, g1, g3⟩, ⟨c1, c2, hc1, hc2, hp1, hp2, hs2, hl1, hm1⟩, ?_, ?_, ?_⟩
  · intro caps hne
    rcases DescriptorStep_flush d with ⟨e, -⟩ | ⟨caps0, hm, e, -⟩
    · rw [e]
    · cases h : lookupDescriptorSet d.m_descriptorSetCache (descriptorSetCapsOf d.m_pipelineCaps) with
      | some set =>
        obtain ⟨h1, -⟩ := CDraw.FlushVertices_descriptor_hit d hv set h
        rw [h1]
      | none =>
        obtain ⟨h1, -⟩ := CDraw.FlushVertices_descriptor_miss d hv h
        rw [h1]
        exact lookupDescriptorSet_append_ne _ _ _ _ hne
  · intro k1 k2
    unfold descriptorSetCapsOf
    constructor
    · intro h
      injection h with a b c e
      exact ⟨a, e, b, c⟩
    · rintro ⟨a, e, b, c⟩
      rw [a, e, b, c]
  · intro ops0
    apply DescriptorCacheOk_run
    unfold DescriptorCacheOk
    simp [CDraw.init]

set_option maxRecDepth 100000 in
/-- Instance of C23: a triangle flushed under key 0, then the key with
blending enabled and another triangle: the second flush allocates
nothing. -/
theorem descriptor_set_reuse_witness :
    (((CDraw.pendingWith 0).FlushVertices.run CDraw.blendedTriangleOps).FlushVertices.m_context =
        ((CDraw.pendingWith 0).FlushVertices.run CDraw.blendedTriangleOps).m_context ∧
      ((CDraw.pendingWith 0).FlushVertices.run CDraw.blendedTriangleOps).FlushVertices.m_descriptorSetCache =
        ((CDraw.pendingWith 0).FlushVertices.run CDraw.blendedTriangleOps).m_descriptorSetCache ∧
      ((CDraw.pendingWith 0).FlushVertices.run CDraw.blendedTriangleOps).FlushVertices.descriptorWrites =
        ((CDraw.pendingWith 0).FlushVertices.run CDraw.blendedTriangleOps).descriptorWrites) ∧
    ((CDraw.pendingWith 0).FlushVertices.run CDraw.blendedTriangleOps).m_pipelineCaps ≠
      (CDraw.pendingWith 0).m_pipelineCaps :=
  ⟨(descriptor_set_reuse (CDraw.pendingWith 0) CDraw.blendedTriangleOps
      (by decide) (by decide) (by decide)).1, by decide⟩

/-- C30: for every capability key the binding slots that
`PrepareDescriptorSet` writes for the derived `DESCRIPTORSET_CAPS` are the
binding slots that `CreateDrawPipeline` declares in the descriptor-set
layout for the key, in the same order: memory buffer and frame-buffer
swizzle table always, texture swizzle table if and only if hasTexture,
palette image if and only if hasTexture and the texture format is indexed.
A flush that allocates a descriptor set writes exactly these slots. -/
theorem descriptor_writes_match_layout (caps : Nat) :
    CDraw.descriptorWriteBindings (descriptorSetCapsOf caps) =
      (CreateDrawPipeline caps).setLayoutBindings ∧
    (∀ b, b ∈ (CreateDrawPipeline caps).setLayoutBindings ↔
      (b = DESCRIPTOR_LOCATION_BUFFER_MEMORY ∨ b = DESCRIPTOR_LOCATION_IMAGE_SWIZZLETABLE_FB ∨
        (PIPELINE_CAPS_hasTexture caps ≠ 0 ∧ b = DESCRIPTOR_LOCATION_IMAGE_SWIZZLETABLE_TEX) ∨
        (PIPELINE_CAPS_hasTexture caps ≠ 0 ∧
          IsPsmIDTEX (PIPELINE_CAPS_textureFormat caps) = true ∧
          b = DESCRIPTOR_LOCATION_IMAGE_CLUT))) ∧
    (∀ d : CDraw, d.m_pipelineCaps = caps → d.vertexCount ≠ 0 →
      lookupDescriptorSet d.m_descriptorSetCache (descriptorSetCapsOf caps) = none →
      d.FlushVertices.descriptorWrites = d.descriptorWrites ++
        [(d.m_context.descriptorPoolAllocated + 1, (CreateDrawPipeline caps).setLayoutBindings)]) := by
  have h1 : CDraw.descriptorWriteBindings (descriptorSetCapsOf caps) =
      (CreateDrawPipeline caps).setLayoutBindings := by
    unfold CDraw.descriptorWriteBindings descriptorSetCapsOf CreateDrawPipeline
    simp only []
  refine ⟨h1, ?_, ?_⟩
  · intro b
    unfold CreateDrawPipeline
    simp only []
    by_cases ht : PIPELINE_CAPS_hasTexture caps ≠ 0
    · by_cases hi : IsPsmIDTEX (PIPELINE_CAPS_textureFormat caps) = true
      · simp [ht, hi]
      · simp [ht, hi]
    · simp [ht]
  · intro d hk hv hm
    rw [← hk] at hm
    obtain ⟨-, -, hw, -⟩ := CDraw.FlushVertices_descriptor_miss d hv hm
    rw [hw, hk, h1]

/-- Instance of C30: an untextured key, a textured key with a direct-colour
format and a textured key with the indexed format PSMT8 (key bits: texture
flag, then the format from bit 1). -/
theorem descriptor_writes_match_layout_witness :
    (CreateDrawPipeline 0).setLayoutBindings = [0, 3] ∧
    CDraw.descriptorWriteBindings (descriptorSetCapsOf 0) = [0, 3] ∧
    CDraw.descriptorWriteBindings (descriptorSetCapsOf 1) = [0, 3, 2] ∧
    CDraw.descriptorWriteBindings (descriptorSetCapsOf (1 + PSMT8 * 2)) = [0, 3, 2, 1] ∧
    CDraw.descriptorWriteBindings (descriptorSetCapsOf (1 + PSMT8 * 2)) =
      (CreateDrawPipeline (1 + PSMT8 * 2)).setLayoutBindings :=
  ⟨by decide, by decide, by decide, by decide, (descriptor_writes_match_layout (1 + PSMT8 * 2)).1⟩


/-! ### Coverage of the appended vertices -/

/-- No slots, no content. -/
theorem slotsOf_zero (buf : Nat → PRIM_VERTEX) (a : Nat) : slotsOf buf a 0 = [] := rfl

/-- Number of slots read. -/
theorem slotsOf_length (buf : Nat → PRIM_VERTEX) (a n : Nat) : (slotsOf buf a n).length = n := by
  simp [slotsOf]

/-- Content of adjacent slot ranges. -/
theorem slotsOf_add (buf : Nat → PRIM_VERTEX) (a n m : Nat) :
    slotsOf buf a (n + m) = slotsOf buf a n ++ slotsOf buf (a + n) m := by
  unfold slotsOf
  rw [List.range_add, List.map_append, List.map_map]
  congr 1
  apply List.map_congr_left
  intro i _
  simp [Nat.add_assoc]

/-- Slot content depends only on the slots read. -/
theorem slotsOf_congr (buf buf1 : Nat → PRIM_VERTEX) (a n : Nat)
    (h : ∀ i, a ≤ i → i < a + n → buf1 i = buf i) : slotsOf buf1 a n = slotsOf buf a n := by
  unfold slotsOf
  apply List.map_congr_left
  intro i hi
  rw [List.mem_range] at hi
  exact h (a + i) (by omega) (by omega)

/-- Slots written by a copy hold the copied vertices. -/
theorem slotsOf_copy (buf : Nat → PRIM_VERTEX) (e : Nat) (vs : List PRIM_VERTEX) :
    slotsOf (fun i => if e ≤ i ∧ i < e + vs.length then vs.getD (i - e) ⟨0, 0, 0, 0, 0, 0, 0⟩
      else buf i) e vs.length = vs := by
  apply List.ext_getElem
  · simp [slotsOf]
  · intro i h1 h2
    simp only [slotsOf, List.getElem_map, List.getElem_range]
    rw [if_pos ⟨by omega, by omega⟩]
    have : e + i - e = i := by omega
    rw [this, List.getD_eq_getElem _ _ h2]


/-- A call that records no draw and is no frame flush leaves the history
as it is. -/
theorem Coverage.record_none (g : Coverage) (d d1 : CDraw) (hd : d1.draws = d.draws)
    (hf : d1.frameFlushCount = d.frameFlushCount) : g.record d d1 = g := by
  unfold Coverage.record
  simp [hd, hf]

/-- History after a call that records one draw and is no frame flush. -/
theorem Coverage.record_one (g : Coverage) (d d1 : CDraw) (call : DrawCall)
    (hd : d1.draws = d.draws ++ [call]) (hf : d1.frameFlushCount = d.frameFlushCount) :
    g.record d d1 =
      { covered := g.covered ++ call.reads d.m_vertexBuffer
        inFlight := g.inFlight ++ [(call, call.reads d.m_vertexBuffer)] } := by
  unfold Coverage.record
  simp [hd, hf]

/-- The history after a call depends on the state after the call only
through the draws and the count of frame flushes. -/
theorem Coverage.record_congr (g : Coverage) (d d1 d2 : CDraw) (hd : d2.draws = d1.draws)
    (hf : d2.frameFlushCount = d1.frameFlushCount) : g.record d d2 = g.record d d1 := by
  unfold Coverage.record
  rw [hd, hf]

/-- The coverage invariant depends on the state only through the buffer,
the window and the histories. -/
theorem CoverOk_congr (d d1 : CDraw) (g : Coverage) (h : CoverOk d g) (hs : SameBatch d d1) :
    CoverOk d1 g := by
  obtain ⟨hb, h1, h2, -, h5, -⟩ := hs
  unfold CoverOk CDraw.pending at *
  rw [hb, h1, h2, h5]
  exact h

/-- First slot of a draw recorded for a window. -/
theorem firstVertex_of_CoversWindow (d : CDraw) (call : DrawCall) (h : CoversWindow d call) :
    call.firstVertex = d.m_passVertexStart := by
  unfold DrawCall.firstVertex
  rw [h.2]
  exact Nat.mul_div_cancel _ (by decide)

/-- A draw recorded for the window of a state in range reads the pending
vertices. -/
theorem reads_of_CoversWindow (d : CDraw) (call : DrawCall) (h : CoversWindow d call)
    (hle : d.m_passVertexStart ≤ d.m_passVertexEnd) (hmax : d.m_passVertexEnd ≤ MAX_VERTEX_COUNT) :
    call.reads d.m_vertexBuffer = d.pending := by
  have hm : MAX_VERTEX_COUNT < 2 ^ 32 := by decide
  unfold DrawCall.reads CDraw.pending
  rw [firstVertex_of_CoversWindow d call h, h.1, CDraw.vertexCount_eq d hle (by omega)]

/-- Tiling extended by one more draw. -/
theorem Tiles_append (l : List (DrawCall × List PRIM_VERTEX)) (a b : Nat)
    (e : DrawCall × List PRIM_VERTEX) (h : Tiles a l b) (h1 : e.1.firstVertex = b)
    (h2 : e.1.vertexCount = e.2.length) : Tiles a (l ++ [e]) (b + e.2.length) := by
  induction l generalizing a with
  | nil =>
    simp only [Tiles] at h
    subst h
    exact ⟨h1, h2, rfl⟩
  | cons x rest ih =>
    obtain ⟨x1, x2, x3⟩ := h
    exact ⟨x1, x2, ih _ x3⟩

/-- Every draw of a tiling lies below the end of the tiling. -/
theorem Tiles_below (l : List (DrawCall × List PRIM_VERTEX)) (a b : Nat) (h : Tiles a l b) :
    a ≤ b ∧ ∀ e ∈ l, e.1.firstVertex + e.1.vertexCount ≤ b := by
  induction l generalizing a with
  | nil =>
    simp only [Tiles] at h
    subst h
    exact ⟨Nat.le_refl _, by simp⟩
  | cons x rest ih =>
    obtain ⟨x1, x2, x3⟩ := h
    obtain ⟨i1, i2⟩ := ih _ x3
    refine ⟨by omega, ?_⟩
    intro e he
    rw [List.mem_cons] at he
    rcases he with he | he
    · rw [he, x1, x2]
      exact i1
    · exact i2 e he

/-- A flush keeps the coverage invariant. -/
theorem CoverOk_flush (d : CDraw) (g : Coverage) (h : CoverOk d g) :
    CoverOk d.FlushVertices (g.record d d.FlushVertices) := by
  by_cases hv : d.vertexCount = 0
  · rw [CDraw.FlushVertices_empty d hv, Coverage.record_none g d d rfl rfl]
    exact h
  · obtain ⟨hle, hmax, hcov, htile, hkeep⟩ := h
    obtain ⟨call, hdraws, hcw, -, hstart⟩ := CDraw.FlushVertices_records d hv
    obtain ⟨-, hend, hbuf, hff⟩ := CDraw.FlushVertices_keeps d
    have hreads := reads_of_CoversWindow d call hcw hle hmax
    rw [Coverage.record_one g d _ call hdraws hff, hreads]
    have hplen : d.pending.length = d.m_passVertexEnd - d.m_passVertexStart := by
      unfold CDraw.pending
      exact slotsOf_length _ _ _
    refine ⟨by rw [hstart, hend], by rw [hend]; exact hmax, ?_, ?_, ?_⟩
    · show (g.covered ++ d.pending) ++ d.FlushVertices.pending = _
      have : d.FlushVertices.pending = [] := by
        unfold CDraw.pending
        rw [hstart, hend, Nat.sub_self]
        rfl
      rw [this, List.append_nil, hcov, CDraw.FlushVertices_addLog]
    · show Tiles 0 (g.inFlight ++ [(call, d.pending)]) d.FlushVertices.m_passVertexStart
      have ht := Tiles_append g.inFlight 0 d.m_passVertexStart (call, d.pending) htile
        (firstVertex_of_CoversWindow d call hcw)
        (by
          show call.vertexCount = d.pending.length
          have hm : MAX_VERTEX_COUNT < 2 ^ 32 := by decide
          rw [hplen, hcw.1, CDraw.vertexCount_eq d hle (by omega)])
      rw [hstart]
      have he : d.m_passVertexStart + (call, d.pending).2.length = d.m_passVertexEnd := by
        show d.m_passVertexStart + d.pending.length = _
        rw [hplen]
        omega
      rw [he] at ht
      exact ht
    · intro e he
      rw [hbuf]
      have he : e ∈ g.inFlight ++ [(call, d.pending)] := he
      rw [List.mem_append, List.mem_singleton] at he
      rcases he with he | he
      · exact hkeep e he
      · rw [he]
        exact hreads


/-- After a flush of a window in range nothing is pending. -/
theorem CDraw.FlushVertices_pending (d : CDraw) (hle : d.m_passVertexStart ≤ d.m_passVertexEnd)
    (hmax : d.m_passVertexEnd ≤ MAX_VERTEX_COUNT) :
    d.FlushVertices.m_passVertexStart = d.m_passVertexEnd ∧
      d.FlushVertices.m_passVertexEnd = d.m_passVertexEnd := by
  have hm : MAX_VERTEX_COUNT < 2 ^ 32 := by decide
  refine ⟨?_, (CDraw.FlushVertices_keeps d).2.1⟩
  by_cases hv : d.vertexCount = 0
  · rw [CDraw.FlushVertices_empty d hv]
    rw [CDraw.vertexCount_eq d hle (by omega)] at hv
    omega
  · obtain ⟨_, _, _, _, hstart⟩ := CDraw.FlushVertices_records d hv
    exact hstart

/-- A frame flush in full, as far as the batch is concerned. -/
theorem CDraw.FrameCommandBuffer_Flush_batch (d : CDraw) :
    d.FrameCommandBuffer_Flush.m_vertexBuffer = d.m_vertexBuffer ∧
    d.FrameCommandBuffer_Flush.m_passVertexStart = 0 ∧
    d.FrameCommandBuffer_Flush.m_passVertexEnd = 0 ∧
    d.FrameCommandBuffer_Flush.draws = d.FlushVertices.draws ∧
    d.FrameCommandBuffer_Flush.addLog = d.addLog ∧
    d.FrameCommandBuffer_Flush.frameFlushCount = d.frameFlushCount + 1 := by
  unfold CDraw.FrameCommandBuffer_Flush CDraw.PostFlushFrameCommandBuffer
    CDraw.PreFlushFrameCommandBuffer
  refine ⟨(CDraw.FlushVertices_keeps d).2.2.1, rfl, rfl, rfl, CDraw.FlushVertices_addLog d, ?_⟩
  show d.FlushVertices.frameFlushCount + 1 = _
  rw [(CDraw.FlushVertices_keeps d).2.2.2]

/-- A frame flush keeps the coverage invariant: what was pending is
covered by the draw of its flush, and no draw is in flight afterwards. -/
theorem CoverOk_frameFlush (d : CDraw) (g : Coverage) (h : CoverOk d g) :
    CoverOk d.FrameCommandBuffer_Flush (g.record d d.FrameCommandBuffer_Flush) := by
  obtain ⟨hb, hs, he, hd, ha, hf⟩ := CDraw.FrameCommandBuffer_Flush_batch d
  obtain ⟨f1, f2, f3, -, -⟩ := CoverOk_flush d g h
  obtain ⟨p1, p2⟩ := CDraw.FlushVertices_pending d h.1 h.2.1
  have hpn : d.FlushVertices.pending = [] := by
    unfold CDraw.pending
    rw [p1, p2, Nat.sub_self]
    rfl
  have hcov : (g.record d d.FrameCommandBuffer_Flush).covered =
      (g.record d d.FlushVertices).covered := by
    unfold Coverage.record
    simp only [hd]
  have hin : (g.record d d.FrameCommandBuffer_Flush).inFlight = [] := by
    unfold Coverage.record
    simp only [hf]
    rw [if_neg (by omega)]
  unfold CoverOk
  rw [hcov, hin, hs, he, ha]
  refine ⟨Nat.le_refl _, Nat.zero_le _, ?_, rfl, by simp⟩
  have : d.FrameCommandBuffer_Flush.pending = [] := by
    unfold CDraw.pending
    rw [hs, he]
    rfl
  rw [this, List.append_nil]
  rw [hpn, List.append_nil, CDraw.FlushVertices_addLog] at f3
  exact f3

/-- The copy of an append that fits keeps the coverage invariant: the
copied vertices become pending after those already pending, and no slot of a
draw in flight is written. -/
theorem CoverOk_copy (r : CDraw) (g : Coverage) (vs : List PRIM_VERTEX) (h : CoverOk r g)
    (hfit : r.m_passVertexEnd + vs.length ≤ MAX_VERTEX_COUNT) :
    CoverOk (r.AddVertices_copy vs) g := by
  obtain ⟨hle, hmax, hcov, htile, hkeep⟩ := h
  have hm : MAX_VERTEX_COUNT < 2 ^ 32 := by decide
  have hend : (r.AddVertices_copy vs).m_passVertexEnd = r.m_passVertexEnd + vs.length := by
    show (r.m_passVertexEnd + vs.length) % 2 ^ 32 = _
    exact Nat.mod_eq_of_lt (by omega)
  have hstart : (r.AddVertices_copy vs).m_passVertexStart = r.m_passVertexStart := rfl
  have hbelow : ∀ i, i < r.m_passVertexEnd →
      (r.AddVertices_copy vs).m_vertexBuffer i = r.m_vertexBuffer i := by
    intro i hi
    show (if r.m_passVertexEnd ≤ i ∧ i < r.m_passVertexEnd + vs.length then _ else _) = _
    rw [if_neg (by omega)]
  refine ⟨by rw [hstart, hend]; omega, by rw [hend]; exact hfit, ?_, htile, ?_⟩
  · have hp : (r.AddVertices_copy vs).pending = r.pending ++ vs := by
      unfold CDraw.pending
      rw [hstart, hend]
      have e1 : r.m_passVertexEnd + vs.length - r.m_passVertexStart =
          (r.m_passVertexEnd - r.m_passVertexStart) + vs.length := by omega
      rw [e1, slotsOf_add]
      congr 1
      · exact slotsOf_congr _ _ _ _ (fun i _ hi => hbelow i (by omega))
      · have e2 : r.m_passVertexStart + (r.m_passVertexEnd - r.m_passVertexStart) =
            r.m_passVertexEnd := by omega
        rw [e2]
        exact slotsOf_copy r.m_vertexBuffer r.m_passVertexEnd vs
    rw [hp, ← List.append_assoc, hcov]
    show _ = (r.addLog ++ [vs]).flatten
    simp
  · intro e he
    rw [← hkeep e he]
    unfold DrawCall.reads
    apply slotsOf_congr
    intro i _ hi
    apply hbelow
    have := (Tiles_below _ _ _ htile).2 e he
    omega

/-- An append of at most `MAX_VERTEX_COUNT` vertices keeps the coverage
invariant. -/
theorem CoverOk_AddVertices (d : CDraw) (g : Coverage) (vs : List PRIM_VERTEX) (h : CoverOk d g)
    (hn : vs.length ≤ MAX_VERTEX_COUNT) :
    CoverOk (d.AddVertices vs) (g.record d (d.AddVertices vs)) := by
  have hrec : g.record d (d.AddVertices vs) = g.record d (d.AddVertices_reserve vs.length) :=
    Coverage.record_congr g d _ _ rfl rfl
  rw [hrec]
  show CoverOk ((d.AddVertices_reserve vs.length).AddVertices_copy vs) _
  by_cases hover : d.m_passVertexEnd + vs.length > MAX_VERTEX_COUNT
  · have hsame : SameBatch d.FrameCommandBuffer_Flush (d.AddVertices_reserve vs.length) := by
      unfold CDraw.AddVertices_reserve
      rw [if_pos hover, CDraw.check_eq]
      exact ⟨rfl, rfl, rfl, rfl, rfl, rfl⟩
    have hr : g.record d (d.AddVertices_reserve vs.length) =
        g.record d d.FrameCommandBuffer_Flush :=
      Coverage.record_congr g d _ _ hsame.2.2.2.1 hsame.2.2.2.2.2
    rw [hr]
    have hk := CoverOk_congr _ _ _ (CoverOk_frameFlush d g h) hsame
    apply CoverOk_copy _ _ _ hk
    rw [hsame.2.2.1, (CDraw.FrameCommandBuffer_Flush_batch d).2.2.1]
    omega
  · have hres : d.AddVertices_reserve vs.length = d := by
      unfold CDraw.AddVertices_reserve
      rw [if_neg hover]
    rw [hres, Coverage.record_none g d d rfl rfl]
    exact CoverOk_copy d g vs h (by omega)

/-- Every state setter leaves the batch as it is or as its flush leaves
it. -/
theorem SameBatch_setters (d : CDraw) (a b c e : Nat) :
    (SameBatch d (d.SetPipelineCaps a) ∨ SameBatch d.FlushVertices (d.SetPipelineCaps a)) ∧
    (SameBatch d (d.SetFramebufferParams a b) ∨
      SameBatch d.FlushVertices (d.SetFramebufferParams a b)) ∧
    (SameBatch d (d.SetDepthbufferParams a b) ∨
      SameBatch d.FlushVertices (d.SetDepthbufferParams a b)) ∧
    (SameBatch d (d.SetTextureParams a b c e) ∨
      SameBatch d.FlushVertices (d.SetTextureParams a b c e)) ∧
    (SameBatch d (d.SetScissor a b c e) ∨ SameBatch d.FlushVertices (d.SetScissor a b c e)) := by
  refine ⟨?_, ?_, ?_, ?_, ?_⟩
  · unfold CDraw.SetPipelineCaps
    simp only []
    split_ifs
    · exact Or.inl ⟨rfl, rfl, rfl, rfl, rfl, rfl⟩
    · exact Or.inr ⟨rfl, rfl, rfl, rfl, rfl, rfl⟩
  · unfold CDraw.SetFramebufferParams
    simp only []
    split_ifs
    · exact Or.inl ⟨rfl, rfl, rfl, rfl, rfl, rfl⟩
    · exact Or.inr ⟨rfl, rfl, rfl, rfl, rfl, rfl⟩
  · unfold CDraw.SetDepthbufferParams
    simp only []
    split_ifs
    · exact Or.inl ⟨rfl, rfl, rfl, rfl, rfl, rfl⟩
    · exact Or.inr ⟨rfl, rfl, rfl, rfl, rfl, rfl⟩
  · unfold CDraw.SetTextureParams
    simp only []
    split_ifs
    · exact Or.inl ⟨rfl, rfl, rfl, rfl, rfl, rfl⟩
    · exact Or.inr ⟨rfl, rfl, rfl, rfl, rfl, rfl⟩
  · unfold CDraw.SetScissor
    simp only []
    split_ifs
    · exact Or.inl ⟨rfl, rfl, rfl, rfl, rfl, rfl⟩
    · exact Or.inr ⟨rfl, rfl, rfl, rfl, rfl, rfl⟩

/-- A call that leaves the batch as it is, or as its flush leaves it, keeps
the coverage invariant. -/
theorem CoverOk_of_SameBatch (d d1 : CDraw) (g : Coverage) (h : CoverOk d g)
    (hs : SameBatch d d1 ∨ SameBatch d.FlushVertices d1) : CoverOk d1 (g.record d d1) := by
  rcases hs with hs | hs
  · rw [Coverage.record_none g d d1 hs.2.2.2.1 hs.2.2.2.2.2]
    exact CoverOk_congr d d1 g h hs
  · rw [Coverage.record_congr g d _ _ hs.2.2.2.1 hs.2.2.2.2.2]
    exact CoverOk_congr _ _ _ (CoverOk_flush d g h) hs

/-- Every client call that appends at most `MAX_VERTEX_COUNT` vertices
keeps the coverage invariant. -/
theorem CoverOk_step (d : CDraw) (g : Coverage) (op : CDraw.Op) (h : CoverOk d g)
    (hop : op.amount ≤ MAX_VERTEX_COUNT) (hc : op.isClientCall = true) :
    CoverOk (d.step op) (g.record d (d.step op)) := by
  cases op with
  | addVertices vs => exact CoverOk_AddVertices d g vs h hop
  | setPipelineCaps a => exact CoverOk_of_SameBatch d _ g h (SameBatch_setters d a 0 0 0).1
  | setFramebufferParams a b =>
    exact CoverOk_of_SameBatch d _ g h (SameBatch_setters d a b 0 0).2.1
  | setDepthbufferParams a b =>
    exact CoverOk_of_SameBatch d _ g h (SameBatch_setters d a b 0 0).2.2.1
  | setTextureParams a b c e =>
    exact CoverOk_of_SameBatch d _ g h (SameBatch_setters d a b c e).2.2.2.1
  | setScissor a b c e => exact CoverOk_of_SameBatch d _ g h (SameBatch_setters d a b c e).2.2.2.2
  | flushVertices => exact CoverOk_flush d g h
  | frameFlush => exact CoverOk_frameFlush d g h
  | preFlushFrameCommandBuffer => exact CoverOk_flush d g h
  | postFlushFrameCommandBuffer => simp [CDraw.Op.isClientCall] at hc

/-- The coverage invariant holds along every run of client calls. -/
theorem CoverOk_run (ops : List CDraw.Op) :
    ∀ (d : CDraw) (g : Coverage), CoverOk d g →
      (∀ op ∈ ops, op.amount ≤ MAX_VERTEX_COUNT ∧ op.isClientCall = true) →
      CoverOk (d.run ops) (d.coverage g ops) := by
  induction ops with
  | nil => intro d g h _; exact h
  | cons op rest ih =>
    intro d g h hops
    exact ih (d.step op) _
      (CoverOk_step d g op h (hops op (List.mem_cons_self _ _)).1
        (hops op (List.mem_cons_self _ _)).2)
      (fun o ho => hops o (List.mem_cons_of_mem _ ho))


/-- A client call records no draw or the draw of a flush of the state it
is made in. -/
theorem CDraw.step_draws (d : CDraw) (op : CDraw.Op) (hc : op.isClientCall = true) :
    (d.step op).draws = d.draws ∨ (d.step op).draws = d.FlushVertices.draws := by
  cases op with
  | addVertices vs =>
    have hcopy : (d.step (CDraw.Op.addVertices vs)).draws =
        (d.AddVertices_reserve vs.length).draws := rfl
    rw [hcopy]
    by_cases hover : d.m_passVertexEnd + vs.length > MAX_VERTEX_COUNT
    · right
      have hr : (d.AddVertices_reserve vs.length).draws = d.FrameCommandBuffer_Flush.draws := by
        unfold CDraw.AddVertices_reserve
        rw [if_pos hover, CDraw.check_eq]
      rw [hr]
      exact (CDraw.FrameCommandBuffer_Flush_batch d).2.2.2.1
    · left
      unfold CDraw.AddVertices_reserve
      rw [if_neg hover]
  | setPipelineCaps a =>
    rcases (SameBatch_setters d a 0 0 0).1 with h | h
    · exact Or.inl h.2.2.2.1
    · exact Or.inr h.2.2.2.1
  | setFramebufferParams a b =>
    rcases (SameBatch_setters d a b 0 0).2.1 with h | h
    · exact Or.inl h.2.2.2.1
    · exact Or.inr h.2.2.2.1
  | setDepthbufferParams a b =>
    rcases (SameBatch_setters d a b 0 0).2.2.1 with h | h
    · exact Or.inl h.2.2.2.1
    · exact Or.inr h.2.2.2.1
  | setTextureParams a b c e =>
    rcases (SameBatch_setters d a b c e).2.2.2.1 with h | h
    · exact Or.inl h.2.2.2.1
    · exact Or.inr h.2.2.2.1
  | setScissor a b c e =>
    rcases (SameBatch_setters d a b c e).2.2.2.2 with h | h
    · exact Or.inl h.2.2.2.1
    · exact Or.inr h.2.2.2.1
  | flushVertices => exact Or.inr rfl
  | frameFlush => exact Or.inr (CDraw.FrameCommandBuffer_Flush_batch d).2.2.2.1
  | preFlushFrameCommandBuffer => simp [CDraw.Op.isClientCall] at hc
  | postFlushFrameCommandBuffer => simp [CDraw.Op.isClientCall] at hc

/-- A run followed by one more call. -/
theorem CDraw.run_append (d : CDraw) (ops : List CDraw.Op) (op : CDraw.Op) :
    d.run (ops ++ [op]) = (d.run ops).step op := by
  unfold CDraw.run
  rw [List.foldl_append]
  rfl

/-- The initial state satisfies the coverage invariant with an empty
history. -/
theorem CoverOk_init : CoverOk CDraw.init ⟨[], []⟩ :=
  ⟨Nat.le_refl _, Nat.zero_le _, rfl, rfl, by simp⟩

/-- C29: along every sequence of `AddVertices` calls of at most
`MAX_VERTEX_COUNT` vertices, state setters, `FlushVertices` calls and frame
flushes from the initial state, the vertices covered by the recorded draws,
in recording order, followed by the pending ones are exactly the appended
vertices in append order; when the sequence ends with a flush or a frame
flush nothing is pending, so the draws cover every appended vertex exactly
once and in order. The draws recorded since the last buffer reset cover
adjacent slot ranges from slot 0 up to the window start, the slots of each
still hold the vertices it covered (no append has overwritten them), and
every draw a further call records covers the slots [start, end) of the
window at that time, which hold the pending vertices. -/
theorem draws_cover_appended (ops : List CDraw.Op)
    (hops : ∀ op ∈ ops, op.amount ≤ MAX_VERTEX_COUNT ∧ op.isClientCall = true) :
    (CDraw.init.coverage ⟨[], []⟩ ops).covered ++ (CDraw.init.run ops).pending =
      (CDraw.init.run ops).addLog.flatten ∧
    (CDraw.init.coverage ⟨[], []⟩ (ops ++ [CDraw.Op.flushVertices])).covered =
      (CDraw.init.run (ops ++ [CDraw.Op.flushVertices])).addLog.flatten ∧
    (CDraw.init.coverage ⟨[], []⟩ (ops ++ [CDraw.Op.frameFlush])).covered =
      (CDraw.init.run (ops ++ [CDraw.Op.frameFlush])).addLog.flatten ∧
    Tiles 0 (CDraw.init.coverage ⟨[], []⟩ ops).inFlight (CDraw.init.run ops).m_passVertexStart ∧
    (∀ e ∈ (CDraw.init.coverage ⟨[], []⟩ ops).inFlight,
      e.1.reads (CDraw.init.run ops).m_vertexBuffer = e.2) ∧
    (∀ op : CDraw.Op, op.isClientCall = true →
      ((CDraw.init.run ops).step op).draws = (CDraw.init.run ops).draws ∨
      ∃ call, ((CDraw.init.run ops).step op).draws = (CDraw.init.run ops).draws ++ [call] ∧
        call.firstVertex = (CDraw.init.run ops).m_passVertexStart ∧
        call.firstVertex + call.vertexCount = (CDraw.init.run ops).m_passVertexEnd ∧
        call.reads (CDraw.init.run ops).m_vertexBuffer = (CDraw.init.run ops).pending) := by
  have hm : MAX_VERTEX_COUNT < 2 ^ 32 := by decide
  obtain ⟨hle, hmax, hcov, htile, hkeep⟩ := CoverOk_run ops CDraw.init ⟨[], []⟩ CoverOk_init hops
  have hflush : ∀ op : CDraw.Op, op = CDraw.Op.flushVertices ∨ op = CDraw.Op.frameFlush →
      (CDraw.init.coverage ⟨[], []⟩ (ops ++ [op])).covered =
        (CDraw.init.run (ops ++ [op])).addLog.flatten := by
    intro op hop
    have hops2 : ∀ o ∈ ops ++ [op], o.amount ≤ MAX_VERTEX_COUNT ∧ o.isClientCall = true := by
      intro o ho
      rw [List.mem_append, List.mem_singleton] at ho
      rcases ho with ho | ho
      · exact hops o ho
      · rw [ho]
        rcases hop with h | h <;> rw [h] <;> exact ⟨Nat.zero_le _, rfl⟩
    obtain ⟨-, -, c3, -, -⟩ := CoverOk_run (ops ++ [op]) CDraw.init ⟨[], []⟩ CoverOk_init hops2
    have hp : (CDraw.init.run (ops ++ [op])).pending = [] := by
      rw [CDraw.run_append]
      unfold CDraw.pending
      rcases hop with h | h
      · rw [h]
        show slotsOf _ (CDraw.init.run ops).FlushVertices.m_passVertexStart
          ((CDraw.init.run ops).FlushVertices.m_passVertexEnd -
            (CDraw.init.run ops).FlushVertices.m_passVertexStart) = []
        obtain ⟨p1, p2⟩ := CDraw.FlushVertices_pending _ hle hmax
        rw [p1, p2, Nat.sub_self]
        rfl
      · rw [h]
        show slotsOf _ (CDraw.init.run ops).FrameCommandBuffer_Flush.m_passVertexStart
          ((CDraw.init.run ops).FrameCommandBuffer_Flush.m_passVertexEnd -
            (CDraw.init.run ops).FrameCommandBuffer_Flush.m_passVertexStart) = []
        obtain ⟨-, p1, p2, -⟩ := CDraw.FrameCommandBuffer_Flush_batch (CDraw.init.run ops)
        rw [p1, p2]
        rfl
    rw [hp, List.append_nil] at c3
    exact c3
  refine ⟨hcov, hflush _ (Or.inl rfl), hflush _ (Or.inr rfl), htile, hkeep, ?_⟩
  intro op hc
  rcases CDraw.step_draws (CDraw.init.run ops) op hc with h | h
  · exact Or.inl h
  · by_cases hv : (CDraw.init.run ops).vertexCount = 0
    · left
      rw [h, CDraw.FlushVertices_empty _ hv]
    · right
      obtain ⟨call, hd, hcw, -, -⟩ := CDraw.FlushVertices_records _ hv
      refine ⟨call, by rw [h, hd], firstVertex_of_CoversWindow _ _ hcw, ?_,
        reads_of_CoversWindow _ _ hcw hle hmax⟩
      rw [firstVertex_of_CoversWindow _ _ hcw, hcw.1, CDraw.vertexCount_eq _ hle (by omega)]
      omega

/-- Instance of C29: two triangles with a change of the capability key in
between, then a flush: the two draws cover the six appended vertices in
order. -/
theorem draws_cover_appended_witness :
    (∀ op ∈ CDraw.twoTriangleOps, op.amount ≤ MAX_VERTEX_COUNT ∧ op.isClientCall = true) ∧
    (CDraw.init.coverage ⟨[], []⟩ (CDraw.twoTriangleOps ++ [CDraw.Op.flushVertices])).covered =
      (CDraw.init.run (CDraw.twoTriangleOps ++ [CDraw.Op.flushVertices])).addLog.flatten ∧
    (CDraw.init.run (CDraw.twoTriangleOps ++ [CDraw.Op.flushVertices])).addLog.flatten.length = 6 ∧
    (CDraw.init.run (CDraw.twoTriangleOps ++ [CDraw.Op.flushVertices])).draws.length = 2 :=
  ⟨by decide, (draws_cover_appended CDraw.twoTriangleOps (by decide)).2.1, by decide, by decide⟩

end GSH_Vulkan
